import Mathlib

/-!
# Card validation and card registry of the subscription service

Shallow embedding of `internal/service/card_service.go`,
`internal/repository/card_repository.go` and `internal/model/model.go`, followed by
the subscription life cycle: `internal/service/subscription_service.go`,
`internal/service/razorpay_service.go`, `internal/razorpay/client.go` and
`internal/repository/subscription_repository.go`.

* A Go `string` is a sequence of bytes; it is modelled as `List Nat`, one
  entry per byte.  Literals are written `go "..."` (UTF-8 encoding).
* Go regular expressions are embedded as Mathlib `RegularExpression`s over
  bytes and run with the derivative matcher `rmatch`.  Every pattern of the
  source uses ASCII classes only and is anchored at both ends, so matching
  bytes and matching runes agree.
* `time.Now()` is a parameter (`currentYear`, `currentMonth`).
* The `cards` table is a list of rows; SQL statements act on it as total
  functions.
* The table `subscription_transactions` is a list of rows.  Queries succeed; the two
  statements of `SQLSubscriptionRepository.CreateSubscription` succeed or fail as the
  environment says.
* The payment gateway is a function from requests to answers; every operation returns
  the list of requests it made.
-/

namespace SubscriptionService

/-! ## Strings -/

/-- A Go string: its bytes, in order. -/
abbrev GoString := List Nat

/-- UTF-8 encoding of one Unicode scalar value. -/
def utf8Bytes (c : Char) : List Nat :=
  let n := c.toNat
  if n < 128 then [n]
  else if n < 2048 then [192 + n / 64, 128 + n % 64]
  else if n < 65536 then [224 + n / 4096, 128 + n / 64 % 64, 128 + n % 64]
  else [240 + n / 262144, 128 + n / 4096 % 64, 128 + n / 64 % 64, 128 + n % 64]

/-- Bytes of a list of characters. -/
def utf8List : List Char → GoString
  | [] => []
  | c :: cs => utf8Bytes c ++ utf8List cs

/-- The Go string written as the literal `s`. -/
def go (s : String) : GoString := utf8List s.toList

/-! ## Regular expressions of the source -/

/-- A character class given by the list of its bytes. -/
def oneOf : List Nat → RegularExpression Nat
  | [] => 0
  | b :: bs => RegularExpression.char b + oneOf bs

/-- Go `\d`: the ASCII digits `0`..`9`. -/
def digitRe : RegularExpression Nat := oneOf [48, 49, 50, 51, 52, 53, 54, 55, 56, 57]

/-- The pattern `^\d+$`. -/
def allDigitsRe : RegularExpression Nat := digitRe * RegularExpression.star digitRe

/-- The pattern `^4\d{12}(\d{3})?$`. -/
def visaRe : RegularExpression Nat :=
  RegularExpression.char 52 * digitRe ^ 12 * (1 + digitRe ^ 3)

/-- The pattern `^5[1-5]\d{14}$`. -/
def mastercardRe : RegularExpression Nat :=
  RegularExpression.char 53 * oneOf [49, 50, 51, 52, 53] * digitRe ^ 14

/-- The pattern `^3[47]\d{13}$`. -/
def amexRe : RegularExpression Nat :=
  RegularExpression.char 51 * oneOf [52, 55] * digitRe ^ 13

/-- The pattern `^6(?:011|5\d{2})\d{12}$`. -/
def discoverRe : RegularExpression Nat :=
  RegularExpression.char 54
    * (RegularExpression.char 48 * RegularExpression.char 49 * RegularExpression.char 49
        + RegularExpression.char 53 * digitRe ^ 2)
    * digitRe ^ 12

/-- Go `regexp.MatchString` for an anchored pattern. -/
def matchString (re : RegularExpression Nat) (s : GoString) : Bool := re.rmatch s

/-- A decimal digit: one of the bytes `0`..`9`. -/
def isDigit (b : Nat) : Bool := decide (48 ≤ b ∧ b ≤ 57)

/-- Go `\s`: tab, line feed, form feed, carriage return, space. -/
def isSpace (b : Nat) : Bool := b == 9 || b == 10 || b == 12 || b == 13 || b == 32

/-- The class `[\s-]`. -/
def isSeparator (b : Nat) : Bool := isSpace b || b == 45

/-- The statement `re.ReplaceAllString(number, "")` with `re = [\s-]`. -/
def stripSeparators (number : GoString) : GoString :=
  number.filter (fun b => !isSeparator b)

/-- The string `s` with whitespace and hyphens removed, in the words of the specification:
the bytes of `s` in their order, leaving out every tab, line feed, form feed, carriage
return, space and hyphen. -/
def withoutSeparatorsSpec : GoString → GoString
  | [] => []
  | b :: rest =>
    if b = 9 ∨ b = 10 ∨ b = 12 ∨ b = 13 ∨ b = 32 ∨ b = 45 then withoutSeparatorsSpec rest
    else b :: withoutSeparatorsSpec rest

/-! ## Card validator -/

/-- One iteration of the checksum loop of `isValidCardNumber`: the state is `(sum, alt)`. -/
def luhnStep (b : Nat) (st : Nat × Bool) : Nat × Bool :=
  let n := (b + 256 - 48) % 256
  let n := if st.2 then (if n * 2 > 9 then (n * 2) % 10 + 1 else n * 2) else n
  (st.1 + n, !st.2)

/-- The loop `for i := len(number) - 1; i >= 0; i--` of `isValidCardNumber`. -/
def luhnLoop (number : GoString) : Nat × Bool :=
  number.foldr luhnStep (0, false)

/-- Embedding of `isValidCardNumber`. -/
def isValidCardNumber (number : GoString) : Bool :=
  let number := stripSeparators number
  if !matchString allDigitsRe number then false
  else if number.length < 13 || number.length > 19 then false
  else (luhnLoop number).1 % 10 == 0

/-- The number a digit byte stands for. -/
def digitValue (b : Nat) : Nat := b - 48

/-- The sum of the two decimal digits of a number below 100. -/
def digitSum (n : Nat) : Nat := n / 10 + n % 10

/-- The contribution of the digit byte `b` at position `i`, counted from the rightmost digit
at position 0, in the words of the specification: every second digit is doubled, and a
doubled value above 9 is replaced by the sum of its two digits. -/
def luhnTerm (p : Nat × Nat) : Nat :=
  if p.1 % 2 = 1 then
    if 2 * digitValue p.2 > 9 then digitSum (2 * digitValue p.2) else 2 * digitValue p.2
  else digitValue p.2

/-- The Luhn sum of a digit string in the words of the specification. -/
def luhnSumSpec (number : GoString) : Nat :=
  (number.reverse.enum.map luhnTerm).sum

/-- Embedding of `isValidExpiryDate`; the clock reading is `currentYear`, `currentMonth`. -/
def isValidExpiryDate (currentYear currentMonth : Int) (month year : Int) : Bool :=
  if month < 1 || month > 12 then false
  else if year < currentYear || (year == currentYear && month < currentMonth) then false
  else if year > currentYear + 10 then false
  else true

/-- Embedding of `determineCardType`. -/
def determineCardType (number : GoString) : GoString :=
  let number := stripSeparators number
  if matchString visaRe number then go "VISA"
  else if matchString mastercardRe number then go "MASTERCARD"
  else if matchString amexRe number then go "AMEX"
  else if matchString discoverRe number then go "DISCOVER"
  else go "UNKNOWN"

/-- The string `number` is `pfx` followed by exactly `k` decimal digits. -/
def followedByDigits (pfx : GoString) (k : Nat) (number : GoString) : Bool :=
  number.take pfx.length == pfx
    && (number.drop pfx.length).length == k
    && (number.drop pfx.length).all isDigit

/-- The VISA pattern in the words of the specification: `4`, then 12 or 15 digits. -/
def isVisaPattern (number : GoString) : Bool :=
  followedByDigits (go "4") 12 number || followedByDigits (go "4") 15 number

/-- The MASTERCARD pattern in the words of the specification: `51`..`55`, then 14 digits. -/
def isMastercardPattern (number : GoString) : Bool :=
  (go "12345").any (fun c => followedByDigits (go "5" ++ [c]) 14 number)

/-- The AMEX pattern in the words of the specification: `34` or `37`, then 13 digits. -/
def isAmexPattern (number : GoString) : Bool :=
  followedByDigits (go "34") 13 number || followedByDigits (go "37") 13 number

/-- The DISCOVER pattern in the words of the specification: `6011` or `65`, then 12 digits. -/
def isDiscoverPatternSpec (number : GoString) : Bool :=
  followedByDigits (go "6011") 12 number || followedByDigits (go "65") 12 number

/-- The DISCOVER pattern of the code: `6011` then 12 digits, or `65` then 14 digits. -/
def isDiscoverPattern (number : GoString) : Bool :=
  followedByDigits (go "6011") 12 number || followedByDigits (go "65") 14 number

/-- The error values of `card_service.go` and `card_repository.go`. -/
inductive CardError where
  /-- The value `ErrInvalidCardNumber`. -/
  | ErrInvalidCardNumber
  /-- The value `ErrInvalidExpiryDate`. -/
  | ErrInvalidExpiryDate
  /-- The value `ErrInvalidCardHolderName`. -/
  | ErrInvalidCardHolderName
  /-- The value `ErrCardNotFound`. -/
  | ErrCardNotFound
  /-- The value `ErrUnauthorized`. -/
  | ErrUnauthorized
  /-- The value `errors.New("card already exists for this user")` of `CreateCard`. -/
  | ErrCardAlreadyExists
  /-- The value `errors.New("card not found or doesn't belong to user")` of `SetDefault`. -/
  | ErrNotFoundOrNotOwned
  deriving DecidableEq, Repr

/-- The struct `model.Card`; every field is a column of the `cards` table. -/
structure Card where
  /-- Column `id`. -/
  id : GoString
  /-- Column `user_id`. -/
  userID : GoString
  /-- Column `card_number`. -/
  cardNumber : GoString
  /-- Column `card_holder_name`. -/
  cardHolderName : GoString
  /-- Column `expiry_month`. -/
  expiryMonth : Int
  /-- Column `expiry_year`. -/
  expiryYear : Int
  /-- Column `card_type`. -/
  cardType : GoString
  /-- Column `last_four_digits`. -/
  lastFourDigits : GoString
  /-- Column `is_default`. -/
  isDefault : Bool
  /-- Column `created_at`. -/
  createdAt : Nat
  /-- Column `updated_at`. -/
  updatedAt : Nat
  deriving DecidableEq, Repr

/-- What a call reads from outside the program: the clock and the UUID generator. -/
structure Env where
  /-- The value `time.Now().Year()`. -/
  currentYear : Int
  /-- The value `int(time.Now().Month())`. -/
  currentMonth : Int
  /-- The value `uuid.New().String()`. -/
  newID : GoString
  /-- The first `time.Now()` of a repository call. -/
  now : Nat
  /-- The second `time.Now()` of `Create`. -/
  now2 : Nat
  deriving DecidableEq, Repr

/-- Embedding of `validateCard`; `none` is the Go result `nil`. -/
def validateCard (env : Env) (card : Card) : Option CardError :=
  if !isValidCardNumber card.cardNumber then some CardError.ErrInvalidCardNumber
  else if !isValidExpiryDate env.currentYear env.currentMonth card.expiryMonth card.expiryYear then
    some CardError.ErrInvalidExpiryDate
  else if card.cardHolderName == [] then some CardError.ErrInvalidCardHolderName
  else none

/-! ## Card repository -/

/-- The rows of the `cards` table, in insertion order. -/
abbrev CardStore := List Card

/-- The slice `s[len(s)-4:]`, taken when `len(s) >= 4`. -/
def lastFourBytes (s : GoString) : GoString := s.drop (s.length - 4)

/-- Embedding of `SQLCardRepository.Create`: the card as the caller sees it afterwards, and
the table with the inserted row. -/
def SQLCardRepository.Create (env : Env) (store : CardStore) (card : Card) : Card × CardStore :=
  let card := if card.id == [] then { card with id := env.newID } else card
  let card :=
    if card.cardNumber.length ≥ 4 then
      { card with lastFourDigits := lastFourBytes card.cardNumber }
    else card
  let card := { card with createdAt := env.now, updatedAt := env.now2 }
  (card, store ++ [card])

/-- Embedding of `SQLCardRepository.GetByID`: the first row with that id, `none` when
there is no row. -/
def SQLCardRepository.GetByID (store : CardStore) (id : GoString) : Option Card :=
  store.find? (fun c => c.id == id)

/-- Embedding of `SQLCardRepository.GetByUserID`. -/
def SQLCardRepository.GetByUserID (store : CardStore) (userID : GoString) : List Card :=
  store.filter (fun c => c.userID == userID)

/-- Embedding of `SQLCardRepository.Update`: the `UPDATE ... WHERE id = :id` statement. -/
def SQLCardRepository.Update (env : Env) (store : CardStore) (card : Card) : CardStore :=
  store.map (fun c =>
    if c.id == card.id then
      { c with
        cardHolderName := card.cardHolderName
        expiryMonth := card.expiryMonth
        expiryYear := card.expiryYear
        isDefault := card.isDefault
        updatedAt := env.now }
    else c)

/-- Embedding of `SQLCardRepository.Delete`. -/
def SQLCardRepository.Delete (store : CardStore) (id : GoString) : CardStore :=
  store.filter (fun c => !(c.id == id))

/-- Embedding of `SQLCardRepository.SetDefault`: both statements run in one transaction,
which is rolled back when the second one affects no row. -/
def SQLCardRepository.SetDefault (store : CardStore) (userID cardID : GoString) :
    Option CardError × CardStore :=
  let cleared := store.map (fun c => if c.userID == userID then { c with isDefault := false } else c)
  let rowsAffected := (cleared.filter (fun c => c.id == cardID && c.userID == userID)).length
  if rowsAffected == 0 then (some CardError.ErrNotFoundOrNotOwned, store)
  else
    (none, cleared.map (fun c =>
      if c.id == cardID && c.userID == userID then { c with isDefault := true } else c))

/-- Embedding of `SQLCardRepository.DeleteByUserID`. -/
def SQLCardRepository.DeleteByUserID (store : CardStore) (userID : GoString) : CardStore :=
  store.filter (fun c => !(c.userID == userID))

/-! ## Card service -/

/-- The duplicate loop of `CreateCard` over the owner's rows. -/
def hasLastFour (existingCards : List Card) (lastFour : GoString) : Bool :=
  existingCards.any (fun existingCard => existingCard.lastFourDigits == lastFour)

/-- Embedding of `DefaultCardService.CreateCard`: the returned error (`none` for `nil`), the
card behind the caller's pointer, and the table afterwards. -/
def CreateCard (env : Env) (store : CardStore) (card : Card) :
    Option CardError × Card × CardStore :=
  let cardLength := card.cardNumber.length
  let lastFour := if cardLength ≥ 4 then lastFourBytes card.cardNumber else []
  let existingCards := SQLCardRepository.GetByUserID store card.userID
  if hasLastFour existingCards lastFour then
    (some CardError.ErrCardAlreadyExists, card, store)
  else
    match validateCard env card with
    | some err => (some err, card, store)
    | none =>
      let card := { card with cardType := determineCardType card.cardNumber }
      let r := SQLCardRepository.Create env store card
      (none, r.1, r.2)

/-- Embedding of `DefaultCardService.GetCard`. -/
def GetCard (store : CardStore) (id userID : GoString) : Except CardError Card :=
  match SQLCardRepository.GetByID store id with
  | none => Except.error CardError.ErrCardNotFound
  | some card =>
    if card.userID != userID then Except.error CardError.ErrUnauthorized
    else Except.ok card

/-- Embedding of `DefaultCardService.GetUserCards`. -/
def GetUserCards (store : CardStore) (userID : GoString) : List Card :=
  SQLCardRepository.GetByUserID store userID

/-- Embedding of `DefaultCardService.UpdateCard`. -/
def UpdateCard (env : Env) (store : CardStore) (card : Card) : Option CardError × CardStore :=
  match GetCard store card.id card.userID with
  | Except.error err => (some err, store)
  | Except.ok existingCard =>
    let card :=
      { card with
        cardNumber := existingCard.cardNumber
        lastFourDigits := existingCard.lastFourDigits
        cardType := existingCard.cardType }
    if card.cardHolderName == [] then (some CardError.ErrInvalidCardHolderName, store)
    else if !isValidExpiryDate env.currentYear env.currentMonth card.expiryMonth card.expiryYear then
      (some CardError.ErrInvalidExpiryDate, store)
    else (none, SQLCardRepository.Update env store card)

/-- Embedding of `DefaultCardService.DeleteCard`. -/
def DeleteCard (store : CardStore) (id userID : GoString) : Option CardError × CardStore :=
  match GetCard store id userID with
  | Except.error err => (some err, store)
  | Except.ok _ => (none, SQLCardRepository.Delete store id)

/-- Embedding of `DefaultCardService.SetDefaultCard`. -/
def SetDefaultCard (store : CardStore) (userID cardID : GoString) :
    Option CardError × CardStore :=
  match GetCard store cardID userID with
  | Except.error err => (some err, store)
  | Except.ok _ => SQLCardRepository.SetDefault store userID cardID

/-- Embedding of `DefaultCardService.DeleteAllUserCards`. -/
def DeleteAllUserCards (store : CardStore) (userID : GoString) : CardStore :=
  SQLCardRepository.DeleteByUserID store userID

/-- The card the controller hands to `CreateCard`: only the request fields are set. -/
def newCard (userID cardNumber cardHolderName : GoString) (expiryMonth expiryYear : Int) : Card :=
  { id := [], userID := userID, cardNumber := cardNumber, cardHolderName := cardHolderName,
    expiryMonth := expiryMonth, expiryYear := expiryYear, cardType := [], lastFourDigits := [],
    isDefault := false, createdAt := 0, updatedAt := 0 }

/-- A sequence of `CreateCard` calls, each with its own clock and UUID reading. -/
def createCards (store : CardStore) : List (Env × Card) → CardStore
  | [] => store
  | (env, card) :: rest => createCards (CreateCard env store card).2.2 rest

/-- No owner has two rows with the same `last_four_digits`. -/
def NoDuplicateLastFour (store : CardStore) : Prop :=
  store.Pairwise (fun a b => a.userID = b.userID → a.lastFourDigits ≠ b.lastFourDigits)

instance (store : CardStore) : Decidable (NoDuplicateLastFour store) := by
  unfold NoDuplicateLastFour
  infer_instance

/-- A clock and UUID reading used in examples: November 2026. -/
def sampleEnv : Env :=
  { currentYear := 2026, currentMonth := 11, newID := go "c-1", now := 100, now2 := 101 }

/-- A registration request used in examples. -/
def sampleCard : Card :=
  newCard (go "user-1") (go "4532015112830366") (go "A. Holder") 12 2027

/-- The row that registering `sampleCard` under `sampleEnv` inserts. -/
def sampleRow : Card :=
  { id := go "c-1", userID := go "user-1", cardNumber := go "4532015112830366",
    cardHolderName := go "A. Holder", expiryMonth := 12, expiryYear := 2027,
    cardType := go "VISA", lastFourDigits := go "0366", isDefault := false,
    createdAt := 100, updatedAt := 101 }

/-- The card the controller hands to `UpdateCard`: the path id and the request fields. -/
def updateRequestCard (id userID cardHolderName : GoString) (expiryMonth expiryYear : Int) :
    Card :=
  { id := id, userID := userID, cardNumber := [], cardHolderName := cardHolderName,
    expiryMonth := expiryMonth, expiryYear := expiryYear, cardType := [], lastFourDigits := [],
    isDefault := false, createdAt := 0, updatedAt := 0 }

/-- The number of rows of `owner` with `is_default = true`. -/
def defaultCount (store : CardStore) (owner : GoString) : Nat :=
  (store.filter (fun c => c.userID == owner && c.isDefault)).length

/-- A sequence of `SetDefaultCard` calls, each given as `(userID, cardID)`. -/
def setDefaultCards (store : CardStore) : List (GoString × GoString) → CardStore
  | [] => store
  | (userID, cardID) :: rest => setDefaultCards (SetDefaultCard store userID cardID).2 rest

/-- What one row looks like after a successful `UpdateCard card`, compared with before. -/
def UpdateFrame (card : Card) (before after : Card) : Prop :=
  after.id = before.id ∧ after.userID = before.userID
    ∧ after.cardNumber = before.cardNumber
    ∧ after.lastFourDigits = before.lastFourDigits
    ∧ after.cardType = before.cardType
    ∧ after.createdAt = before.createdAt
    ∧ (before.id ≠ card.id → after = before)
    ∧ (before.id = card.id →
        after.cardHolderName = card.cardHolderName ∧ after.expiryMonth = card.expiryMonth
          ∧ after.expiryYear = card.expiryYear ∧ after.isDefault = card.isDefault)

/-! ## Subscriptions: data model

`internal/model/subscription_models.go`, `internal/model/user_model.go` and
`internal/service/sql_helpers.go`.  A `time.Time` is an instant; `Time.AddDate` is a
parameter of the environment.  A `float64` is carried as its bit pattern: prices are
only copied, and the conversion `int(amount * 100)` is a parameter of the environment.
A `map[string]interface{}` is an association list of decoded JSON values. -/

/-- A Go `time.Time`. -/
abbrev Time := Nat

/-- A Go `float64`, carried as its bit pattern. -/
structure Float64 where
  /-- The 64 bits of the value. -/
  bits : Nat
  deriving DecidableEq, Repr

/-- The struct `sql.NullString`. -/
structure NullString where
  /-- Field `String`. -/
  str : GoString
  /-- Field `Valid`. -/
  valid : Bool
  deriving DecidableEq, Repr

/-- Embedding of `toNullString`. -/
def toNullString (s : GoString) : NullString :=
  if s == [] then { str := [], valid := false } else { str := s, valid := true }

/-- Embedding of `fromNullString`. -/
def fromNullString (ns : NullString) : GoString :=
  if !ns.valid then [] else ns.str

/-- A Go `interface{}` holding decoded JSON. -/
inductive Json where
  /-- The value `nil`. -/
  | null
  /-- A `bool`. -/
  | bool (b : Bool)
  /-- A `float64`. -/
  | number (n : Float64)
  /-- A `string`. -/
  | str (s : GoString)
  /-- A `[]interface{}`. -/
  | arr (items : List Json)
  /-- A `map[string]interface{}`. -/
  | obj (fields : List (GoString × Json))

/-- A Go `map[string]interface{}`; the first entry of a key is its value. -/
abbrev JsonObject := List (GoString × Json)

/-- The statement `v, _ := m[key].(string)`. -/
def mapString (m : JsonObject) (key : GoString) : GoString :=
  match m.lookup key with
  | some (Json.str s) => s
  | _ => []

/-- The statement `v, ok := m[key].(string)`; `none` is `ok = false`. -/
def mapStringOk (m : JsonObject) (key : GoString) : Option GoString :=
  match m.lookup key with
  | some (Json.str s) => some s
  | _ => none

/-- The statement `v, _ := m[key].(map[string]interface{})`; `none` is the `nil` map. -/
def mapObject (m : JsonObject) (key : GoString) : Option JsonObject :=
  match m.lookup key with
  | some (Json.obj fields) => some fields
  | _ => none

/-- The struct `model.SubscriptionProduct`. -/
structure SubscriptionProduct where
  /-- Column `id`. -/
  id : GoString
  /-- Column `name`. -/
  name : GoString
  /-- Column `created_at`. -/
  createdAt : Time
  /-- Column `updated_at`. -/
  updatedAt : Time
  deriving DecidableEq, Repr

/-- The struct `model.SubscriptionProductAttribute`. -/
structure SubscriptionProductAttribute where
  /-- Column `id`. -/
  id : GoString
  /-- Column `product_id`. -/
  productID : GoString
  /-- Column `name`. -/
  name : GoString
  /-- Column `value`. -/
  value : GoString
  /-- Column `created_at`. -/
  createdAt : Time
  /-- Column `updated_at`. -/
  updatedAt : Time
  deriving DecidableEq, Repr

/-- The struct `model.SubscriptionPlan`; `attributes` is not a column. -/
structure SubscriptionPlan where
  /-- Column `id`. -/
  id : GoString
  /-- Column `product_id`. -/
  productID : GoString
  /-- Column `name`. -/
  name : GoString
  /-- Column `price_monthly`. -/
  priceMonthly : Float64
  /-- Column `price_yearly`. -/
  priceYearly : Float64
  /-- Field `Attributes`, tagged `db:"-"`. -/
  attributes : List SubscriptionProductAttribute
  /-- Column `created_at`. -/
  createdAt : Time
  /-- Column `updated_at`. -/
  updatedAt : Time
  deriving DecidableEq, Repr

/-- The struct `model.SubscriptionTransaction`. -/
structure SubscriptionTransaction where
  /-- Column `id`. -/
  id : GoString
  /-- Column `user_id`. -/
  userID : GoString
  /-- Column `product_id`. -/
  productID : GoString
  /-- Column `plan_id`. -/
  planID : GoString
  /-- Column `card_id`. -/
  cardID : GoString
  /-- Column `is_renewal`. -/
  isRenewal : Bool
  /-- Column `is_active`. -/
  isActive : Bool
  /-- Column `payment_type`. -/
  paymentType : GoString
  /-- Column `amount`. -/
  amount : Float64
  /-- Column `start_date`. -/
  startDate : Time
  /-- Column `end_date`. -/
  endDate : Time
  /-- Column `next_renewal_date`. -/
  nextRenewalDate : Time
  /-- Column `created_at`. -/
  createdAt : Time
  /-- Column `updated_at`. -/
  updatedAt : Time
  /-- Column `razorpay_payment_id`. -/
  razorpayPaymentID : NullString
  /-- Column `razorpay_order_id`. -/
  razorpayOrderID : NullString
  /-- Column `razorpay_subscription_id`. -/
  razorpaySubscriptionID : NullString
  /-- Field `RazorpayKeyID`, tagged `db:"-"`. -/
  razorpayKeyID : GoString
  /-- Column `auto_renewal`. -/
  autoRenewal : Bool
  /-- Field `PlanName`, tagged `db:"-"`. -/
  planName : GoString
  /-- Field `ProductName`, tagged `db:"-"`. -/
  productName : GoString
  /-- Field `CardLastFour`, tagged `db:"-"`. -/
  cardLastFour : GoString
  deriving DecidableEq, Repr

/-- The struct `model.SubscriptionPlanWithAttributes`. -/
structure SubscriptionPlanWithAttributes where
  /-- Field `Plan`. -/
  plan : SubscriptionPlan
  /-- Field `Attributes`. -/
  attributes : List SubscriptionProductAttribute
  deriving DecidableEq, Repr

/-- The struct `model.SubscriptionRequest`. -/
structure SubscriptionRequest where
  /-- Field `UserID`. -/
  userID : GoString
  /-- Field `ProductID`. -/
  productID : GoString
  /-- Field `PlanID`. -/
  planID : GoString
  /-- Field `CardID`. -/
  cardID : GoString
  /-- Field `PaymentType`. -/
  paymentType : GoString
  /-- Field `AutoRenewal`. -/
  autoRenewal : Bool
  deriving DecidableEq, Repr

/-- The struct `model.UserInfo`. -/
structure UserInfo where
  /-- Field `ID`. -/
  id : GoString
  /-- Field `Name`. -/
  name : GoString
  /-- Field `Email`. -/
  email : GoString
  /-- Field `Phone`. -/
  phone : GoString
  /-- Field `RazorpayCustomerID`. -/
  razorpayCustomerID : GoString
  /-- Field `CreatedAt`. -/
  createdAt : Time
  /-- Field `UpdatedAt`. -/
  updatedAt : Time
  deriving DecidableEq, Repr

/-- The zero value of `model.SubscriptionTransaction`. -/
def SubscriptionTransaction.zero : SubscriptionTransaction :=
  { id := [], userID := [], productID := [], planID := [], cardID := [], isRenewal := false,
    isActive := false, paymentType := [], amount := { bits := 0 }, startDate := 0, endDate := 0,
    nextRenewalDate := 0, createdAt := 0, updatedAt := 0,
    razorpayPaymentID := { str := [], valid := false },
    razorpayOrderID := { str := [], valid := false },
    razorpaySubscriptionID := { str := [], valid := false },
    razorpayKeyID := [], autoRenewal := false, planName := [], productName := [],
    cardLastFour := [] }

/-- Go error values of the subscription and payment code. -/
inductive GoError where
  /-- The value `ErrInvalidPlan`. -/
  | ErrInvalidPlan
  /-- The value `ErrInvalidCard`. -/
  | ErrInvalidCard
  /-- The value `ErrInvalidPaymentType`. -/
  | ErrInvalidPaymentType
  /-- The value `ErrSubscriptionNotFound`. -/
  | ErrSubscriptionNotFound
  /-- The value `ErrUnauthorized` of `card_service.go`. -/
  | ErrUnauthorized
  /-- The value `ErrRazorpayOperationFailed`. -/
  | ErrRazorpayOperationFailed
  /-- The value `ErrInvalidWebhookSignature`. -/
  | ErrInvalidWebhookSignature
  /-- The value `razorpay.ErrPaymentCreationFailed`. -/
  | ErrPaymentCreationFailed
  /-- The value `razorpay.ErrSubscriptionCreationFailed`. -/
  | ErrSubscriptionCreationFailed
  /-- The value `razorpay.ErrCustomerCreationFailed`. -/
  | ErrCustomerCreationFailed
  /-- The value `razorpay.ErrPlanCreationFailed`. -/
  | ErrPlanCreationFailed
  /-- An error returned by the database driver or by the gateway SDK. -/
  | external (msg : GoString)
  /-- The value `errors.New(msg)` or `fmt.Errorf` without an error operand. -/
  | new (msg : GoString)
  /-- The value `fmt.Errorf("%w: %v", outer, cause)`. -/
  | wrap (outer cause : GoError)
  /-- The value `fmt.Errorf(msg + ": %v", cause)`. -/
  | prefixed (msg : GoString) (cause : GoError)
  deriving DecidableEq, Repr

/-- The tables of the database. -/
structure Database where
  /-- Table `cards`. -/
  cards : CardStore
  /-- Table `subscription_products`. -/
  products : List SubscriptionProduct
  /-- Table `subscription_plans`. -/
  plans : List SubscriptionPlan
  /-- Table `subscription_product_attributes`. -/
  attributes : List SubscriptionProductAttribute
  /-- Table `subscription_plan_attributes`: pairs `(plan_id, attribute_id)`. -/
  planAttributes : List (GoString × GoString)
  /-- Table `subscription_transactions`, in insertion order. -/
  subscriptions : List SubscriptionTransaction
  deriving DecidableEq, Repr

/-- A request sent to the payment gateway through the `razorpay-go` SDK. -/
inductive GatewayCall where
  /-- The call `Customer.Fetch(customerID, ...)`. -/
  | customerFetch (customerID : GoString)
  /-- The call `Customer.Create` with `name`, `email`, `contact`. -/
  | customerCreate (name email contact : GoString)
  /-- The call `Subscription.Create` with `plan_id`, `customer_id`, `total_count`,
  `customer_notify`. -/
  | subscriptionCreate (planID customerID : GoString) (totalCount customerNotify : Int)
  /-- The call `Order.Create` with `amount`, `currency`, `receipt`. -/
  | orderCreate (amount : Int) (currency receipt : GoString)
  /-- The call `Subscription.Cancel(subscriptionID, ...)` with `cancel_at_cycle_end`. -/
  | subscriptionCancel (subscriptionID : GoString) (cancelAtCycleEnd : Bool)
  deriving DecidableEq, Repr

/-- What a subscription operation reads from outside the program. -/
structure SubEnv where
  /-- The value `uuid.New().String()` of the service. -/
  newID : GoString
  /-- The value `uuid.New().String()` of the repository. -/
  repoID : GoString
  /-- The first `time.Now()` of the service. -/
  now : Time
  /-- The second `time.Now()` of the service. -/
  now2 : Time
  /-- The third `time.Now()` of the service. -/
  now3 : Time
  /-- The first `time.Now()` of the repository. -/
  createdAt : Time
  /-- The second `time.Now()` of the repository. -/
  updatedAt : Time
  /-- The method `Time.AddDate(years, months, days)`. -/
  addDate : Time → Int → Int → Int → Time
  /-- The conversion `int(amount * 100)`. -/
  inPaise : Float64 → Int
  /-- The error, if any, of the `UPDATE` that deactivates the active rows of an owner. -/
  deactivateErr : Option GoError
  /-- The error, if any, of the `INSERT` into `subscription_transactions`. -/
  insertErr : Option GoError

/-- The result of an operation: the returned value or error, the table
`subscription_transactions` afterwards, and the gateway requests made, in order. -/
structure Outcome (α : Type) where
  /-- The Go results `(value, error)`. -/
  result : Except GoError α
  /-- Table `subscription_transactions` afterwards. -/
  subscriptions : List SubscriptionTransaction
  /-- The gateway requests made. -/
  calls : List GatewayCall

/-! ## Payment gateway client (`internal/razorpay/client.go`) -/

/-- The struct `razorpay.Client`; `sdk` is the answer of the `razorpay-go` client to a
request. -/
structure Client where
  /-- Field `client`. -/
  sdk : GatewayCall → Except GoError JsonObject
  /-- Field `keyID`. -/
  keyID : GoString
  /-- Field `keySecret`. -/
  keySecret : GoString

/-- Embedding of `Client.CreateOrder`. -/
def Client.CreateOrder (c : Client) (amount : Int) (currency receiptID : GoString) :
    Except GoError JsonObject × List GatewayCall :=
  match c.sdk (GatewayCall.orderCreate amount currency receiptID) with
  | Except.error err =>
    (Except.error (GoError.wrap GoError.ErrPaymentCreationFailed err),
      [GatewayCall.orderCreate amount currency receiptID])
  | Except.ok order => (Except.ok order, [GatewayCall.orderCreate amount currency receiptID])

/-- Embedding of `Client.CreateCustomer`. -/
def Client.CreateCustomer (c : Client) (name email contact : GoString) :
    Except GoError JsonObject × List GatewayCall :=
  match c.sdk (GatewayCall.customerCreate name email contact) with
  | Except.error err =>
    (Except.error (GoError.wrap GoError.ErrCustomerCreationFailed err),
      [GatewayCall.customerCreate name email contact])
  | Except.ok customer => (Except.ok customer, [GatewayCall.customerCreate name email contact])

/-- Embedding of `Client.GetOrCreateCustomer`. -/
def Client.GetOrCreateCustomer (c : Client) (customerID name email contact : GoString) :
    Except GoError JsonObject × List GatewayCall :=
  if customerID != [] then
    match c.sdk (GatewayCall.customerFetch customerID) with
    | Except.ok customer => (Except.ok customer, [GatewayCall.customerFetch customerID])
    | Except.error _ =>
      let r := c.CreateCustomer name email contact
      (r.1, GatewayCall.customerFetch customerID :: r.2)
  else c.CreateCustomer name email contact

/-- Embedding of `Client.CreateSubscription`. -/
def Client.CreateSubscription (c : Client) (planID customerID : GoString) (totalCount : Int)
    (customerNotify : Bool) : Except GoError JsonObject × List GatewayCall :=
  let notifyValue : Int := if customerNotify then 1 else 0
  match c.sdk (GatewayCall.subscriptionCreate planID customerID totalCount notifyValue) with
  | Except.error err =>
    (Except.error (GoError.wrap GoError.ErrSubscriptionCreationFailed err),
      [GatewayCall.subscriptionCreate planID customerID totalCount notifyValue])
  | Except.ok subscription =>
    (Except.ok subscription,
      [GatewayCall.subscriptionCreate planID customerID totalCount notifyValue])

/-- Embedding of `Client.CancelSubscription`. -/
def Client.CancelSubscription (c : Client) (subscriptionID : GoString)
    (cancelAtCycleEnd : Bool) : Except GoError JsonObject × List GatewayCall :=
  match c.sdk (GatewayCall.subscriptionCancel subscriptionID cancelAtCycleEnd) with
  | Except.error err =>
    (Except.error (GoError.prefixed (go "failed to cancel subscription") err),
      [GatewayCall.subscriptionCancel subscriptionID cancelAtCycleEnd])
  | Except.ok subscription =>
    (Except.ok subscription, [GatewayCall.subscriptionCancel subscriptionID cancelAtCycleEnd])

/-! ## Payment service (`internal/service/razorpay_service.go`) -/

/-- The struct `PlanInfo`. -/
structure PlanInfo where
  /-- Field `Monthly`. -/
  monthly : GoString
  /-- Field `Yearly`. -/
  yearly : GoString
  deriving DecidableEq, Repr

/-- The struct `DefaultRazorpayService`; the repository is the database passed to each
operation. -/
structure DefaultRazorpayService where
  /-- Field `razorpayClient`. -/
  razorpayClient : Client
  /-- Field `webhookSecret`. -/
  webhookSecret : GoString
  /-- Field `planMapping`. -/
  planMapping : List (GoString × PlanInfo)

/-- Embedding of `NewRazorpayService`. -/
def NewRazorpayService (razorpayClient : Client) (webhookSecret : GoString) :
    DefaultRazorpayService :=
  let planMapping : List (GoString × PlanInfo) :=
    [ (go "plan-001", { monthly := go "plan_QIbEUICtejuBUQ", yearly := go "plan_QIbFBU9kxYoEhg" }),
      (go "plan-002", { monthly := go "plan_LgWAqFqsESLnhb", yearly := go "plan_LgWAtVDXJI4Nzu" }),
      (go "plan-003", { monthly := go "plan_LgWB3F9fPBzPRV", yearly := go "plan_LgWB7dBSP7iUf7" }) ]
  { razorpayClient := razorpayClient, webhookSecret := webhookSecret,
    planMapping := planMapping }

/-- Embedding of `DefaultRazorpayService.GetPlanInfo`. -/
def DefaultRazorpayService.GetPlanInfo (s : DefaultRazorpayService)
    (planID paymentType : GoString) : Except GoError JsonObject :=
  match s.planMapping.lookup planID with
  | none => Except.error (GoError.new (go "unknown plan ID: " ++ planID))
  | some planInfo =>
    let razorpayPlanID :=
      if paymentType == go "monthly" then planInfo.monthly else planInfo.yearly
    Except.ok [(go "razorpay_plan_id", Json.str razorpayPlanID)]

/-- Embedding of `DefaultRazorpayService.CreatePayment`. -/
def DefaultRazorpayService.CreatePayment (s : DefaultRazorpayService) (env : SubEnv)
    (amount : Float64) (currency receiptID : GoString) :
    Except GoError JsonObject × List GatewayCall :=
  let amountInPaise := env.inPaise amount
  let r := s.razorpayClient.CreateOrder amountInPaise currency receiptID
  match r.1 with
  | Except.error err => (Except.error (GoError.wrap GoError.ErrRazorpayOperationFailed err), r.2)
  | Except.ok order => (Except.ok order, r.2)

/-- Lines 132 to 140 of `DefaultRazorpayService.CreateSubscription`: the user information
used when the caller passes `nil`. -/
def DefaultRazorpayService.userInfoOrDefault (subscription : SubscriptionTransaction)
    (userInfo : Option UserInfo) : UserInfo :=
  match userInfo with
  | some u => u
  | none =>
    { id := subscription.userID, name := go "User " ++ subscription.userID,
      email := subscription.userID ++ go "@example.com", phone := [],
      razorpayCustomerID := [], createdAt := 0, updatedAt := 0 }

set_option linter.unusedVariables false in
/-- Embedding of `DefaultRazorpayService.CreateSubscription`; the plan identifier read from
`planInfo` is overwritten by a constant, as in the source. -/
def DefaultRazorpayService.CreateSubscription (s : DefaultRazorpayService)
    (subscription : SubscriptionTransaction) (userInfo : Option UserInfo) :
    Except GoError JsonObject × List GatewayCall :=
  let userInfo := DefaultRazorpayService.userInfoOrDefault subscription userInfo
  let r1 := s.razorpayClient.GetOrCreateCustomer userInfo.razorpayCustomerID userInfo.name
    userInfo.email userInfo.phone
  match r1.1 with
  | Except.error err =>
    (Except.error (GoError.prefixed (go "failed to create/get customer") err), r1.2)
  | Except.ok customer =>
    let customerID := mapString customer (go "id")
    match s.GetPlanInfo subscription.planID subscription.paymentType with
    | Except.error err => (Except.error (GoError.prefixed (go "failed to get plan") err), r1.2)
    | Except.ok planInfo =>
      let razorpayPlanID := mapString planInfo (go "razorpay_plan_id")
      let razorpayPlanID := go "plan_QIbDj6gHdpgbDl"
      let totalCount : Int := if subscription.paymentType == go "yearly" then 1 else 12
      let r2 := s.razorpayClient.CreateSubscription razorpayPlanID customerID totalCount true
      match r2.1 with
      | Except.error err =>
        (Except.error (GoError.wrap GoError.ErrRazorpayOperationFailed err), r1.2 ++ r2.2)
      | Except.ok razorpaySubscription => (Except.ok razorpaySubscription, r1.2 ++ r2.2)

/-- Embedding of `DefaultRazorpayService.CancelSubscription`. -/
def DefaultRazorpayService.CancelSubscription (s : DefaultRazorpayService)
    (razorpaySubscriptionID : GoString) : Option GoError × List GatewayCall :=
  let r := s.razorpayClient.CancelSubscription razorpaySubscriptionID false
  match r.1 with
  | Except.error err => (some (GoError.wrap GoError.ErrRazorpayOperationFailed err), r.2)
  | Except.ok _ => (none, r.2)

/-! ## Subscription repository (`internal/repository/subscription_repository.go`) -/

/-- What a nullable text column holds after a `sql.NullString` is written to it and read
back: the string when `Valid`, `NULL` (the zero value) otherwise. -/
def NullString.column (ns : NullString) : NullString :=
  if ns.valid then { str := ns.str, valid := true } else { str := [], valid := false }

/-- The columns of a `model.SubscriptionTransaction`: fields tagged `db:"-"` are not
stored, and an invalid `sql.NullString` is stored as `NULL`. -/
def SubscriptionTransaction.row (t : SubscriptionTransaction) : SubscriptionTransaction :=
  { t with
    razorpayPaymentID := t.razorpayPaymentID.column
    razorpayOrderID := t.razorpayOrderID.column
    razorpaySubscriptionID := t.razorpaySubscriptionID.column
    razorpayKeyID := [], planName := [], productName := [], cardLastFour := [] }

/-- Embedding of `SQLSubscriptionRepository.getPlanAttributes`. -/
def SQLSubscriptionRepository.getPlanAttributes (db : Database) (planID : GoString) :
    List SubscriptionProductAttribute :=
  (db.attributes.map (fun a =>
    (db.planAttributes.filter (fun pa => a.id == pa.2 && pa.1 == planID)).map
      (fun _ => a))).flatten

/-- Embedding of `SQLSubscriptionRepository.GetPlanWithAttributes`; `none` is `nil`. -/
def SQLSubscriptionRepository.GetPlanWithAttributes (db : Database) (planID : GoString) :
    Option SubscriptionPlanWithAttributes :=
  match db.plans.find? (fun p => p.id == planID) with
  | none => none
  | some plan =>
    some { plan := { plan with attributes := [] },
           attributes := SQLSubscriptionRepository.getPlanAttributes db planID }

/-- Embedding of `SQLSubscriptionRepository.enrichSubscriptionData`. -/
def SQLSubscriptionRepository.enrichSubscriptionData (db : Database)
    (subscription : SubscriptionTransaction) : SubscriptionTransaction :=
  let planName :=
    match db.plans.find? (fun p => p.id == subscription.planID) with
    | some p => p.name
    | none => []
  let productName :=
    match db.products.find? (fun p => p.id == subscription.productID) with
    | some p => p.name
    | none => []
  let cardLastFour :=
    match db.cards.find? (fun c => c.id == subscription.cardID) with
    | some c => c.lastFourDigits
    | none => []
  { subscription with
    planName := planName, productName := productName, cardLastFour := cardLastFour }

/-- Embedding of `SQLSubscriptionRepository.GetSubscriptionByID`; `none` is `nil`. -/
def SQLSubscriptionRepository.GetSubscriptionByID (db : Database) (subscriptionID : GoString) :
    Option SubscriptionTransaction :=
  match db.subscriptions.find? (fun t => t.id == subscriptionID) with
  | none => none
  | some subscription =>
    some (SQLSubscriptionRepository.enrichSubscriptionData db subscription)

/-- Embedding of `SQLSubscriptionRepository.GetSubscriptionByRazorpayOrderID`. -/
def SQLSubscriptionRepository.GetSubscriptionByRazorpayOrderID (db : Database)
    (orderID : GoString) : Option SubscriptionTransaction :=
  match db.subscriptions.find?
      (fun t => t.razorpayOrderID.valid && t.razorpayOrderID.str == orderID) with
  | none => none
  | some subscription =>
    some (SQLSubscriptionRepository.enrichSubscriptionData db subscription)

/-- Embedding of `SQLSubscriptionRepository.GetSubscriptionByRazorpaySubscriptionID`. -/
def SQLSubscriptionRepository.GetSubscriptionByRazorpaySubscriptionID (db : Database)
    (subscriptionID : GoString) : Option SubscriptionTransaction :=
  match db.subscriptions.find?
      (fun t => t.razorpaySubscriptionID.valid
        && t.razorpaySubscriptionID.str == subscriptionID) with
  | none => none
  | some subscription =>
    some (SQLSubscriptionRepository.enrichSubscriptionData db subscription)

/-- Embedding of `SQLSubscriptionRepository.GetActiveSubscription`. -/
def SQLSubscriptionRepository.GetActiveSubscription (db : Database) (userID : GoString) :
    Option SubscriptionTransaction :=
  match db.subscriptions.find? (fun t => t.userID == userID && t.isActive) with
  | none => none
  | some subscription =>
    some (SQLSubscriptionRepository.enrichSubscriptionData db subscription)

/-- The statement `UPDATE subscription_transactions SET is_active = false
WHERE user_id = ? AND is_active = true`. -/
def deactivateActive (subscriptions : List SubscriptionTransaction) (userID : GoString) :
    List SubscriptionTransaction :=
  subscriptions.map (fun t =>
    if t.userID == userID && t.isActive then { t with isActive := false } else t)

/-- Embedding of `SQLSubscriptionRepository.CreateSubscription`: the returned error, the
record behind the caller's pointer, and the table afterwards.  The two statements run
directly on the connection, outside any transaction. -/
def SQLSubscriptionRepository.CreateSubscription (env : SubEnv) (db : Database)
    (subscription : SubscriptionTransaction) :
    Option GoError × SubscriptionTransaction × List SubscriptionTransaction :=
  let subscription :=
    if subscription.id == [] then { subscription with id := env.repoID } else subscription
  match env.deactivateErr with
  | some err => (some err, subscription, db.subscriptions)
  | none =>
    let deactivated := deactivateActive db.subscriptions subscription.userID
    let subscription :=
      { subscription with createdAt := env.createdAt, updatedAt := env.updatedAt }
    match env.insertErr with
    | some err => (some err, subscription, deactivated)
    | none => (none, subscription, deactivated ++ [subscription.row])

/-- Embedding of `SQLSubscriptionRepository.StopSubscription`; `now` is the value of the
SQL function `NOW()`. -/
def SQLSubscriptionRepository.StopSubscription (now : Time) (db : Database)
    (subscriptionID userID : GoString) : Option GoError × List SubscriptionTransaction :=
  let rows := (db.subscriptions.filter (fun t =>
    t.id == subscriptionID && t.userID == userID && t.isActive)).length
  if rows == 0 then
    (some (GoError.new (go "subscription not found or already inactive")), db.subscriptions)
  else
    (none, db.subscriptions.map (fun t =>
      if t.id == subscriptionID && t.userID == userID && t.isActive then
        { t with isActive := false, updatedAt := now }
      else t))

/-- Embedding of `SQLSubscriptionRepository.UpdateSubscription`. -/
def SQLSubscriptionRepository.UpdateSubscription (now : Time) (db : Database)
    (subscription : SubscriptionTransaction) : List SubscriptionTransaction :=
  db.subscriptions.map (fun t =>
    if t.id == subscription.id then
      { t with
        isActive := subscription.isActive
        razorpayPaymentID := subscription.razorpayPaymentID.column
        razorpayOrderID := subscription.razorpayOrderID.column
        razorpaySubscriptionID := subscription.razorpaySubscriptionID.column
        nextRenewalDate := subscription.nextRenewalDate
        updatedAt := now }
    else t)

/-! ## Subscription service (`internal/service/subscription_service.go`) -/

/-- The struct `DefaultSubscriptionService`; the repositories are the database passed to
each operation, `razorpayService` is `none` for a `nil` interface, and `razorpayKeyID` is
`config.Razorpay.KeyID`. -/
structure DefaultSubscriptionService where
  /-- Field `razorpayService`. -/
  razorpayService : Option DefaultRazorpayService
  /-- The value `config.Razorpay.KeyID`. -/
  razorpayKeyID : GoString

/-- Lines 99 to 134 of `DefaultSubscriptionService.CreateSubscription`: the record built
from the request and the plan. -/
def DefaultSubscriptionService.buildSubscription (s : DefaultSubscriptionService)
    (env : SubEnv) (request : SubscriptionRequest)
    (planWithAttrs : SubscriptionPlanWithAttributes) : SubscriptionTransaction :=
  let startDate := env.now
  let amount :=
    if request.paymentType == go "monthly" then planWithAttrs.plan.priceMonthly
    else planWithAttrs.plan.priceYearly
  let endDate :=
    if request.paymentType == go "monthly" then env.addDate startDate 0 1 0
    else env.addDate startDate 1 0 0
  let nextRenewalDate := endDate
  { SubscriptionTransaction.zero with
    id := env.newID
    userID := request.userID
    productID := request.productID
    planID := request.planID
    cardID := request.cardID
    isRenewal := false
    isActive := true
    paymentType := request.paymentType
    amount := amount
    startDate := startDate
    endDate := endDate
    nextRenewalDate := nextRenewalDate
    autoRenewal := request.autoRenewal
    razorpayKeyID := s.razorpayKeyID }

/-- Lines 138 to 184 of `DefaultSubscriptionService.CreateSubscription`: the gateway step.
The result is the record with the gateway identifier attached, or the error returned. -/
def DefaultSubscriptionService.gatewayStep (s : DefaultSubscriptionService) (env : SubEnv)
    (request : SubscriptionRequest) (subscription : SubscriptionTransaction)
    (userInfo : Option UserInfo) : Except GoError SubscriptionTransaction × List GatewayCall :=
  match s.razorpayService with
  | none => (Except.ok subscription, [])
  | some razorpayService =>
    if request.autoRenewal then
      let r := razorpayService.CreateSubscription subscription userInfo
      match r.1 with
      | Except.error err => (Except.error err, r.2)
      | Except.ok razorpaySub =>
        match mapStringOk razorpaySub (go "id") with
        | some razorpaySubID =>
          (Except.ok { subscription with
            razorpaySubscriptionID := toNullString razorpaySubID }, r.2)
        | none => (Except.ok subscription, r.2)
    else
      let r := razorpayService.CreatePayment env subscription.amount (go "INR") subscription.id
      match r.1 with
      | Except.error err => (Except.error err, r.2)
      | Except.ok order =>
        match mapStringOk order (go "id") with
        | some razorpayOrderID =>
          (Except.ok { subscription with razorpayOrderID := toNullString razorpayOrderID }, r.2)
        | none => (Except.ok subscription, r.2)

/-- The closing statements shared by `CreateSubscription` and `RenewSubscription`: the call
of `subscriptionRepo.CreateSubscription` followed by `GetSubscriptionByID`. -/
def DefaultSubscriptionService.saveAndReload (env : SubEnv) (db : Database)
    (subscription : SubscriptionTransaction) (calls : List GatewayCall) :
    Outcome (Option SubscriptionTransaction) :=
  let saved := SQLSubscriptionRepository.CreateSubscription env db subscription
  match saved.1 with
  | some err => { result := Except.error err, subscriptions := saved.2.2, calls := calls }
  | none =>
    { result := Except.ok (SQLSubscriptionRepository.GetSubscriptionByID
        { db with subscriptions := saved.2.2 } saved.2.1.id),
      subscriptions := saved.2.2, calls := calls }

/-- Embedding of `DefaultSubscriptionService.CreateSubscription`. -/
def DefaultSubscriptionService.CreateSubscription (s : DefaultSubscriptionService)
    (env : SubEnv) (db : Database) (request : SubscriptionRequest)
    (userInfo : Option UserInfo) : Outcome (Option SubscriptionTransaction) :=
  if request.paymentType != go "monthly" && request.paymentType != go "yearly" then
    { result := Except.error GoError.ErrInvalidPaymentType, subscriptions := db.subscriptions,
      calls := [] }
  else
    match SQLCardRepository.GetByID db.cards request.cardID with
    | none =>
      { result := Except.error GoError.ErrInvalidCard, subscriptions := db.subscriptions,
        calls := [] }
    | some card =>
      if card.userID != request.userID then
        { result := Except.error GoError.ErrInvalidCard, subscriptions := db.subscriptions,
          calls := [] }
      else
        match SQLSubscriptionRepository.GetPlanWithAttributes db request.planID with
        | none =>
          { result := Except.error GoError.ErrInvalidPlan, subscriptions := db.subscriptions,
            calls := [] }
        | some planWithAttrs =>
          let subscription := s.buildSubscription env request planWithAttrs
          let gateway := s.gatewayStep env request subscription userInfo
          match gateway.1 with
          | Except.error err =>
            { result := Except.error err, subscriptions := db.subscriptions,
              calls := gateway.2 }
          | Except.ok subscription =>
            DefaultSubscriptionService.saveAndReload env db subscription gateway.2

/-- Lines 211 to 227 of `DefaultSubscriptionService.RenewSubscription`: the record
`newSubscription`; each date field reads the clock anew. -/
def DefaultSubscriptionService.newSubscription (env : SubEnv) (userID : GoString)
    (subscription : SubscriptionTransaction) : SubscriptionTransaction :=
  { SubscriptionTransaction.zero with
    userID := userID
    productID := subscription.productID
    planID := subscription.planID
    cardID := subscription.cardID
    isRenewal := true
    isActive := true
    paymentType := subscription.paymentType
    amount := subscription.amount
    startDate := env.now
    endDate := env.addDate env.now2 0 1 0
    nextRenewalDate := env.addDate env.now3 0 1 0
    razorpayOrderID := { str := [], valid := false }
    razorpayPaymentID := { str := [], valid := false }
    razorpaySubscriptionID := { str := [], valid := false } }

/-- Embedding of `DefaultSubscriptionService.RenewSubscription`. -/
def DefaultSubscriptionService.RenewSubscription (_s : DefaultSubscriptionService)
    (env : SubEnv) (db : Database) (subscriptionID userID : GoString) :
    Outcome (Option SubscriptionTransaction) :=
  match SQLSubscriptionRepository.GetSubscriptionByID db subscriptionID with
  | none =>
    { result := Except.error GoError.ErrSubscriptionNotFound,
      subscriptions := db.subscriptions, calls := [] }
  | some subscription =>
    if subscription.userID != userID then
      { result := Except.error GoError.ErrUnauthorized, subscriptions := db.subscriptions,
        calls := [] }
    else
      let newSubscription :=
        DefaultSubscriptionService.newSubscription env userID subscription
      DefaultSubscriptionService.saveAndReload env db newSubscription []

/-- Lines 338 to 360 of `DefaultRazorpayService.handleSubscriptionCharged`: the record
`renewalSubscription`. -/
def DefaultRazorpayService.renewalSubscription (env : SubEnv)
    (subscription : SubscriptionTransaction) (subscriptionID : GoString) :
    SubscriptionTransaction :=
  let startDate := env.now
  let endDate :=
    if subscription.paymentType == go "monthly" then env.addDate startDate 0 1 0
    else env.addDate startDate 1 0 0
  { SubscriptionTransaction.zero with
    userID := subscription.userID
    productID := subscription.productID
    planID := subscription.planID
    cardID := subscription.cardID
    isRenewal := true
    isActive := true
    paymentType := subscription.paymentType
    amount := subscription.amount
    startDate := startDate
    endDate := endDate
    nextRenewalDate := endDate
    razorpaySubscriptionID := toNullString subscriptionID }

/-- Embedding of `DefaultRazorpayService.handleSubscriptionCharged`; `event` is the decoded
webhook payload. -/
def DefaultRazorpayService.handleSubscriptionCharged (_s : DefaultRazorpayService)
    (env : SubEnv) (db : Database) (event : JsonObject) : Outcome Unit :=
  match mapObject event (go "payload") with
  | none =>
    { result := Except.error (GoError.new (go "invalid payload in webhook event")),
      subscriptions := db.subscriptions, calls := [] }
  | some payloadObj =>
    match mapObject payloadObj (go "subscription") with
    | none =>
      { result := Except.error (GoError.new (go "invalid subscription data in webhook payload")),
        subscriptions := db.subscriptions, calls := [] }
    | some subscriptionObj =>
      match mapObject subscriptionObj (go "entity") with
      | none =>
        { result := Except.error (GoError.new (go "invalid entity in subscription data")),
          subscriptions := db.subscriptions, calls := [] }
      | some entity =>
        let subscriptionID := mapString entity (go "id")
        if subscriptionID == [] then
          { result := Except.error (GoError.new (go "missing subscription ID in webhook")),
            subscriptions := db.subscriptions, calls := [] }
        else
          match SQLSubscriptionRepository.GetSubscriptionByRazorpaySubscriptionID db
              subscriptionID with
          | none =>
            { result := Except.error (GoError.new
                (go "no subscription found with Razorpay subscription ID: " ++ subscriptionID)),
              subscriptions := db.subscriptions, calls := [] }
          | some subscription =>
            let renewalSubscription :=
              DefaultRazorpayService.renewalSubscription env subscription subscriptionID
            let saved := SQLSubscriptionRepository.CreateSubscription env db renewalSubscription
            match saved.1 with
            | some err =>
              { result := Except.error
                  (GoError.prefixed (go "failed to create renewal subscription") err),
                subscriptions := saved.2.2, calls := [] }
            | none => { result := Except.ok (), subscriptions := saved.2.2, calls := [] }

/-- One of the operations that insert a subscription record. -/
inductive SubscriptionOp where
  /-- A call of `DefaultSubscriptionService.CreateSubscription`. -/
  | create (s : DefaultSubscriptionService) (env : SubEnv) (request : SubscriptionRequest)
      (userInfo : Option UserInfo)
  /-- A call of `DefaultSubscriptionService.RenewSubscription`. -/
  | renew (s : DefaultSubscriptionService) (env : SubEnv) (subscriptionID userID : GoString)
  /-- A `subscription.charged` webhook event handled by `handleSubscriptionCharged`. -/
  | charged (s : DefaultRazorpayService) (env : SubEnv) (event : JsonObject)

/-- The error returned by an operation (`none` for success) and the table
`subscription_transactions` afterwards. -/
def SubscriptionOp.run (db : Database) :
    SubscriptionOp → Option GoError × List SubscriptionTransaction
  | SubscriptionOp.create s env request userInfo =>
    let r := s.CreateSubscription env db request userInfo
    (match r.result with | Except.error e => some e | Except.ok _ => none, r.subscriptions)
  | SubscriptionOp.renew s env subscriptionID userID =>
    let r := s.RenewSubscription env db subscriptionID userID
    (match r.result with | Except.error e => some e | Except.ok _ => none, r.subscriptions)
  | SubscriptionOp.charged s env event =>
    let r := s.handleSubscriptionCharged env db event
    (match r.result with | Except.error e => some e | Except.ok _ => none, r.subscriptions)

/-- A sequence of operations on the table `subscription_transactions`. -/
def runSubscriptionOps (db : Database) : List SubscriptionOp → Database
  | [] => db
  | op :: rest => runSubscriptionOps { db with subscriptions := (op.run db).2 } rest

/-- The number of rows of `owner` with `is_active = true`. -/
def activeCount (subscriptions : List SubscriptionTransaction) (owner : GoString) : Nat :=
  (subscriptions.filter (fun t => t.userID == owner && t.isActive)).length

/-! ## Sample values used in examples -/

/-- A gateway that accepts every request and answers with the identifier `gw-1`. -/
def sampleClient : Client :=
  { sdk := fun _ => Except.ok [(go "id", Json.str (go "gw-1"))],
    keyID := go "rzp_test_key", keySecret := go "secret" }

/-- A gateway that refuses every request. -/
def failingClient : Client :=
  { sdk := fun _ => Except.error (GoError.external (go "gateway down")),
    keyID := go "rzp_test_key", keySecret := go "secret" }

/-- The subscription service wired as in `main.go`, on `sampleClient`. -/
def sampleService : DefaultSubscriptionService :=
  { razorpayService := some (NewRazorpayService sampleClient (go "webhook123")),
    razorpayKeyID := go "rzp_test_key" }

/-- The subscription service wired as in `main.go`, on `failingClient`. -/
def failingService : DefaultSubscriptionService :=
  { razorpayService := some (NewRazorpayService failingClient (go "webhook123")),
    razorpayKeyID := go "rzp_test_key" }

/-- A clock, UUID and database reading used in examples: every statement succeeds, and
`AddDate` counts a month as 30 and a year as 365 units. -/
def sampleSubEnv : SubEnv :=
  { newID := go "s-2", repoID := go "s-3", now := 1000, now2 := 1001, now3 := 1002,
    createdAt := 1003, updatedAt := 1004,
    addDate := fun t years months days => t + (years * 365 + months * 30 + days).toNat,
    inPaise := fun amount => amount.bits,
    deactivateErr := none, insertErr := none }

/-- The reading `sampleSubEnv` with an `INSERT` that fails. -/
def insertFailsEnv : SubEnv :=
  { sampleSubEnv with insertErr := some (GoError.external (go "insert failed")) }

/-- An active monthly subscription of `user-1`. -/
def sampleSubscription : SubscriptionTransaction :=
  { SubscriptionTransaction.zero with
    id := go "s-1", userID := go "user-1", productID := go "prod-1", planID := go "plan-002",
    cardID := go "c-1", isActive := true, paymentType := go "yearly",
    amount := { bits := 4999 }, startDate := 10, endDate := 375, nextRenewalDate := 375,
    createdAt := 10, updatedAt := 10 }

/-- A database with one card, one plan and one active subscription, all of `user-1`. -/
def sampleDatabase : Database :=
  { cards := [sampleRow],
    products := [{ id := go "prod-1", name := go "Product", createdAt := 1, updatedAt := 1 }],
    plans := [{ id := go "plan-002", productID := go "prod-1", name := go "Standard",
                priceMonthly := { bits := 499 }, priceYearly := { bits := 4999 },
                attributes := [], createdAt := 1, updatedAt := 1 }],
    attributes := [], planAttributes := [],
    subscriptions := [sampleSubscription] }

/-- A request of `user-1` for the plan `plan-002`, paid monthly with the card `c-1`. -/
def sampleRequest : SubscriptionRequest :=
  { userID := go "user-1", productID := go "prod-1", planID := go "plan-002",
    cardID := go "c-1", paymentType := go "monthly", autoRenewal := false }

/-! ## Stopping a subscription and handling webhooks

`DefaultSubscriptionService.StopSubscription`, `Client.VerifyPaymentSignature` and
`DefaultRazorpayService.HandleWebhook` with its handlers.  HMAC-SHA256 and
`json.Unmarshal` are parameters of the environment. -/

/-- Embedding of `DefaultSubscriptionService.StopSubscription`; `now` is the value of the
SQL function `NOW()`.  A call on a `nil` gateway service is a run-time panic, returned
here as an error. -/
def DefaultSubscriptionService.StopSubscription (s : DefaultSubscriptionService) (now : Time)
    (db : Database) (subscriptionID userID : GoString) : Outcome Unit :=
  match SQLSubscriptionRepository.GetSubscriptionByID db subscriptionID with
  | none =>
    { result := Except.error GoError.ErrSubscriptionNotFound,
      subscriptions := db.subscriptions, calls := [] }
  | some subscription =>
    if subscription.userID != userID then
      { result := Except.error GoError.ErrUnauthorized, subscriptions := db.subscriptions,
        calls := [] }
    else
      let cancelled : Option GoError × List GatewayCall :=
        if subscription.razorpaySubscriptionID.valid
            && subscription.razorpaySubscriptionID.str != [] then
          match s.razorpayService with
          | none =>
            (some (GoError.external
              (go "runtime error: invalid memory address or nil pointer dereference")), [])
          | some razorpayService =>
            razorpayService.CancelSubscription subscription.razorpaySubscriptionID.str
        else (none, [])
      match cancelled.1 with
      | some err =>
        { result := Except.error err, subscriptions := db.subscriptions, calls := cancelled.2 }
      | none =>
        let stopped := SQLSubscriptionRepository.StopSubscription now db subscriptionID userID
        match stopped.1 with
        | some err =>
          { result := Except.error err, subscriptions := stopped.2, calls := cancelled.2 }
        | none => { result := Except.ok (), subscriptions := stopped.2, calls := cancelled.2 }

/-- One byte as a lower-case hexadecimal digit, as in `hex.EncodeToString`. -/
def hexDigit (n : Nat) : Nat := if n < 10 then 48 + n else 87 + n

/-- The function `hex.EncodeToString`. -/
def hexEncodeToString : List Nat → GoString
  | [] => []
  | b :: bs => hexDigit (b / 16 % 16) :: hexDigit (b % 16) :: hexEncodeToString bs

/-- What the webhook code reads from outside the program, besides `SubEnv`. -/
structure WebhookEnv where
  /-- Clock, UUID and database readings of the subscription code. -/
  sub : SubEnv
  /-- The value `mac.Sum(nil)` of `hmac.New(sha256.New, key)` after `mac.Write(message)`. -/
  hmacSHA256 : GoString → GoString → List Nat
  /-- The call `json.Unmarshal(payload, &event)` with `event` a `map[string]interface{}`. -/
  jsonUnmarshal : GoString → Except GoError JsonObject
  /-- The `time.Now()` of `UpdateSubscription`. -/
  updateNow : Time
  /-- The value of the SQL function `NOW()` in `StopSubscription`. -/
  sqlNow : Time

/-- Embedding of `Client.VerifyPaymentSignature`. -/
def Client.VerifyPaymentSignature (c : Client) (hmacSHA256 : GoString → GoString → List Nat)
    (attributes : JsonObject) (signature : GoString) : Bool :=
  if c.keySecret == [] then true
  else
    match mapStringOk attributes (go "payload") with
    | none => false
    | some payload =>
      let expectedSignature := hexEncodeToString (hmacSHA256 c.keySecret payload)
      expectedSignature == signature

/-- Embedding of `DefaultRazorpayService.handlePaymentAuthorized`. -/
def DefaultRazorpayService.handlePaymentAuthorized (_s : DefaultRazorpayService)
    (env : WebhookEnv) (db : Database) (event : JsonObject) : Outcome Unit :=
  match mapObject event (go "payload") with
  | none =>
    { result := Except.error (GoError.new (go "invalid payload in webhook event")),
      subscriptions := db.subscriptions, calls := [] }
  | some payloadObj =>
    match mapObject payloadObj (go "payment") with
    | none =>
      { result := Except.error (GoError.new (go "invalid payment data in webhook payload")),
        subscriptions := db.subscriptions, calls := [] }
    | some paymentObj =>
      match mapObject paymentObj (go "entity") with
      | none =>
        { result := Except.error (GoError.new (go "invalid entity in payment data")),
          subscriptions := db.subscriptions, calls := [] }
      | some entity =>
        let paymentID := mapString entity (go "id")
        let orderID := mapString entity (go "order_id")
        if paymentID == [] || orderID == [] then
          { result := Except.error (GoError.new (go "missing payment or order ID in webhook")),
            subscriptions := db.subscriptions, calls := [] }
        else
          match SQLSubscriptionRepository.GetSubscriptionByRazorpayOrderID db orderID with
          | none =>
            { result := Except.error (GoError.new
                (go "no subscription found with Razorpay order ID: " ++ orderID)),
              subscriptions := db.subscriptions, calls := [] }
          | some subscription =>
            let subscription :=
              { subscription with razorpayPaymentID := toNullString paymentID }
            { result := Except.ok (),
              subscriptions :=
                SQLSubscriptionRepository.UpdateSubscription env.updateNow db subscription,
              calls := [] }

/-- Embedding of `DefaultRazorpayService.handleSubscriptionCancelled`. -/
def DefaultRazorpayService.handleSubscriptionCancelled (_s : DefaultRazorpayService)
    (env : WebhookEnv) (db : Database) (event : JsonObject) : Outcome Unit :=
  match mapObject event (go "payload") with
  | none =>
    { result := Except.error (GoError.new (go "invalid payload in webhook event")),
      subscriptions := db.subscriptions, calls := [] }
  | some payloadObj =>
    match mapObject payloadObj (go "subscription") with
    | none =>
      { result := Except.error (GoError.new (go "invalid subscription data in webhook payload")),
        subscriptions := db.subscriptions, calls := [] }
    | some subscriptionObj =>
      match mapObject subscriptionObj (go "entity") with
      | none =>
        { result := Except.error (GoError.new (go "invalid entity in subscription data")),
          subscriptions := db.subscriptions, calls := [] }
      | some entity =>
        let subscriptionID := mapString entity (go "id")
        if subscriptionID == [] then
          { result := Except.error (GoError.new (go "missing subscription ID in webhook")),
            subscriptions := db.subscriptions, calls := [] }
        else
          match SQLSubscriptionRepository.GetSubscriptionByRazorpaySubscriptionID db
              subscriptionID with
          | none =>
            { result := Except.error (GoError.new
                (go "no subscription found with Razorpay subscription ID: " ++ subscriptionID)),
              subscriptions := db.subscriptions, calls := [] }
          | some subscription =>
            let stopped := SQLSubscriptionRepository.StopSubscription env.sqlNow db
              subscription.id subscription.userID
            match stopped.1 with
            | some err =>
              { result := Except.error
                  (GoError.prefixed (go "failed to deactivate subscription") err),
                subscriptions := stopped.2, calls := [] }
            | none => { result := Except.ok (), subscriptions := stopped.2, calls := [] }

/-- Embedding of `DefaultRazorpayService.handlePaymentFailed`. -/
def DefaultRazorpayService.handlePaymentFailed (_s : DefaultRazorpayService)
    (db : Database) (event : JsonObject) : Outcome Unit :=
  match mapObject event (go "payload") with
  | none =>
    { result := Except.error (GoError.new (go "invalid payload in webhook event")),
      subscriptions := db.subscriptions, calls := [] }
  | some payloadObj =>
    match mapObject payloadObj (go "payment") with
    | none =>
      { result := Except.error (GoError.new (go "invalid payment data in webhook payload")),
        subscriptions := db.subscriptions, calls := [] }
    | some paymentObj =>
      match mapObject paymentObj (go "entity") with
      | none =>
        { result := Except.error (GoError.new (go "invalid entity in payment data")),
          subscriptions := db.subscriptions, calls := [] }
      | some _entity =>
        { result := Except.ok (), subscriptions := db.subscriptions, calls := [] }

/-- Embedding of `DefaultRazorpayService.HandleWebhook`; `testMode` is
`ctx.Value("testMode") != nil`. -/
def DefaultRazorpayService.HandleWebhook (s : DefaultRazorpayService) (env : WebhookEnv)
    (db : Database) (testMode : Bool) (payload signature : GoString) : Outcome Unit :=
  let rejected : Bool :=
    if !testMode then
      !s.razorpayClient.VerifyPaymentSignature env.hmacSHA256
        [(go "payload", Json.str payload)] signature
    else false
  if rejected then
    { result := Except.error GoError.ErrInvalidWebhookSignature,
      subscriptions := db.subscriptions, calls := [] }
  else
    match env.jsonUnmarshal payload with
    | Except.error err =>
      { result := Except.error (GoError.prefixed (go "failed to parse webhook payload") err),
        subscriptions := db.subscriptions, calls := [] }
    | Except.ok event =>
      match mapStringOk event (go "event") with
      | none =>
        { result := Except.error (GoError.new (go "missing event type in webhook payload")),
          subscriptions := db.subscriptions, calls := [] }
      | some eventType =>
        if eventType == go "payment.authorized" then s.handlePaymentAuthorized env db event
        else if eventType == go "subscription.charged" then
          s.handleSubscriptionCharged env.sub db event
        else if eventType == go "subscription.cancelled" then
          s.handleSubscriptionCancelled env db event
        else if eventType == go "payment.failed" then s.handlePaymentFailed db event
        else { result := Except.ok (), subscriptions := db.subscriptions, calls := [] }

/-- The decoded webhook event carries `subscriptionID` at `payload.subscription.entity.id`. -/
def CarriesSubscriptionID (event : JsonObject) (subscriptionID : GoString) : Prop :=
  ∃ payloadObj subscriptionObj entity,
    mapObject event (go "payload") = some payloadObj
      ∧ mapObject payloadObj (go "subscription") = some subscriptionObj
      ∧ mapObject subscriptionObj (go "entity") = some entity
      ∧ mapString entity (go "id") = subscriptionID

/-- The decoded webhook event carries `paymentID` at `payload.payment.entity.id` and
`orderID` at `payload.payment.entity.order_id`; an absent entry counts as the empty string. -/
def CarriesPayment (event : JsonObject) (paymentID orderID : GoString) : Prop :=
  ∃ payloadObj paymentObj entity,
    mapObject event (go "payload") = some payloadObj
      ∧ mapObject payloadObj (go "payment") = some paymentObj
      ∧ mapObject paymentObj (go "entity") = some entity
      ∧ mapString entity (go "id") = paymentID
      ∧ mapString entity (go "order_id") = orderID

/-- A decoded `subscription.charged` or `subscription.cancelled` event for the gateway
subscription `subscriptionID`. -/
def subscriptionEvent (eventType subscriptionID : GoString) : JsonObject :=
  [ (go "event", Json.str eventType),
    (go "payload", Json.obj
      [(go "subscription", Json.obj
        [(go "entity", Json.obj [(go "id", Json.str subscriptionID)])])]) ]

/-- A decoded `payment.authorized` event for the payment `paymentID` of the order
`orderID`. -/
def paymentEvent (paymentID orderID : GoString) : JsonObject :=
  [ (go "event", Json.str (go "payment.authorized")),
    (go "payload", Json.obj
      [(go "payment", Json.obj
        [(go "entity", Json.obj
          [(go "id", Json.str paymentID), (go "order_id", Json.str orderID)])])]) ]

/-- A webhook environment used in examples: a toy keyed hash, and a decoder that knows the
payloads `charged`, `cancelled` and `authorized`. -/
def sampleWebhookEnv : WebhookEnv :=
  { sub := sampleSubEnv,
    hmacSHA256 := fun key message => [key.length % 256, message.length % 256, 171],
    jsonUnmarshal := fun payload =>
      if payload == go "charged" then
        Except.ok (subscriptionEvent (go "subscription.charged") (go "sub_1"))
      else if payload == go "cancelled" then
        Except.ok (subscriptionEvent (go "subscription.cancelled") (go "sub_1"))
      else if payload == go "authorized" then
        Except.ok (paymentEvent (go "pay_1") (go "order_1"))
      else Except.error (GoError.external (go "invalid character")),
    updateNow := 2000, sqlNow := 2001 }

/-- The payment service wired as in `main.go`, on `sampleClient`. -/
def sampleRazorpayService : DefaultRazorpayService :=
  NewRazorpayService sampleClient (go "webhook123")

/-- The active subscription `s-1` of `user-1` linked to the gateway subscription `sub_1`
and to the gateway order `order_1`. -/
def linkedSubscription : SubscriptionTransaction :=
  { sampleSubscription with
    razorpaySubscriptionID := { str := go "sub_1", valid := true },
    razorpayOrderID := { str := go "order_1", valid := true } }

/-- The database `sampleDatabase` with `linkedSubscription` as its only subscription. -/
def linkedDatabase : Database :=
  { sampleDatabase with subscriptions := [linkedSubscription] }

/-- The result of an operation with the error as an option. -/
def Outcome.error? {α : Type} (r : Outcome α) : Option GoError :=
  match r.result with
  | Except.error e => some e
  | Except.ok _ => none

/-- The active rows that carry the gateway subscription identifier `subscriptionID`. -/
def activeCarrying (subscriptions : List SubscriptionTransaction) (subscriptionID : GoString) :
    List SubscriptionTransaction :=
  subscriptions.filter (fun t =>
    t.razorpaySubscriptionID.valid && t.razorpaySubscriptionID.str == subscriptionID
      && t.isActive)

/-! ## The patterns as sets of strings -/

theorem oneOf_matches (bs : List Nat) (x : List Nat) :
    x ∈ (oneOf bs).matches' ↔ ∃ b ∈ bs, x = [b] := by
  induction bs with
  | nil => simp [oneOf]
  | cons b bs ih =>
    simp only [oneOf, RegularExpression.matches'_add, Language.mem_add, ih,
      RegularExpression.matches'_char, Set.mem_singleton_iff, List.mem_cons]
    constructor
    · rintro (h | ⟨c, hc, h⟩)
      · exact ⟨b, Or.inl rfl, h⟩
      · exact ⟨c, Or.inr hc, h⟩
    · rintro ⟨c, rfl | hc, h⟩
      · exact Or.inl h
      · exact Or.inr ⟨c, hc, h⟩

theorem isDigit_iff (b : Nat) : isDigit b = true ↔ 48 ≤ b ∧ b ≤ 57 := by
  simp [isDigit]

theorem digitRe_matches (x : List Nat) :
    x ∈ digitRe.matches' ↔ ∃ b, isDigit b = true ∧ x = [b] := by
  unfold digitRe
  rw [oneOf_matches]
  constructor
  · rintro ⟨b, hb, rfl⟩
    refine ⟨b, ?_, rfl⟩
    rw [isDigit_iff]
    simp only [List.mem_cons, List.mem_singleton, List.not_mem_nil, or_false] at hb
    omega
  · rintro ⟨b, hb, rfl⟩
    refine ⟨b, ?_, rfl⟩
    rw [isDigit_iff] at hb
    simp only [List.mem_cons, List.mem_singleton, List.not_mem_nil, or_false]
    omega

theorem digitRe_pow_matches (n : Nat) (x : List Nat) :
    x ∈ (digitRe ^ n).matches' ↔ x.length = n ∧ ∀ b ∈ x, isDigit b = true := by
  induction n generalizing x with
  | zero =>
    simp only [RegularExpression.matches'_pow, pow_zero, Language.mem_one]
    constructor
    · rintro rfl
      simp
    · rintro ⟨h, -⟩
      exact List.length_eq_zero.mp h
  | succ n ih =>
    rw [RegularExpression.matches'_pow, pow_succ, Language.mem_mul]
    rw [RegularExpression.matches'_pow] at ih
    constructor
    · rintro ⟨a, ha, c, hc, rfl⟩
      obtain ⟨hlen, hall⟩ := (ih a).mp ha
      obtain ⟨d, hd, rfl⟩ := (digitRe_matches c).mp hc
      refine ⟨by simp [hlen], ?_⟩
      intro b hb
      rcases List.mem_append.mp hb with h | h
      · exact hall b h
      · rw [List.mem_singleton] at h
        rw [h]
        exact hd
    · rintro ⟨hlen, hall⟩
      have hne : x ≠ [] := by
        intro h
        rw [h] at hlen
        simp at hlen
      refine ⟨x.dropLast, (ih _).mpr ⟨by simp [hlen], ?_⟩, [x.getLast hne],
        (digitRe_matches _).mpr ⟨x.getLast hne, hall _ (List.getLast_mem hne), rfl⟩,
        List.dropLast_append_getLast hne⟩
      intro b hb
      exact hall b (List.mem_of_mem_dropLast hb)

theorem digitRe_star_matches (x : List Nat) :
    x ∈ (RegularExpression.star digitRe).matches' ↔ ∀ b ∈ x, isDigit b = true := by
  rw [RegularExpression.matches'_star, Language.mem_kstar]
  constructor
  · rintro ⟨L, rfl, hL⟩ b hb
    obtain ⟨y, hy, hby⟩ := List.mem_flatten.mp hb
    obtain ⟨d, hd, rfl⟩ := (digitRe_matches y).mp (hL y hy)
    rw [List.mem_singleton] at hby
    rw [hby]
    exact hd
  · intro h
    refine ⟨x.map (fun b => [b]), ?_, ?_⟩
    · clear h
      induction x with
      | nil => rfl
      | cons a t ih => simp [← ih]
    · intro y hy
      obtain ⟨b, hb, rfl⟩ := List.mem_map.mp hy
      exact (digitRe_matches _).mpr ⟨b, h b hb, rfl⟩

theorem matchString_iff (re : RegularExpression Nat) (x : GoString) :
    matchString re x = true ↔ x ∈ re.matches' := by
  unfold matchString
  exact RegularExpression.rmatch_iff_matches' re x

theorem matchString_allDigitsRe (x : GoString) :
    matchString allDigitsRe x = true ↔ x ≠ [] ∧ ∀ b ∈ x, isDigit b = true := by
  rw [matchString_iff, allDigitsRe, RegularExpression.matches'_mul, Language.mem_mul]
  constructor
  · rintro ⟨a, ha, c, hc, rfl⟩
    obtain ⟨d, hd, rfl⟩ := (digitRe_matches a).mp ha
    refine ⟨by simp, ?_⟩
    intro b hb
    rcases List.mem_append.mp hb with h | h
    · rw [List.mem_singleton] at h
      rw [h]
      exact hd
    · exact (digitRe_star_matches c).mp hc b h
  · rintro ⟨hne, hall⟩
    cases x with
    | nil => exact absurd rfl hne
    | cons d t =>
      exact ⟨[d], (digitRe_matches _).mpr ⟨d, hall d (List.mem_cons_self _ _), rfl⟩, t,
        (digitRe_star_matches t).mpr (fun b hb => hall b (List.mem_cons_of_mem _ hb)), rfl⟩

theorem digits_pow_mem (n : Nat) (x : List Nat) :
    x ∈ digitRe.matches' ^ n ↔ x.length = n ∧ ∀ b ∈ x, isDigit b = true := by
  rw [← RegularExpression.matches'_pow]
  exact digitRe_pow_matches n x

theorem char_mul_mem (c : Nat) (L : Language Nat) (x : List Nat) :
    x ∈ (RegularExpression.char c).matches' * L ↔ ∃ t, x = c :: t ∧ t ∈ L := by
  rw [Language.mem_mul]
  constructor
  · rintro ⟨a, ha, t, ht, rfl⟩
    rw [RegularExpression.matches'_char, Set.mem_singleton_iff] at ha
    exact ⟨t, by rw [ha]; rfl, ht⟩
  · rintro ⟨t, rfl, ht⟩
    exact ⟨[c], by rw [RegularExpression.matches'_char]; rfl, t, ht, rfl⟩

theorem oneOf_mul_mem (bs : List Nat) (L : Language Nat) (x : List Nat) :
    x ∈ (oneOf bs).matches' * L ↔ ∃ c t, c ∈ bs ∧ x = c :: t ∧ t ∈ L := by
  rw [Language.mem_mul]
  constructor
  · rintro ⟨a, ha, t, ht, rfl⟩
    obtain ⟨c, hc, rfl⟩ := (oneOf_matches bs a).mp ha
    exact ⟨c, t, hc, rfl, ht⟩
  · rintro ⟨c, t, hc, rfl, ht⟩
    exact ⟨[c], (oneOf_matches bs _).mpr ⟨c, hc, rfl⟩, t, ht, rfl⟩

theorem visaRe_iff (x : GoString) :
    matchString visaRe x = true ↔
      ∃ ds, x = 52 :: ds ∧ (∀ b ∈ ds, isDigit b = true) ∧ (ds.length = 12 ∨ ds.length = 15) := by
  rw [matchString_iff, visaRe]
  simp only [RegularExpression.matches'_mul, RegularExpression.matches'_add,
    RegularExpression.matches'_pow, RegularExpression.matches'_epsilon]
  rw [mul_assoc, char_mul_mem, mul_add, mul_one, ← pow_add]
  constructor
  · rintro ⟨t, rfl, ht⟩
    rw [Language.mem_add, digits_pow_mem, digits_pow_mem] at ht
    rcases ht with h | h
    · exact ⟨t, rfl, h.2, Or.inl h.1⟩
    · exact ⟨t, rfl, h.2, Or.inr h.1⟩
  · rintro ⟨ds, rfl, hall, hlen⟩
    refine ⟨ds, rfl, ?_⟩
    rw [Language.mem_add, digits_pow_mem, digits_pow_mem]
    rcases hlen with h | h
    · exact Or.inl ⟨h, hall⟩
    · exact Or.inr ⟨h, hall⟩

theorem mastercardRe_iff (x : GoString) :
    matchString mastercardRe x = true ↔
      ∃ c ds, x = 53 :: c :: ds ∧ (49 ≤ c ∧ c ≤ 53) ∧ ds.length = 14
        ∧ ∀ b ∈ ds, isDigit b = true := by
  rw [matchString_iff, mastercardRe]
  simp only [RegularExpression.matches'_mul, RegularExpression.matches'_pow]
  rw [mul_assoc, char_mul_mem]
  constructor
  · rintro ⟨t, rfl, ht⟩
    obtain ⟨c, ds, hc, rfl, hds⟩ := (oneOf_mul_mem _ _ _).mp ht
    rw [digits_pow_mem] at hds
    refine ⟨c, ds, rfl, ?_, hds.1, hds.2⟩
    simp only [List.mem_cons, List.mem_singleton, List.not_mem_nil, or_false] at hc
    omega
  · rintro ⟨c, ds, rfl, hc, hlen, hall⟩
    refine ⟨c :: ds, rfl, (oneOf_mul_mem _ _ _).mpr ⟨c, ds, ?_, rfl, ?_⟩⟩
    · simp only [List.mem_cons, List.mem_singleton, List.not_mem_nil, or_false]
      omega
    · rw [digits_pow_mem]
      exact ⟨hlen, hall⟩

theorem amexRe_iff (x : GoString) :
    matchString amexRe x = true ↔
      ∃ c ds, x = 51 :: c :: ds ∧ (c = 52 ∨ c = 55) ∧ ds.length = 13
        ∧ ∀ b ∈ ds, isDigit b = true := by
  rw [matchString_iff, amexRe]
  simp only [RegularExpression.matches'_mul, RegularExpression.matches'_pow]
  rw [mul_assoc, char_mul_mem]
  constructor
  · rintro ⟨t, rfl, ht⟩
    obtain ⟨c, ds, hc, rfl, hds⟩ := (oneOf_mul_mem _ _ _).mp ht
    rw [digits_pow_mem] at hds
    refine ⟨c, ds, rfl, ?_, hds.1, hds.2⟩
    simpa using hc
  · rintro ⟨c, ds, rfl, hc, hlen, hall⟩
    refine ⟨c :: ds, rfl, (oneOf_mul_mem _ _ _).mpr ⟨c, ds, ?_, rfl, ?_⟩⟩
    · simpa using hc
    · rw [digits_pow_mem]
      exact ⟨hlen, hall⟩

theorem discoverRe_iff (x : GoString) :
    matchString discoverRe x = true ↔
      (∃ ds, x = 54 :: 48 :: 49 :: 49 :: ds ∧ ds.length = 12 ∧ ∀ b ∈ ds, isDigit b = true)
        ∨ (∃ ds, x = 54 :: 53 :: ds ∧ ds.length = 14 ∧ ∀ b ∈ ds, isDigit b = true) := by
  rw [matchString_iff, discoverRe]
  simp only [RegularExpression.matches'_mul, RegularExpression.matches'_add,
    RegularExpression.matches'_pow]
  rw [mul_assoc, char_mul_mem, add_mul]
  simp only [mul_assoc]
  rw [← pow_add]
  constructor
  · rintro ⟨t, rfl, ht⟩
    rw [Language.mem_add] at ht
    rcases ht with h | h
    · obtain ⟨t1, rfl, h1⟩ := (char_mul_mem _ _ _).mp h
      obtain ⟨t2, rfl, h2⟩ := (char_mul_mem _ _ _).mp h1
      obtain ⟨t3, rfl, h3⟩ := (char_mul_mem _ _ _).mp h2
      rw [digits_pow_mem] at h3
      exact Or.inl ⟨t3, rfl, h3.1, h3.2⟩
    · obtain ⟨t1, rfl, h1⟩ := (char_mul_mem _ _ _).mp h
      rw [digits_pow_mem] at h1
      exact Or.inr ⟨t1, rfl, h1.1, h1.2⟩
  · rintro (⟨ds, rfl, hlen, hall⟩ | ⟨ds, rfl, hlen, hall⟩)
    · refine ⟨_, rfl, ?_⟩
      rw [Language.mem_add]
      left
      refine (char_mul_mem _ _ _).mpr ⟨_, rfl, (char_mul_mem _ _ _).mpr ⟨_, rfl,
        (char_mul_mem _ _ _).mpr ⟨_, rfl, ?_⟩⟩⟩
      rw [digits_pow_mem]
      exact ⟨hlen, hall⟩
    · refine ⟨_, rfl, ?_⟩
      rw [Language.mem_add]
      right
      refine (char_mul_mem _ _ _).mpr ⟨_, rfl, ?_⟩
      rw [digits_pow_mem]
      exact ⟨hlen, hall⟩

theorem followedByDigits_iff (pfx : GoString) (k : Nat) (n : GoString) :
    followedByDigits pfx k n = true ↔
      ∃ ds, n = pfx ++ ds ∧ ds.length = k ∧ ∀ b ∈ ds, isDigit b = true := by
  unfold followedByDigits
  simp only [Bool.and_eq_true, beq_iff_eq, List.all_eq_true]
  constructor
  · rintro ⟨⟨h1, h2⟩, h3⟩
    refine ⟨n.drop pfx.length, ?_, h2, h3⟩
    conv_lhs => rw [← List.take_append_drop pfx.length n]
    rw [h1]
  · rintro ⟨ds, rfl, hlen, hall⟩
    simp only [List.take_left, List.drop_left, true_and]
    exact ⟨hlen, hall⟩

theorem isVisaPattern_iff (n : GoString) :
    isVisaPattern n = true ↔ matchString visaRe n = true := by
  have hp : go "4" = [52] := by decide
  rw [visaRe_iff, isVisaPattern, Bool.or_eq_true, followedByDigits_iff, followedByDigits_iff, hp]
  constructor
  · rintro (⟨ds, rfl, hlen, hall⟩ | ⟨ds, rfl, hlen, hall⟩)
    · exact ⟨ds, rfl, hall, Or.inl hlen⟩
    · exact ⟨ds, rfl, hall, Or.inr hlen⟩
  · rintro ⟨ds, rfl, hall, hlen | hlen⟩
    · exact Or.inl ⟨ds, rfl, hlen, hall⟩
    · exact Or.inr ⟨ds, rfl, hlen, hall⟩

theorem isMastercardPattern_iff (n : GoString) :
    isMastercardPattern n = true ↔ matchString mastercardRe n = true := by
  have hp : go "5" = [53] := by decide
  have hq : go "12345" = [49, 50, 51, 52, 53] := by decide
  rw [mastercardRe_iff, isMastercardPattern, List.any_eq_true, hp, hq]
  constructor
  · rintro ⟨c, hc, h⟩
    obtain ⟨ds, rfl, hlen, hall⟩ := (followedByDigits_iff _ _ _).mp h
    refine ⟨c, ds, rfl, ?_, hlen, hall⟩
    simp only [List.mem_cons, List.mem_singleton, List.not_mem_nil, or_false] at hc
    omega
  · rintro ⟨c, ds, rfl, hc, hlen, hall⟩
    refine ⟨c, ?_, (followedByDigits_iff _ _ _).mpr ⟨ds, rfl, hlen, hall⟩⟩
    simp only [List.mem_cons, List.mem_singleton, List.not_mem_nil, or_false]
    omega

theorem isAmexPattern_iff (n : GoString) :
    isAmexPattern n = true ↔ matchString amexRe n = true := by
  have hp : go "34" = [51, 52] := by decide
  have hq : go "37" = [51, 55] := by decide
  rw [amexRe_iff, isAmexPattern, Bool.or_eq_true, followedByDigits_iff, followedByDigits_iff,
    hp, hq]
  constructor
  · rintro (⟨ds, rfl, hlen, hall⟩ | ⟨ds, rfl, hlen, hall⟩)
    · exact ⟨52, ds, rfl, Or.inl rfl, hlen, hall⟩
    · exact ⟨55, ds, rfl, Or.inr rfl, hlen, hall⟩
  · rintro ⟨c, ds, rfl, rfl | rfl, hlen, hall⟩
    · exact Or.inl ⟨ds, rfl, hlen, hall⟩
    · exact Or.inr ⟨ds, rfl, hlen, hall⟩

theorem isDiscoverPattern_iff (n : GoString) :
    isDiscoverPattern n = true ↔ matchString discoverRe n = true := by
  have hp : go "6011" = [54, 48, 49, 49] := by decide
  have hq : go "65" = [54, 53] := by decide
  rw [discoverRe_iff, isDiscoverPattern, Bool.or_eq_true, followedByDigits_iff,
    followedByDigits_iff, hp, hq]
  rfl

theorem patterns_exclusive (n : GoString) :
    (matchString visaRe n = true → matchString mastercardRe n = false
        ∧ matchString amexRe n = false ∧ matchString discoverRe n = false)
    ∧ (matchString mastercardRe n = true → matchString amexRe n = false
        ∧ matchString discoverRe n = false)
    ∧ (matchString amexRe n = true → matchString discoverRe n = false) := by
  have hv := visaRe_iff n
  have hm := mastercardRe_iff n
  have ha := amexRe_iff n
  have hd := discoverRe_iff n
  refine ⟨?_, ?_, ?_⟩
  · intro h
    obtain ⟨ds, rfl, -⟩ := hv.mp h
    refine ⟨?_, ?_, ?_⟩
    · rw [Bool.eq_false_iff]
      intro h2
      obtain ⟨c, es, he, -⟩ := hm.mp h2
      simp at he
    · rw [Bool.eq_false_iff]
      intro h2
      obtain ⟨c, es, he, -⟩ := ha.mp h2
      simp at he
    · rw [Bool.eq_false_iff]
      intro h2
      rcases hd.mp h2 with ⟨es, he, -⟩ | ⟨es, he, -⟩ <;> simp at he
  · intro h
    obtain ⟨c, ds, rfl, -⟩ := hm.mp h
    refine ⟨?_, ?_⟩
    · rw [Bool.eq_false_iff]
      intro h2
      obtain ⟨c, es, he, -⟩ := ha.mp h2
      simp at he
    · rw [Bool.eq_false_iff]
      intro h2
      rcases hd.mp h2 with ⟨es, he, -⟩ | ⟨es, he, -⟩ <;> simp at he
  · intro h
    obtain ⟨c, ds, rfl, -⟩ := ha.mp h
    rw [Bool.eq_false_iff]
    intro h2
    rcases hd.mp h2 with ⟨es, he, -⟩ | ⟨es, he, -⟩ <;> simp at he

theorem determineCardType_cases (s : GoString) :
    (determineCardType s = go "VISA" ↔ matchString visaRe (stripSeparators s) = true)
    ∧ (determineCardType s = go "MASTERCARD"
        ↔ matchString mastercardRe (stripSeparators s) = true)
    ∧ (determineCardType s = go "AMEX" ↔ matchString amexRe (stripSeparators s) = true)
    ∧ (determineCardType s = go "DISCOVER"
        ↔ matchString discoverRe (stripSeparators s) = true)
    ∧ (determineCardType s = go "UNKNOWN"
        ↔ matchString visaRe (stripSeparators s) = false
          ∧ matchString mastercardRe (stripSeparators s) = false
          ∧ matchString amexRe (stripSeparators s) = false
          ∧ matchString discoverRe (stripSeparators s) = false) := by
  obtain ⟨e1, e2, e3⟩ := patterns_exclusive (stripSeparators s)
  unfold determineCardType
  simp only []
  cases hv : matchString visaRe (stripSeparators s)
  · cases hm : matchString mastercardRe (stripSeparators s)
    · cases ha : matchString amexRe (stripSeparators s)
      · cases hd : matchString discoverRe (stripSeparators s)
        · simp only [Bool.false_eq_true, if_false]
          decide
        · simp only [Bool.false_eq_true, if_false, if_true]
          decide
      · obtain hd := e3 ha
        simp only [hd, Bool.false_eq_true, if_false, if_true]
        decide
    · obtain ⟨ha, hd⟩ := e2 hm
      simp only [ha, hd, Bool.false_eq_true, if_false, if_true]
      decide
  · obtain ⟨hm, ha, hd⟩ := e1 hv
    simp only [hm, ha, hd, Bool.false_eq_true, if_false, if_true]
    decide

/-! ## The checksum loop -/

theorem luhnStep_digit (b s k : Nat) (hb : isDigit b = true) :
    luhnStep b (s, decide (k % 2 = 1)) = (s + luhnTerm (k, b), decide ((k + 1) % 2 = 1)) := by
  rw [isDigit_iff] at hb
  have hv : (b + 256 - 48) % 256 = b - 48 := by omega
  have hd : (decide ((0 : Nat) = 1)) = false := by decide
  rcases Nat.mod_two_eq_zero_or_one k with hk | hk
  · have h1 : (k + 1) % 2 = 1 := by omega
    simp only [luhnStep, luhnTerm, digitValue, hk, h1, hv, hd, decide_True, Bool.not_false]
    rfl
  · have h1 : (k + 1) % 2 = 0 := by omega
    simp only [luhnStep, luhnTerm, digitValue, digitSum, hk, h1, hv, hd, decide_True,
      Bool.not_true, if_true]
    congr 1
    split <;> split <;> omega

theorem luhn_foldl (r : List Nat) (hall : ∀ b ∈ r, isDigit b = true) (s k : Nat) :
    r.foldl (fun st b => luhnStep b st) (s, decide (k % 2 = 1))
      = (s + ((r.enumFrom k).map luhnTerm).sum, decide ((k + r.length) % 2 = 1)) := by
  induction r generalizing s k with
  | nil => simp
  | cons b t ih =>
    have hb := hall b (List.mem_cons_self _ _)
    have ht : ∀ c ∈ t, isDigit c = true := fun c hc => hall c (List.mem_cons_of_mem _ hc)
    rw [List.foldl_cons, luhnStep_digit b s k hb, ih ht]
    simp only [List.enumFrom_cons, List.map_cons, List.sum_cons, List.length_cons]
    congr 1
    · omega
    · congr 2
      omega

theorem luhnLoop_eq_spec (number : GoString) (hall : ∀ b ∈ number, isDigit b = true) :
    (luhnLoop number).1 = luhnSumSpec number := by
  have hrev : ∀ b ∈ number.reverse, isDigit b = true :=
    fun b hb => hall b (List.mem_reverse.mp hb)
  have h := luhn_foldl number.reverse hrev 0 0
  rw [List.foldl_reverse] at h
  unfold luhnLoop luhnSumSpec List.enum
  have h0 : (decide ((0 : Nat) % 2 = 1)) = false := by decide
  rw [h0] at h
  rw [h]
  simp

theorem luhnStep_eq (b : Nat) (st : Nat × Bool) :
    luhnStep b st = (st.1 + (luhnStep b (0, st.2)).1, !st.2) := by
  simp [luhnStep]

theorem luhn_foldr_shift (l : List Nat) (s : Nat) (alt : Bool) :
    l.foldr luhnStep (s, alt)
      = (s + (l.foldr luhnStep (0, alt)).1, (l.foldr luhnStep (0, alt)).2) := by
  induction l with
  | nil => simp
  | cons b t ih =>
    rw [List.foldr_cons, ih, luhnStep_eq]
    rw [List.foldr_cons, luhnStep_eq b (List.foldr luhnStep (0, alt) t)]
    simp only [Prod.mk.injEq, and_true]
    omega

theorem luhn_swap_fin :
    ∀ x y : Fin 10, ∀ p : Bool, x ≠ y → ¬ (x = 0 ∧ y = 9) → ¬ (x = 9 ∧ y = 0) →
      ((luhnStep (48 + y.val) (0, p)).1 + (luhnStep (48 + x.val) (0, !p)).1) % 10
        ≠ ((luhnStep (48 + x.val) (0, p)).1 + (luhnStep (48 + y.val) (0, !p)).1) % 10 := by
  decide

theorem luhn_swap_digits (x : Nat) (hx : x < 10) (y : Nat) (hy : y < 10) (p : Bool)
    (hne : x ≠ y) (h09 : ¬ (x = 0 ∧ y = 9)) (h90 : ¬ (x = 9 ∧ y = 0)) :
    ((luhnStep (48 + y) (0, p)).1 + (luhnStep (48 + x) (0, !p)).1) % 10
      ≠ ((luhnStep (48 + x) (0, p)).1 + (luhnStep (48 + y) (0, !p)).1) % 10 := by
  have h := luhn_swap_fin ⟨x, hx⟩ ⟨y, hy⟩ p
    (by intro h; exact hne (congrArg Fin.val h))
    (by rintro ⟨h1, h2⟩; exact h09 ⟨congrArg Fin.val h1, congrArg Fin.val h2⟩)
    (by rintro ⟨h1, h2⟩; exact h90 ⟨congrArg Fin.val h1, congrArg Fin.val h2⟩)
  exact h

theorem luhnLoop_swap (pre post : List Nat) (a b : Nat) :
    ∃ base : Nat, ∃ p : Bool,
      (luhnLoop (pre ++ a :: b :: post)).1
          = base + ((luhnStep b (0, p)).1 + (luhnStep a (0, !p)).1)
      ∧ (luhnLoop (pre ++ b :: a :: post)).1
          = base + ((luhnStep a (0, p)).1 + (luhnStep b (0, !p)).1) := by
  refine ⟨(post.foldr luhnStep (0, false)).1
      + (pre.foldr luhnStep (0, (post.foldr luhnStep (0, false)).2)).1,
    (post.foldr luhnStep (0, false)).2, ?_, ?_⟩
  · unfold luhnLoop
    rw [List.foldr_append, List.foldr_cons, List.foldr_cons,
      luhnStep_eq b, luhnStep_eq a, luhn_foldr_shift]
    simp only [Bool.not_not]
    omega
  · unfold luhnLoop
    rw [List.foldr_append, List.foldr_cons, List.foldr_cons,
      luhnStep_eq a, luhnStep_eq b, luhn_foldr_shift]
    simp only [Bool.not_not]
    omega

theorem stripSeparators_append (x y : GoString) :
    stripSeparators (x ++ y) = stripSeparators x ++ stripSeparators y := by
  simp [stripSeparators]

theorem isSeparator_of_isDigit (b : Nat) (hb : isDigit b = true) : isSeparator b = false := by
  rw [isDigit_iff] at hb
  simp only [isSeparator, isSpace, Bool.or_eq_false_iff, beq_eq_false_iff_ne]
  omega

theorem stripSeparators_cons_digit (b : Nat) (x : GoString) (hb : isDigit b = true) :
    stripSeparators (b :: x) = b :: stripSeparators x := by
  simp [stripSeparators, isSeparator_of_isDigit b hb]

theorem isValidCardNumber_eq_true (s : GoString) :
    isValidCardNumber s = true ↔
      (∀ b ∈ stripSeparators s, isDigit b = true)
        ∧ 13 ≤ (stripSeparators s).length ∧ (stripSeparators s).length ≤ 19
        ∧ (luhnLoop (stripSeparators s)).1 % 10 = 0 := by
  unfold isValidCardNumber
  simp only []
  by_cases hm : matchString allDigitsRe (stripSeparators s) = true
  · have hall := ((matchString_allDigitsRe _).mp hm).2
    simp only [hm, Bool.not_true, Bool.false_eq_true, if_false, Bool.or_eq_true,
      decide_eq_true_eq]
    by_cases hl : (stripSeparators s).length < 13 ∨ (stripSeparators s).length > 19
    · simp only [hl, if_true, Bool.false_eq_true, false_iff]
      intro h
      omega
    · simp only [hl, if_false, beq_iff_eq]
      constructor
      · intro h
        exact ⟨hall, by omega, by omega, h⟩
      · intro h
        exact h.2.2.2
  · have hm2 : matchString allDigitsRe (stripSeparators s) = false := by
      simpa using hm
    simp only [hm2, Bool.not_false, if_true, Bool.false_eq_true, false_iff]
    rintro ⟨hall, h13, -, -⟩
    apply hm
    rw [matchString_allDigitsRe]
    refine ⟨?_, hall⟩
    intro h
    rw [h] at h13
    simp at h13

/-! ## The card registry -/

theorem length_of_valid (n : GoString) (h : isValidCardNumber n = true) : 13 ≤ n.length := by
  rw [isValidCardNumber_eq_true] at h
  have hle : (stripSeparators n).length ≤ n.length := by
    unfold stripSeparators
    exact List.length_filter_le _ _
  omega

theorem validateCard_none_valid (env : Env) (card : Card) (h : validateCard env card = none) :
    isValidCardNumber card.cardNumber = true := by
  unfold validateCard at h
  cases hn : isValidCardNumber card.cardNumber
  · simp [hn] at h
  · rfl

theorem create_row (env : Env) (store : CardStore) (card : Card)
    (hlen : 4 ≤ card.cardNumber.length) :
    SQLCardRepository.Create env store card
      = ({ card with
            id := if card.id == [] then env.newID else card.id
            lastFourDigits := lastFourBytes card.cardNumber
            createdAt := env.now
            updatedAt := env.now2 },
         store ++ [{ card with
            id := if card.id == [] then env.newID else card.id
            lastFourDigits := lastFourBytes card.cardNumber
            createdAt := env.now
            updatedAt := env.now2 }]) := by
  unfold SQLCardRepository.Create
  by_cases hid : (card.id == []) = true
  · simp [hid, hlen]
  · simp [hid, hlen]

theorem hasLastFour_false_iff (store : CardStore) (userID lastFour : GoString) :
    hasLastFour (SQLCardRepository.GetByUserID store userID) lastFour = false ↔
      ∀ c ∈ store, c.userID = userID → c.lastFourDigits ≠ lastFour := by
  unfold hasLastFour SQLCardRepository.GetByUserID
  rw [List.any_eq_false]
  constructor
  · intro h c hc hu
    have := h c (List.mem_filter.mpr ⟨hc, by simpa using hu⟩)
    simpa using this
  · intro h c hc
    obtain ⟨hc1, hc2⟩ := List.mem_filter.mp hc
    have := h c hc1 (by simpa using hc2)
    simpa using this

theorem createCard_duplicate (env : Env) (store : CardStore) (card : Card)
    (hdup : hasLastFour (SQLCardRepository.GetByUserID store card.userID)
      (if card.cardNumber.length ≥ 4 then lastFourBytes card.cardNumber else []) = true) :
    CreateCard env store card = (some CardError.ErrCardAlreadyExists, card, store) := by
  unfold CreateCard
  simp only [hdup, if_true]

theorem createCard_invalid (env : Env) (store : CardStore) (card : Card) (err : CardError)
    (hdup : hasLastFour (SQLCardRepository.GetByUserID store card.userID)
      (if card.cardNumber.length ≥ 4 then lastFourBytes card.cardNumber else []) = false)
    (hval : validateCard env card = some err) :
    CreateCard env store card = (some err, card, store) := by
  unfold CreateCard
  simp only [hdup, hval, Bool.false_eq_true, if_false]

theorem createCard_success (env : Env) (store : CardStore) (card : Card)
    (hdup : hasLastFour (SQLCardRepository.GetByUserID store card.userID)
      (if card.cardNumber.length ≥ 4 then lastFourBytes card.cardNumber else []) = false)
    (hval : validateCard env card = none) :
    CreateCard env store card
      = (none,
         { card with
            id := if card.id == [] then env.newID else card.id
            cardType := determineCardType card.cardNumber
            lastFourDigits := lastFourBytes card.cardNumber
            createdAt := env.now
            updatedAt := env.now2 },
         store ++ [{ card with
            id := if card.id == [] then env.newID else card.id
            cardType := determineCardType card.cardNumber
            lastFourDigits := lastFourBytes card.cardNumber
            createdAt := env.now
            updatedAt := env.now2 }]) := by
  have hlen : 4 ≤ card.cardNumber.length := by
    have := length_of_valid _ (validateCard_none_valid env card hval)
    omega
  unfold CreateCard
  simp only [hdup, hval, Bool.false_eq_true, if_false]
  rw [create_row env store { card with cardType := determineCardType card.cardNumber } hlen]

theorem createCard_preserves (env : Env) (store : CardStore) (card : Card)
    (h : NoDuplicateLastFour store) : NoDuplicateLastFour (CreateCard env store card).2.2 := by
  cases hdup : hasLastFour (SQLCardRepository.GetByUserID store card.userID)
      (if card.cardNumber.length ≥ 4 then lastFourBytes card.cardNumber else [])
  · cases hval : validateCard env card with
    | some err =>
      rw [createCard_invalid env store card err hdup hval]
      exact h
    | none =>
      rw [createCard_success env store card hdup hval]
      have hlen : 4 ≤ card.cardNumber.length := by
        have := length_of_valid _ (validateCard_none_valid env card hval)
        omega
      rw [hasLastFour_false_iff] at hdup
      simp only [ge_iff_le, hlen, if_true] at hdup
      unfold NoDuplicateLastFour at h ⊢
      rw [List.pairwise_append]
      refine ⟨h, List.pairwise_singleton _ _, ?_⟩
      intro a ha b hb
      rw [List.mem_singleton] at hb
      subst hb
      intro hu
      exact hdup a ha hu
  · rw [createCard_duplicate env store card hdup]
    exact h

theorem createCards_preserves (calls : List (Env × Card)) (store : CardStore)
    (h : NoDuplicateLastFour store) : NoDuplicateLastFour (createCards store calls) := by
  induction calls generalizing store with
  | nil => exact h
  | cons call rest ih =>
    obtain ⟨env, card⟩ := call
    unfold createCards
    exact ih _ (createCard_preserves env store card h)

theorem getCard_not_found (store : CardStore) (id userID : GoString)
    (h : ∀ c ∈ store, c.id ≠ id) : GetCard store id userID = Except.error CardError.ErrCardNotFound := by
  have hnone : SQLCardRepository.GetByID store id = none := by
    unfold SQLCardRepository.GetByID
    rw [List.find?_eq_none]
    intro c hc
    simpa using h c hc
  unfold GetCard
  rw [hnone]

theorem getCard_unauthorized (store : CardStore) (id userID : GoString) (existing : Card)
    (hget : SQLCardRepository.GetByID store id = some existing)
    (h : existing.userID ≠ userID) :
    GetCard store id userID = Except.error CardError.ErrUnauthorized := by
  unfold GetCard
  rw [hget]
  simp [h]

theorem stripSeparators_digits (x : GoString) (h : ∀ b ∈ x, isDigit b = true) :
    stripSeparators x = x := by
  unfold stripSeparators
  rw [List.filter_eq_self]
  intro b hb
  simp [isSeparator_of_isDigit b (h b hb)]

theorem lastFourBytes_append (x y : GoString) (hy : y.length = 4) :
    lastFourBytes (x ++ y) = y := by
  unfold lastFourBytes
  have e : (x ++ y).length - 4 = x.length := by
    rw [List.length_append]
    omega
  rw [e, List.drop_left]

theorem lastFourBytes_strip (n : GoString) (hlen : 4 ≤ n.length)
    (hd : ∀ b ∈ lastFourBytes n, isDigit b = true) :
    lastFourBytes (stripSeparators n) = lastFourBytes n := by
  have hsplit : n = n.take (n.length - 4) ++ lastFourBytes n := by
    unfold lastFourBytes
    exact (List.take_append_drop _ _).symm
  have hl : (lastFourBytes n).length = 4 := by
    unfold lastFourBytes
    rw [List.length_drop]
    omega
  conv_lhs => rw [hsplit]
  rw [stripSeparators_append, stripSeparators_digits _ hd, lastFourBytes_append _ _ hl]

theorem stripSeparators_eq_spec (s : GoString) :
    stripSeparators s = withoutSeparatorsSpec s := by
  induction s with
  | nil => rfl
  | cons b rest ih =>
    by_cases h : b = 9 ∨ b = 10 ∨ b = 12 ∨ b = 13 ∨ b = 32 ∨ b = 45
    · have hsep : isSeparator b = true := by
        simp only [isSeparator, isSpace, Bool.or_eq_true, beq_iff_eq]
        omega
      have hl : stripSeparators (b :: rest) = stripSeparators rest := by
        simp [stripSeparators, hsep]
      rw [hl, ih]
      simp only [withoutSeparatorsSpec, h, if_true]
    · have hsep : isSeparator b = false := by
        simp only [isSeparator, isSpace, Bool.or_eq_false_iff, beq_eq_false_iff_ne]
        omega
      have hl : stripSeparators (b :: rest) = b :: stripSeparators rest := by
        simp [stripSeparators, hsep]
      rw [hl, ih]
      simp only [withoutSeparatorsSpec, h, if_false]

/-! ## Claims -/

/-- C1: `isValidCardNumber s` is true exactly when `s`, with every whitespace byte and hyphen
removed, consists only of decimal digits, has between 13 and 19 of them, and has a Luhn sum
(digits taken from the rightmost, every second one doubled, a doubled value above 9 replaced
by the sum of its two digits) divisible by 10; `4532015112830366` and `1234567812345670`
are accepted, and so is the first of them written with hyphens, with spaces, or with a tab
between its groups of four. -/
theorem isValidCardNumber_spec :
    (∀ s : GoString,
      isValidCardNumber s = true ↔
        (∀ b ∈ withoutSeparatorsSpec s, isDigit b = true)
          ∧ 13 ≤ (withoutSeparatorsSpec s).length ∧ (withoutSeparatorsSpec s).length ≤ 19
          ∧ luhnSumSpec (withoutSeparatorsSpec s) % 10 = 0)
    ∧ isValidCardNumber (go "4532015112830366") = true
    ∧ isValidCardNumber (go "1234567812345670") = true
    ∧ isValidCardNumber (go "4532-0151-1283-0366") = true
    ∧ isValidCardNumber (go "4532 0151 1283 0366") = true
    ∧ isValidCardNumber (go "4532 0151" ++ [9] ++ go "1283-0366") = true
    ∧ withoutSeparatorsSpec (go "4532 0151" ++ [9] ++ go "1283-0366")
        = go "4532015112830366" := by
  refine ⟨?_, by decide, by decide, by decide, by decide, by decide, by decide⟩
  intro s
  rw [isValidCardNumber_eq_true, stripSeparators_eq_spec]
  constructor
  · rintro ⟨hall, h13, h19, hl⟩
    exact ⟨hall, h13, h19, by rw [← luhnLoop_eq_spec _ hall]; exact hl⟩
  · rintro ⟨hall, h13, h19, hl⟩
    exact ⟨hall, h13, h19, by rw [luhnLoop_eq_spec _ hall]; exact hl⟩

/-- C2 (counterexample): `4090000000000003` is accepted, and so is `4900000000000003`, which
is the same number with the adjacent, different digits 0 and 9 exchanged. -/
theorem transposition_09_undetected :
    isValidCardNumber (go "4090000000000003") = true
      ∧ isValidCardNumber (go "4900000000000003") = true := by
  decide

/-- C2 (amended): in an accepted card number, exchanging two digits that are adjacent once
whitespace and hyphens are disregarded, that differ, and that are not the pair 0 and 9,
yields a number that `isValidCardNumber` rejects. -/
theorem transposition_detected (pre sep post : GoString) (a b : Nat)
    (ha : isDigit a = true) (hb : isDigit b = true) (hsep : stripSeparators sep = [])
    (hne : a ≠ b) (h09 : ¬ (a = 48 ∧ b = 57)) (h90 : ¬ (a = 57 ∧ b = 48))
    (hvalid : isValidCardNumber (pre ++ a :: sep ++ b :: post) = true) :
    isValidCardNumber (pre ++ b :: sep ++ a :: post) = false := by
  have hs1 : stripSeparators (pre ++ a :: sep ++ b :: post)
      = stripSeparators pre ++ a :: b :: stripSeparators post := by
    rw [List.append_assoc, stripSeparators_append, List.cons_append,
      stripSeparators_cons_digit a _ ha, stripSeparators_append, hsep, List.nil_append,
      stripSeparators_cons_digit b _ hb]
  have hs2 : stripSeparators (pre ++ b :: sep ++ a :: post)
      = stripSeparators pre ++ b :: a :: stripSeparators post := by
    rw [List.append_assoc, stripSeparators_append, List.cons_append,
      stripSeparators_cons_digit b _ hb, stripSeparators_append, hsep, List.nil_append,
      stripSeparators_cons_digit a _ ha]
  rw [isValidCardNumber_eq_true, hs1] at hvalid
  obtain ⟨-, -, -, hl⟩ := hvalid
  rw [Bool.eq_false_iff]
  intro hv
  rw [isValidCardNumber_eq_true, hs2] at hv
  obtain ⟨-, -, -, hl2⟩ := hv
  obtain ⟨base, p, h1, h2⟩ := luhnLoop_swap (stripSeparators pre) (stripSeparators post) a b
  rw [h1] at hl
  rw [h2] at hl2
  rw [isDigit_iff] at ha hb
  have hx := luhn_swap_digits (a - 48) (by omega) (b - 48) (by omega) p (by omega)
    (by omega) (by omega)
  have ea : 48 + (a - 48) = a := by omega
  have eb : 48 + (b - 48) = b := by omega
  rw [ea, eb] at hx
  omega

/-- C2 (amended), at `4532015112830366` with the digits 3 and 2 exchanged. -/
theorem transposition_detected_witness :
    isValidCardNumber (go "4532015112830366") = true
      ∧ isValidCardNumber (go "4523015112830366") = false :=
  ⟨by decide,
    transposition_detected (go "45") [] (go "015112830366") 51 50 (by decide) (by decide)
      (by decide) (by decide) (by decide) (by decide) (by decide)⟩

/-- C3: with the clock at `(currentYear, currentMonth)`, `isValidExpiryDate month year` is
true exactly when `1 ≤ month ≤ 12`, `(year, month)` is not earlier than
`(currentYear, currentMonth)`, and `year ≤ currentYear + 10`; so month 13, the year before
the current one and the eleventh year after it are rejected, and the current month of the
current year is accepted. -/
theorem isValidExpiryDate_spec (currentYear currentMonth : Int) :
    (∀ month year : Int,
      isValidExpiryDate currentYear currentMonth month year = true ↔
        (1 ≤ month ∧ month ≤ 12)
          ∧ ¬ (year < currentYear ∨ (year = currentYear ∧ month < currentMonth))
          ∧ year ≤ currentYear + 10)
    ∧ (∀ year : Int, isValidExpiryDate currentYear currentMonth 13 year = false)
    ∧ (∀ month : Int, isValidExpiryDate currentYear currentMonth month (currentYear - 1) = false)
    ∧ (∀ month : Int, isValidExpiryDate currentYear currentMonth month (currentYear + 11) = false)
    ∧ (1 ≤ currentMonth ∧ currentMonth ≤ 12 →
        isValidExpiryDate currentYear currentMonth currentMonth currentYear = true) := by
  have key : ∀ month year : Int,
      isValidExpiryDate currentYear currentMonth month year = true ↔
        (1 ≤ month ∧ month ≤ 12)
          ∧ ¬ (year < currentYear ∨ (year = currentYear ∧ month < currentMonth))
          ∧ year ≤ currentYear + 10 := by
    intro month year
    unfold isValidExpiryDate
    simp only [Bool.or_eq_true, Bool.and_eq_true, decide_eq_true_eq, beq_iff_eq]
    split_ifs <;> simp <;> omega
  refine ⟨key, ?_, ?_, ?_, ?_⟩
  · intro year
    rw [Bool.eq_false_iff, Ne, key]
    omega
  · intro month
    rw [Bool.eq_false_iff, Ne, key]
    omega
  · intro month
    rw [Bool.eq_false_iff, Ne, key]
    omega
  · intro h
    rw [key]
    omega

/-- C3, with the clock at November 2026. -/
theorem isValidExpiryDate_spec_witness :
    isValidExpiryDate 2026 11 11 2026 = true :=
  (isValidExpiryDate_spec 2026 11).2.2.2.2 (by decide)

/-- C4: with `n` the submitted string without whitespace and hyphens, `determineCardType`
answers VISA exactly when `n` is `4` followed by 12 or 15 digits, MASTERCARD exactly when
`n` is `5`, a digit from 1 to 5, then 14 digits, and AMEX exactly when `n` is `34` or `37`
followed by 13 digits; `4111111111111111`, `5500000000000004` and `340000000000009` are
VISA, MASTERCARD and AMEX, also when written with spaces or hyphens between their groups of
digits. -/
theorem determineCardType_visa_mastercard_amex :
    (∀ s : GoString,
      (determineCardType s = go "VISA" ↔ isVisaPattern (withoutSeparatorsSpec s) = true)
      ∧ (determineCardType s = go "MASTERCARD"
          ↔ isMastercardPattern (withoutSeparatorsSpec s) = true)
      ∧ (determineCardType s = go "AMEX" ↔ isAmexPattern (withoutSeparatorsSpec s) = true))
    ∧ determineCardType (go "4111111111111111") = go "VISA"
    ∧ determineCardType (go "5500000000000004") = go "MASTERCARD"
    ∧ determineCardType (go "340000000000009") = go "AMEX"
    ∧ determineCardType (go "4111 1111 1111 1111") = go "VISA"
    ∧ determineCardType (go "5500-0000-0000-0004") = go "MASTERCARD"
    ∧ determineCardType (go "3400 000000-00009") = go "AMEX"
    ∧ withoutSeparatorsSpec (go "3400 000000-00009") = go "340000000000009" := by
  refine ⟨?_, by decide, by decide, by decide, by decide, by decide, by decide, by decide⟩
  intro s
  obtain ⟨hv, hm, ha, -, -⟩ := determineCardType_cases s
  rw [stripSeparators_eq_spec] at hv hm ha
  exact ⟨hv.trans (isVisaPattern_iff _).symm, hm.trans (isMastercardPattern_iff _).symm,
    ha.trans (isAmexPattern_iff _).symm⟩

/-- C5 (counterexample): `65000000000000` is `65` followed by exactly 12 digits and is
classified UNKNOWN, while `6500000000000002`, which is neither `6011` nor `65` followed by
exactly 12 digits, is classified DISCOVER. -/
theorem discover_65_needs_fourteen_digits :
    isDiscoverPatternSpec (stripSeparators (go "65000000000000")) = true
      ∧ determineCardType (go "65000000000000") = go "UNKNOWN"
      ∧ isDiscoverPatternSpec (stripSeparators (go "6500000000000002")) = false
      ∧ determineCardType (go "6500000000000002") = go "DISCOVER" := by
  decide

/-- C5 (amended): with `n` the submitted string without whitespace and hyphens,
`determineCardType` answers DISCOVER exactly when `n` is `6011` followed by 12 digits or
`65` followed by 14 digits, and UNKNOWN exactly when `n` fits none of the VISA, MASTERCARD,
AMEX and DISCOVER patterns; `6011000000000004` is DISCOVER, also when written with spaces,
`6500000000000002` written with hyphens is DISCOVER, and `9999999999999999` is UNKNOWN. -/
theorem determineCardType_discover_unknown :
    (∀ s : GoString,
      (determineCardType s = go "DISCOVER"
          ↔ isDiscoverPattern (withoutSeparatorsSpec s) = true)
      ∧ (determineCardType s = go "UNKNOWN"
          ↔ isVisaPattern (withoutSeparatorsSpec s) = false
            ∧ isMastercardPattern (withoutSeparatorsSpec s) = false
            ∧ isAmexPattern (withoutSeparatorsSpec s) = false
            ∧ isDiscoverPattern (withoutSeparatorsSpec s) = false))
    ∧ determineCardType (go "6011000000000004") = go "DISCOVER"
    ∧ determineCardType (go "9999999999999999") = go "UNKNOWN"
    ∧ determineCardType (go "6011 0000 0000 0004") = go "DISCOVER"
    ∧ determineCardType (go "6500-0000-0000-0002") = go "DISCOVER"
    ∧ withoutSeparatorsSpec (go "6011 0000 0000 0004") = go "6011000000000004" := by
  refine ⟨?_, by decide, by decide, by decide, by decide, by decide⟩
  intro s
  obtain ⟨-, -, -, hd, hu⟩ := determineCardType_cases s
  rw [stripSeparators_eq_spec] at hd hu
  refine ⟨hd.trans (isDiscoverPattern_iff _).symm, hu.trans ?_⟩
  have e1 := isVisaPattern_iff (withoutSeparatorsSpec s)
  have e2 := isMastercardPattern_iff (withoutSeparatorsSpec s)
  have e3 := isAmexPattern_iff (withoutSeparatorsSpec s)
  have e4 := isDiscoverPattern_iff (withoutSeparatorsSpec s)
  simp only [← Bool.not_eq_true, e1, e2, e3, e4]

/-- C6: `validateCard` returns `nil` exactly when the number passes `isValidCardNumber`, the
expiry passes `isValidExpiryDate` and the holder name is not empty; otherwise it returns the
error of the first failing check, in the order number, expiry, holder name.  The brand plays
no part: the stored brand field is not read, and a card whose number classifies as UNKNOWN
is accepted when its number, expiry and holder name are valid. -/
theorem validateCard_spec (env : Env) (card : Card) :
    (validateCard env card = none ↔
      isValidCardNumber card.cardNumber = true
        ∧ isValidExpiryDate env.currentYear env.currentMonth card.expiryMonth card.expiryYear
            = true
        ∧ card.cardHolderName ≠ [])
    ∧ (isValidCardNumber card.cardNumber = false →
        validateCard env card = some CardError.ErrInvalidCardNumber)
    ∧ (isValidCardNumber card.cardNumber = true →
        isValidExpiryDate env.currentYear env.currentMonth card.expiryMonth card.expiryYear
            = false →
        validateCard env card = some CardError.ErrInvalidExpiryDate)
    ∧ (isValidCardNumber card.cardNumber = true →
        isValidExpiryDate env.currentYear env.currentMonth card.expiryMonth card.expiryYear
            = true →
        card.cardHolderName = [] →
        validateCard env card = some CardError.ErrInvalidCardHolderName)
    ∧ (∀ brand : GoString, validateCard env { card with cardType := brand }
        = validateCard env card)
    ∧ (determineCardType card.cardNumber = go "UNKNOWN" →
        isValidCardNumber card.cardNumber = true →
        isValidExpiryDate env.currentYear env.currentMonth card.expiryMonth card.expiryYear
            = true →
        card.cardHolderName ≠ [] →
        validateCard env card = none) := by
  unfold validateCard
  cases hn : isValidCardNumber card.cardNumber <;>
    cases he : isValidExpiryDate env.currentYear env.currentMonth card.expiryMonth
      card.expiryYear <;>
    by_cases hh : card.cardHolderName = [] <;>
    simp [hn, he, hh]

/-- C6, at the card `9999999999999995` of unknown brand, expiring December 2027, with the
clock at November 2026. -/
theorem validateCard_spec_witness :
    validateCard ⟨2026, 11, go "id-1", 1, 2⟩
      (newCard (go "user-1") (go "9999999999999995") (go "A. Holder") 12 2027) = none :=
  (validateCard_spec ⟨2026, 11, go "id-1", 1, 2⟩
    (newCard (go "user-1") (go "9999999999999995") (go "A. Holder") 12 2027)).2.2.2.2.2
    (by decide) (by decide) (by decide) (by decide)

/-- C7: starting from the empty table, after any sequence of `CreateCard` calls no owner has
two rows with the same `lastFourDigits`; `CreateCard` returns the duplicate-card error and
leaves the table as it was whenever a row of the owner stores the last four bytes of the
submitted number; and the rows of other owners have no influence on the error returned. -/
theorem createCard_no_duplicate_lastFour :
    (∀ calls : List (Env × Card), NoDuplicateLastFour (createCards [] calls))
    ∧ (∀ (env : Env) (store : CardStore) (card existing : Card),
        existing ∈ store → existing.userID = card.userID →
        4 ≤ card.cardNumber.length →
        existing.lastFourDigits = lastFourBytes card.cardNumber →
        CreateCard env store card = (some CardError.ErrCardAlreadyExists, card, store))
    ∧ (∀ (env : Env) (store : CardStore) (card : Card),
        (CreateCard env store card).1
          = (CreateCard env (store.filter (fun c => c.userID == card.userID)) card).1) := by
  refine ⟨?_, ?_, ?_⟩
  · intro calls
    exact createCards_preserves calls [] List.Pairwise.nil
  · intro env store card existing hmem huser hlen hlast
    have hdup : hasLastFour (SQLCardRepository.GetByUserID store card.userID)
        (lastFourBytes card.cardNumber) = true := by
      unfold hasLastFour SQLCardRepository.GetByUserID
      rw [List.any_eq_true]
      exact ⟨existing, List.mem_filter.mpr ⟨hmem, by simpa using huser⟩, by simpa using hlast⟩
    apply createCard_duplicate
    simp only [ge_iff_le, hlen, if_true, hdup]
  · intro env store card
    have hf : SQLCardRepository.GetByUserID
          (store.filter (fun c => c.userID == card.userID)) card.userID
        = SQLCardRepository.GetByUserID store card.userID := by
      unfold SQLCardRepository.GetByUserID
      rw [List.filter_filter]
      simp
    cases hdup : hasLastFour (SQLCardRepository.GetByUserID store card.userID)
        (if card.cardNumber.length ≥ 4 then lastFourBytes card.cardNumber else [])
    · cases hval : validateCard env card with
      | some err =>
        rw [createCard_invalid env store card err hdup hval,
          createCard_invalid env _ card err (by rw [hf]; exact hdup) hval]
      | none =>
        rw [createCard_success env store card hdup hval,
          createCard_success env _ card (by rw [hf]; exact hdup) hval]
    · rw [createCard_duplicate env store card hdup,
        createCard_duplicate env _ card (by rw [hf]; exact hdup)]

/-- C7, at a second registration of `4532015112830366` by the same owner. -/
theorem createCard_no_duplicate_lastFour_witness :
    CreateCard sampleEnv [sampleRow] sampleCard
      = (some CardError.ErrCardAlreadyExists, sampleCard, [sampleRow]) :=
  createCard_no_duplicate_lastFour.2.1 sampleEnv [sampleRow] sampleCard sampleRow
    (by decide) (by decide) (by decide) (by decide)

/-- C8 (failing input): registering `4532015112830366` followed by one space succeeds and
stores `366` and the space as `lastFourDigits`, while the last four digits of the number
without whitespace and hyphens are `0366`. -/
theorem createCard_lastFour_keeps_separator :
    (CreateCard sampleEnv []
        (newCard (go "user-1") (go "4532015112830366 ") (go "A. Holder") 12 2027)).1 = none
      ∧ (CreateCard sampleEnv []
          (newCard (go "user-1") (go "4532015112830366 ") (go "A. Holder") 12 2027)).2.2.map
            Card.lastFourDigits = [go "366 "]
      ∧ lastFourBytes (stripSeparators (go "4532015112830366 ")) = go "0366" := by
  decide

/-- C9 (counterexample): `4532015112830366` and `4052015112830366` are both accepted, have the
same last four digits and the same brand, and registering one or the other with the same
owner, holder name, expiry, generated id and timestamps leaves different tables. -/
theorem createCard_persists_full_number :
    isValidCardNumber (go "4532015112830366") = true
      ∧ isValidCardNumber (go "4052015112830366") = true
      ∧ lastFourBytes (stripSeparators (go "4532015112830366"))
          = lastFourBytes (stripSeparators (go "4052015112830366"))
      ∧ determineCardType (go "4532015112830366") = determineCardType (go "4052015112830366")
      ∧ (CreateCard sampleEnv []
          (newCard (go "user-1") (go "4532015112830366") (go "A. Holder") 12 2027)).2.2
        ≠ (CreateCard sampleEnv []
          (newCard (go "user-1") (go "4052015112830366") (go "A. Holder") 12 2027)).2.2 := by
  decide

/-- C9 (amended): the inserted row holds the submitted card number in full; for two accepted
numbers whose last four submitted bytes are digits, with the same last four digits and the
same brand, registering one or the other with the same owner, holder name, expiry, generated
id and timestamps gives the same result, and on success the two inserted rows agree in every
column other than `card_number`. -/
theorem createCard_rows_differ_in_number_only (env : Env) (store : CardStore) (card : Card)
    (n1 n2 : GoString)
    (h1 : isValidCardNumber n1 = true) (h2 : isValidCardNumber n2 = true)
    (hd1 : ∀ b ∈ lastFourBytes n1, isDigit b = true)
    (hd2 : ∀ b ∈ lastFourBytes n2, isDigit b = true)
    (hdigits : lastFourBytes (stripSeparators n1) = lastFourBytes (stripSeparators n2))
    (hbrand : determineCardType n1 = determineCardType n2) :
    (CreateCard env store { card with cardNumber := n1 }).1
        = (CreateCard env store { card with cardNumber := n2 }).1
      ∧ ((CreateCard env store { card with cardNumber := n1 }).1 = none →
          ∃ row : Card,
            (CreateCard env store { card with cardNumber := n1 }).2.2 = store ++ [row]
              ∧ row.cardNumber = n1
              ∧ (CreateCard env store { card with cardNumber := n2 }).2.2
                  = store ++ [{ row with cardNumber := n2 }]) := by
  have hl1 := length_of_valid n1 h1
  have hl2 := length_of_valid n2 h2
  have hlast : lastFourBytes n1 = lastFourBytes n2 := by
    rw [← lastFourBytes_strip n1 (by omega) hd1, ← lastFourBytes_strip n2 (by omega) hd2]
    exact hdigits
  have hv : validateCard env { card with cardNumber := n1 }
      = validateCard env { card with cardNumber := n2 } := by
    unfold validateCard
    simp only [h1, h2]
  have hd : hasLastFour (SQLCardRepository.GetByUserID store card.userID)
        (if n1.length ≥ 4 then lastFourBytes n1 else [])
      = hasLastFour (SQLCardRepository.GetByUserID store card.userID)
        (if n2.length ≥ 4 then lastFourBytes n2 else []) := by
    have e1 : n1.length ≥ 4 := by omega
    have e2 : n2.length ≥ 4 := by omega
    simp only [e1, e2, if_true, hlast]
  cases hdup : hasLastFour (SQLCardRepository.GetByUserID store card.userID)
      (if n1.length ≥ 4 then lastFourBytes n1 else [])
  · cases hval : validateCard env { card with cardNumber := n1 } with
    | some err =>
      rw [createCard_invalid env store { card with cardNumber := n1 } err hdup hval,
        createCard_invalid env store { card with cardNumber := n2 } err
          (by rw [← hdup]; exact hd.symm) (by rw [← hval]; exact hv.symm)]
      simp
    | none =>
      rw [createCard_success env store { card with cardNumber := n1 } hdup hval,
        createCard_success env store { card with cardNumber := n2 }
          (by rw [← hdup]; exact hd.symm) (by rw [← hval]; exact hv.symm)]
      refine ⟨rfl, fun _ => ⟨_, rfl, rfl, ?_⟩⟩
      simp only [hlast, hbrand]
  · rw [createCard_duplicate env store { card with cardNumber := n1 } hdup,
      createCard_duplicate env store { card with cardNumber := n2 }
        (by rw [← hdup]; exact hd.symm)]
    simp

/-- C9 (amended), at `4532015112830366` and `4052015112830366` registered into the empty
table. -/
theorem createCard_rows_differ_in_number_only_witness :
    ∃ row : Card,
      (CreateCard sampleEnv [] { sampleCard with cardNumber := go "4532015112830366" }).2.2
          = [] ++ [row]
        ∧ row.cardNumber = go "4532015112830366"
        ∧ (CreateCard sampleEnv [] { sampleCard with cardNumber := go "4052015112830366" }).2.2
            = [] ++ [{ row with cardNumber := go "4052015112830366" }] :=
  (createCard_rows_differ_in_number_only sampleEnv [] sampleCard (go "4532015112830366")
    (go "4052015112830366") (by decide) (by decide) (by decide) (by decide) (by decide)
    (by decide)).2 (by decide)

/-- C10: `UpdateCard`, `DeleteCard` and `SetDefaultCard` return `ErrCardNotFound` when no row
has the given id, and `ErrUnauthorized` when the row found for the id belongs to another
owner than the one supplied; in both cases the table is left as it was. -/
theorem card_operations_reject_missing_or_foreign (env : Env) (store : CardStore)
    (card : Card) (id userID : GoString) :
    ((∀ c ∈ store, c.id ≠ card.id) →
        UpdateCard env store card = (some CardError.ErrCardNotFound, store))
    ∧ ((∀ c ∈ store, c.id ≠ id) →
        DeleteCard store id userID = (some CardError.ErrCardNotFound, store)
          ∧ SetDefaultCard store userID id = (some CardError.ErrCardNotFound, store))
    ∧ (∀ existing : Card, SQLCardRepository.GetByID store card.id = some existing →
        existing.userID ≠ card.userID →
        UpdateCard env store card = (some CardError.ErrUnauthorized, store))
    ∧ (∀ existing : Card, SQLCardRepository.GetByID store id = some existing →
        existing.userID ≠ userID →
        DeleteCard store id userID = (some CardError.ErrUnauthorized, store)
          ∧ SetDefaultCard store userID id = (some CardError.ErrUnauthorized, store)) := by
  refine ⟨?_, ?_, ?_, ?_⟩
  · intro h
    unfold UpdateCard
    rw [getCard_not_found store card.id card.userID h]
  · intro h
    unfold DeleteCard SetDefaultCard
    rw [getCard_not_found store id userID h]
    exact ⟨rfl, rfl⟩
  · intro existing hget hne
    unfold UpdateCard
    rw [getCard_unauthorized store card.id card.userID existing hget hne]
  · intro existing hget hne
    unfold DeleteCard SetDefaultCard
    rw [getCard_unauthorized store id userID existing hget hne]
    exact ⟨rfl, rfl⟩

/-- C10, at the table holding `sampleRow`: an unknown id is not found, and the owner
`user-2` is refused on the row of `user-1`. -/
theorem card_operations_reject_missing_or_foreign_witness :
    (DeleteCard [sampleRow] (go "c-9") (go "user-1")
          = (some CardError.ErrCardNotFound, [sampleRow])
        ∧ SetDefaultCard [sampleRow] (go "user-1") (go "c-9")
          = (some CardError.ErrCardNotFound, [sampleRow]))
      ∧ UpdateCard sampleEnv [sampleRow] { sampleCard with id := go "c-1", userID := go "user-2" }
          = (some CardError.ErrUnauthorized, [sampleRow]) :=
  ⟨(card_operations_reject_missing_or_foreign sampleEnv [sampleRow] sampleCard (go "c-9")
      (go "user-1")).2.1 (by decide),
    (card_operations_reject_missing_or_foreign sampleEnv [sampleRow]
      { sampleCard with id := go "c-1", userID := go "user-2" } (go "c-1")
      (go "user-2")).2.2.1 sampleRow (by decide) (by decide)⟩

/-! ## Updating a card and choosing the default card -/

theorem updateCard_success (env : Env) (store : CardStore) (card : Card)
    (h : (UpdateCard env store card).1 = none) :
    (UpdateCard env store card).2
      = store.map (fun c =>
          if c.id == card.id then
            { c with
              cardHolderName := card.cardHolderName
              expiryMonth := card.expiryMonth
              expiryYear := card.expiryYear
              isDefault := card.isDefault
              updatedAt := env.now }
          else c) := by
  unfold UpdateCard at h ⊢
  cases hg : GetCard store card.id card.userID with
  | error err =>
    rw [hg] at h
    simp at h
  | ok existingCard =>
    rw [hg] at h
    simp only [] at h ⊢
    by_cases hn : (card.cardHolderName == []) = true
    · simp [hn] at h
    · simp only [hn, Bool.false_eq_true, if_false] at h ⊢
      by_cases he : (!isValidExpiryDate env.currentYear env.currentMonth card.expiryMonth
          card.expiryYear) = true
      · simp [he] at h
      · simp only [he, Bool.false_eq_true, if_false]
        rfl

theorem repoSetDefault_result (store : CardStore) (userID cardID : GoString) :
    SQLCardRepository.SetDefault store userID cardID
        = (some CardError.ErrNotFoundOrNotOwned, store)
      ∨ SQLCardRepository.SetDefault store userID cardID
        = (none, store.map (fun c =>
            if c.userID == userID then { c with isDefault := c.id == cardID } else c)) := by
  unfold SQLCardRepository.SetDefault
  simp only []
  split
  · exact Or.inl rfl
  · right
    rw [List.map_map]
    congr 1
    apply List.map_congr_left
    intro c _
    simp only [Function.comp]
    by_cases hu : (c.userID == userID) = true
    · by_cases hi : (c.id == cardID) = true
      · simp [hu, hi]
      · simp [hu, hi]
    · simp [hu]

theorem getCard_ok_mem (store : CardStore) (id userID : GoString) (card : Card)
    (h : GetCard store id userID = Except.ok card) :
    card ∈ store ∧ card.id = id ∧ card.userID = userID := by
  unfold GetCard at h
  cases hf : SQLCardRepository.GetByID store id with
  | none =>
    rw [hf] at h
    simp at h
  | some found =>
    rw [hf] at h
    unfold SQLCardRepository.GetByID at hf
    have hmem := List.mem_of_find?_eq_some hf
    have hid := List.find?_some hf
    by_cases hu : found.userID = userID
    · simp only [hu, bne_self_eq_false, Bool.false_eq_true, if_false, Except.ok.injEq] at h
      subst h
      exact ⟨hmem, by simpa using hid, hu⟩
    · simp [hu] at h

theorem setDefaultCard_result (store : CardStore) (userID cardID : GoString) :
    (∃ err, SetDefaultCard store userID cardID = (some err, store))
      ∨ (SetDefaultCard store userID cardID
          = (none, store.map (fun c =>
              if c.userID == userID then { c with isDefault := c.id == cardID } else c))
        ∧ ∃ c ∈ store, c.id = cardID ∧ c.userID = userID) := by
  unfold SetDefaultCard
  cases hg : GetCard store cardID userID with
  | error err => exact Or.inl ⟨err, rfl⟩
  | ok existingCard =>
    simp only []
    rcases repoSetDefault_result store userID cardID with h | h
    · exact Or.inl ⟨_, h⟩
    · obtain ⟨hmem, hid, hu⟩ := getCard_ok_mem store cardID userID existingCard hg
      exact Or.inr ⟨h, existingCard, hmem, hid, hu⟩

theorem setDefaultCard_failure (store : CardStore) (userID cardID : GoString)
    (h : (SetDefaultCard store userID cardID).1 ≠ none) :
    (SetDefaultCard store userID cardID).2 = store := by
  rcases setDefaultCard_result store userID cardID with ⟨err, he⟩ | ⟨he, -⟩
  · rw [he]
  · rw [he] at h
    exact absurd rfl h

theorem setDefaultCard_success (store : CardStore) (userID cardID : GoString)
    (h : (SetDefaultCard store userID cardID).1 = none) :
    (SetDefaultCard store userID cardID).2
        = store.map (fun c =>
            if c.userID == userID then { c with isDefault := c.id == cardID } else c)
      ∧ ∃ c ∈ store, c.id = cardID ∧ c.userID = userID := by
  rcases setDefaultCard_result store userID cardID with ⟨err, he⟩ | ⟨he, hex⟩
  · rw [he] at h
    simp at h
  · rw [he]
    exact ⟨rfl, hex⟩

theorem filter_id_length_le_one (store : CardStore) (cardID : GoString)
    (hnd : (store.map Card.id).Nodup) :
    (store.filter (fun c => c.id == cardID)).length ≤ 1 := by
  induction store with
  | nil => simp
  | cons a t ih =>
    rw [List.map_cons, List.nodup_cons] at hnd
    by_cases ha : a.id = cardID
    · have hnone : t.filter (fun c => c.id == cardID) = [] := by
        rw [List.filter_eq_nil_iff]
        intro c hc hcid
        apply hnd.1
        rw [ha]
        have : c.id = cardID := by simpa using hcid
        rw [← this]
        exact List.mem_map_of_mem _ hc
      simp [List.filter_cons, ha, hnone]
    · simp only [List.filter_cons, beq_iff_eq, ha, if_false]
      exact ih hnd.2

theorem setDefaultCard_owner_count (store : CardStore) (userID cardID : GoString)
    (hnd : (store.map Card.id).Nodup) (hs : (SetDefaultCard store userID cardID).1 = none) :
    defaultCount (SetDefaultCard store userID cardID).2 userID ≤ 1 := by
  rw [(setDefaultCard_success store userID cardID hs).1]
  unfold defaultCount
  rw [List.filter_map, List.length_map]
  refine le_trans ?_ (filter_id_length_le_one store cardID hnd)
  rw [← List.countP_eq_length_filter, ← List.countP_eq_length_filter]
  apply List.countP_mono_left
  intro c _ hc
  simp only [Function.comp] at hc
  by_cases hu : (c.userID == userID) = true
  · simpa [hu] using hc
  · simp [hu] at hc

theorem setDefaultCard_defaultCount (store : CardStore) (userID cardID owner : GoString)
    (hnd : (store.map Card.id).Nodup) (h : defaultCount store owner ≤ 1) :
    defaultCount (SetDefaultCard store userID cardID).2 owner ≤ 1 := by
  by_cases hs : (SetDefaultCard store userID cardID).1 = none
  · by_cases ho : owner = userID
    · subst ho
      exact setDefaultCard_owner_count store owner cardID hnd hs
    · rw [(setDefaultCard_success store userID cardID hs).1]
      unfold defaultCount at h ⊢
      rw [List.filter_map, List.length_map]
      refine le_trans (le_of_eq ?_) h
      congr 1
      apply List.filter_congr
      intro c _
      simp only [Function.comp]
      by_cases hu : (c.userID == userID) = true
      · have hne : (c.userID == owner) = false := by
          have e : c.userID = userID := by simpa using hu
          simp [e, Ne.symm ho]
        simp [hu, hne]
      · simp [hu]
  · rw [setDefaultCard_failure store userID cardID hs]
    exact h

theorem setDefaultCard_ids (store : CardStore) (userID cardID : GoString) :
    (SetDefaultCard store userID cardID).2.map Card.id = store.map Card.id := by
  by_cases hs : (SetDefaultCard store userID cardID).1 = none
  · rw [(setDefaultCard_success store userID cardID hs).1, List.map_map]
    apply List.map_congr_left
    intro c _
    simp only [Function.comp]
    split <;> rfl
  · rw [setDefaultCard_failure store userID cardID hs]

/-- A successful `UpdateCard` keeps id, owner, number, last four digits, brand and creation
time of every row, leaves rows with another id as they were, and writes the holder name,
the expiry and the `isDefault` flag of the request into the rows with the id of the request. -/
theorem updateCard_frame (env : Env) (store : CardStore) (card : Card)
    (h : (UpdateCard env store card).1 = none) :
    List.Forall₂ (UpdateFrame card) store (UpdateCard env store card).2 := by
  rw [updateCard_success env store card h, List.forall₂_map_right_iff, List.forall₂_same]
  intro c _
  unfold UpdateFrame
  by_cases hid : c.id = card.id
  · simp [hid]
  · simp [hid]

/-- C11 (failing input): updating the holder name and expiry of a default card with the card
the controller builds from the request succeeds and leaves the row with `isDefault = false`;
number, last four digits and brand are kept. -/
theorem updateCard_overwrites_default_flag :
    UpdateCard sampleEnv [{ sampleRow with isDefault := true }]
        (updateRequestCard (go "c-1") (go "user-1") (go "B. Holder") 11 2028)
      = (none, [{ sampleRow with
                  cardHolderName := go "B. Holder", expiryMonth := 11, expiryYear := 2028,
                  isDefault := false, updatedAt := 100 }]) := by
  decide

/-- C12: in a table with unique card ids, an owner with at most one default card still has at
most one after any sequence of `SetDefaultCard` calls; a successful `SetDefaultCard` leaves
the target card as the only default card of the owner and the rows of other owners as they
were; a failing call leaves the table as it was. -/
theorem setDefaultCard_spec :
    (∀ (store : CardStore) (calls : List (GoString × GoString)) (owner : GoString),
        (store.map Card.id).Nodup → defaultCount store owner ≤ 1 →
        defaultCount (setDefaultCards store calls) owner ≤ 1)
    ∧ (∀ (store : CardStore) (userID cardID : GoString),
        (SetDefaultCard store userID cardID).1 = none →
        (∀ c ∈ (SetDefaultCard store userID cardID).2, c.userID = userID →
            (c.isDefault = true ↔ c.id = cardID))
          ∧ (∃ c ∈ (SetDefaultCard store userID cardID).2,
              c.userID = userID ∧ c.id = cardID ∧ c.isDefault = true)
          ∧ ((store.map Card.id).Nodup →
              defaultCount (SetDefaultCard store userID cardID).2 userID = 1)
          ∧ (SetDefaultCard store userID cardID).2.filter (fun c => c.userID != userID)
              = store.filter (fun c => c.userID != userID))
    ∧ (∀ (store : CardStore) (userID cardID : GoString),
        (SetDefaultCard store userID cardID).1 ≠ none →
        (SetDefaultCard store userID cardID).2 = store) := by
  refine ⟨?_, ?_, ?_⟩
  · intro store calls
    induction calls generalizing store with
    | nil =>
      intro owner _ h
      exact h
    | cons call rest ih =>
      obtain ⟨userID, cardID⟩ := call
      intro owner hnd h
      unfold setDefaultCards
      apply ih
      · rw [setDefaultCard_ids]
        exact hnd
      · exact setDefaultCard_defaultCount store userID cardID owner hnd h
  · intro store userID cardID hs
    obtain ⟨heq, target, hmem, hid, hu⟩ := setDefaultCard_success store userID cardID hs
    have hset : ∀ c ∈ (SetDefaultCard store userID cardID).2, c.userID = userID →
        (c.isDefault = true ↔ c.id = cardID) := by
      rw [heq]
      intro c hc hcu
      obtain ⟨b, hb, rfl⟩ := List.mem_map.mp hc
      by_cases hbu : (b.userID == userID) = true
      · simp [hbu]
      · have : b.userID = userID := by simpa [hbu] using hcu
        simp [this] at hbu
    have hex : ∃ c ∈ (SetDefaultCard store userID cardID).2,
        c.userID = userID ∧ c.id = cardID ∧ c.isDefault = true := by
      rw [heq]
      refine ⟨{ target with isDefault := target.id == cardID }, ?_, hu, hid, by simp [hid]⟩
      apply List.mem_map.mpr
      exact ⟨target, hmem, by simp [hu]⟩
    refine ⟨hset, hex, ?_, ?_⟩
    · intro hnd
      apply le_antisymm
      · exact setDefaultCard_owner_count store userID cardID hnd hs
      · obtain ⟨c, hc, hcu, -, hcd⟩ := hex
        unfold defaultCount
        apply List.length_pos_of_mem
        exact List.mem_filter.mpr ⟨hc, by simp [hcu, hcd]⟩
    · rw [heq, List.filter_map]
      have hf : (store.filter ((fun c => c.userID != userID) ∘ fun c =>
            if c.userID == userID then { c with isDefault := c.id == cardID } else c))
          = store.filter (fun c => c.userID != userID) := by
        apply List.filter_congr
        intro c _
        simp only [Function.comp]
        split <;> rfl
      rw [hf]
      conv_rhs => rw [← List.map_id (store.filter (fun c => c.userID != userID))]
      apply List.map_congr_left
      intro c hc
      have := (List.mem_filter.mp hc).2
      have hne : (c.userID == userID) = false := by simpa using this
      simp [hne]
  · intro store userID cardID hs
    exact setDefaultCard_failure store userID cardID hs

/-- C12, at the table holding `sampleRow`, chosen as default by its owner. -/
theorem setDefaultCard_spec_witness :
    ∃ c ∈ (SetDefaultCard [sampleRow] (go "user-1") (go "c-1")).2,
      c.userID = go "user-1" ∧ c.id = go "c-1" ∧ c.isDefault = true :=
  (setDefaultCard_spec.2.1 [sampleRow] (go "user-1") (go "c-1") (by decide)).2.1

/-! ## Inserting a subscription record -/

theorem repoCreateSubscription_success (env : SubEnv) (db : Database)
    (sub : SubscriptionTransaction)
    (h1 : env.deactivateErr = none) (h2 : env.insertErr = none) :
    SQLSubscriptionRepository.CreateSubscription env db sub
      = (none,
         { sub with
           id := if sub.id == [] then env.repoID else sub.id
           createdAt := env.createdAt
           updatedAt := env.updatedAt },
         deactivateActive db.subscriptions sub.userID
           ++ [SubscriptionTransaction.row
                { sub with
                  id := if sub.id == [] then env.repoID else sub.id
                  createdAt := env.createdAt
                  updatedAt := env.updatedAt }]) := by
  unfold SQLSubscriptionRepository.CreateSubscription
  simp only [h1, h2]
  by_cases hid : (sub.id == []) = true
  · simp [hid]
  · simp [hid]

theorem repoCreateSubscription_deactivateErr (env : SubEnv) (db : Database)
    (sub : SubscriptionTransaction) (err : GoError) (h1 : env.deactivateErr = some err) :
    (SQLSubscriptionRepository.CreateSubscription env db sub).1 = some err
      ∧ (SQLSubscriptionRepository.CreateSubscription env db sub).2.2 = db.subscriptions := by
  unfold SQLSubscriptionRepository.CreateSubscription
  simp [h1]

theorem repoCreateSubscription_insertErr (env : SubEnv) (db : Database)
    (sub : SubscriptionTransaction) (err : GoError)
    (h1 : env.deactivateErr = none) (h2 : env.insertErr = some err) :
    (SQLSubscriptionRepository.CreateSubscription env db sub).1 = some err
      ∧ (SQLSubscriptionRepository.CreateSubscription env db sub).2.2
          = deactivateActive db.subscriptions sub.userID := by
  unfold SQLSubscriptionRepository.CreateSubscription
  simp only [h1, h2]
  by_cases hid : (sub.id == []) = true
  · simp [hid]
  · simp [hid]

theorem activeCount_deactivate_self (l : List SubscriptionTransaction) (u : GoString) :
    activeCount (deactivateActive l u) u = 0 := by
  unfold activeCount deactivateActive
  rw [List.length_eq_zero, List.filter_eq_nil_iff]
  intro t ht
  obtain ⟨b, _, rfl⟩ := List.mem_map.mp ht
  by_cases hb : (b.userID == u && b.isActive) = true
  · simp [hb]
  · simp only [hb, Bool.false_eq_true, if_false]
    simp [hb]

theorem activeCount_deactivate_other (l : List SubscriptionTransaction) (u o : GoString)
    (h : o ≠ u) : activeCount (deactivateActive l u) o = activeCount l o := by
  unfold activeCount deactivateActive
  rw [List.filter_map, List.length_map]
  congr 1
  apply List.filter_congr
  intro t _
  simp only [Function.comp]
  by_cases hb : (t.userID == u && t.isActive) = true
  · have hu : t.userID = u := by
      simp only [Bool.and_eq_true, beq_iff_eq] at hb
      exact hb.1
    have hne : (t.userID == o) = false := by
      simp [hu, Ne.symm h]
    simp [hb, hne]
  · simp [hb]

theorem row_userID (t : SubscriptionTransaction) : t.row.userID = t.userID := rfl

theorem row_isActive (t : SubscriptionTransaction) : t.row.isActive = t.isActive := rfl

theorem repoCreateSubscription_activeCount (env : SubEnv) (db : Database)
    (sub : SubscriptionTransaction) (owner : GoString)
    (h : activeCount db.subscriptions owner ≤ 1) :
    activeCount (SQLSubscriptionRepository.CreateSubscription env db sub).2.2 owner ≤ 1 := by
  cases h1 : env.deactivateErr with
  | some err =>
    rw [(repoCreateSubscription_deactivateErr env db sub err h1).2]
    exact h
  | none =>
    by_cases ho : owner = sub.userID
    · cases h2 : env.insertErr with
      | some err =>
        rw [(repoCreateSubscription_insertErr env db sub err h1 h2).2, ho,
          activeCount_deactivate_self]
        omega
      | none =>
        rw [repoCreateSubscription_success env db sub h1 h2]
        have h0 := activeCount_deactivate_self db.subscriptions sub.userID
        unfold activeCount at h0 ⊢
        rw [List.filter_append, List.length_append, ho, h0]
        simp only [zero_add]
        exact List.length_filter_le _ _
    · cases h2 : env.insertErr with
      | some err =>
        rw [(repoCreateSubscription_insertErr env db sub err h1 h2).2,
          activeCount_deactivate_other _ _ _ ho]
        exact h
      | none =>
        rw [repoCreateSubscription_success env db sub h1 h2]
        have h0 := activeCount_deactivate_other db.subscriptions sub.userID owner ho
        unfold activeCount at h0 h ⊢
        rw [List.filter_append, List.length_append, h0]
        have hnil : List.filter (fun t => t.userID == owner && t.isActive)
            [SubscriptionTransaction.row
              { sub with
                id := if sub.id == [] then env.repoID else sub.id
                createdAt := env.createdAt
                updatedAt := env.updatedAt }] = [] := by
          rw [List.filter_eq_nil_iff]
          intro t ht
          rw [List.mem_singleton] at ht
          subst ht
          rw [row_userID]
          simp [Ne.symm ho]
        rw [hnil]
        simpa using h

theorem saveAndReload_spec (env : SubEnv) (db : Database) (sub : SubscriptionTransaction)
    (calls : List GatewayCall) :
    (DefaultSubscriptionService.saveAndReload env db sub calls).subscriptions
        = (SQLSubscriptionRepository.CreateSubscription env db sub).2.2
      ∧ (DefaultSubscriptionService.saveAndReload env db sub calls).calls = calls
      ∧ (∀ err, (SQLSubscriptionRepository.CreateSubscription env db sub).1 = some err →
          (DefaultSubscriptionService.saveAndReload env db sub calls).result = Except.error err)
      ∧ ((SQLSubscriptionRepository.CreateSubscription env db sub).1 = none →
          ∃ v, (DefaultSubscriptionService.saveAndReload env db sub calls).result
            = Except.ok v) := by
  unfold DefaultSubscriptionService.saveAndReload
  cases h : (SQLSubscriptionRepository.CreateSubscription env db sub).1 with
  | some err => simp [h]
  | none => simp [h]

theorem gatewayStep_ok (s : DefaultSubscriptionService) (env : SubEnv)
    (request : SubscriptionRequest) (sub sub' : SubscriptionTransaction)
    (userInfo : Option UserInfo)
    (h : (s.gatewayStep env request sub userInfo).1 = Except.ok sub') :
    ∃ a b : NullString,
      sub' = { sub with razorpaySubscriptionID := a, razorpayOrderID := b } := by
  unfold DefaultSubscriptionService.gatewayStep at h
  cases hs : s.razorpayService with
  | none =>
    rw [hs] at h
    simp only [Except.ok.injEq] at h
    exact ⟨sub.razorpaySubscriptionID, sub.razorpayOrderID, h.symm⟩
  | some razorpayService =>
    rw [hs] at h
    simp only [] at h
    by_cases ha : request.autoRenewal = true
    · simp only [ha, if_true] at h
      cases hr : (razorpayService.CreateSubscription sub userInfo).1 with
      | error err =>
        rw [hr] at h
        simp at h
      | ok razorpaySub =>
        rw [hr] at h
        simp only [] at h
        cases hm : mapStringOk razorpaySub (go "id") with
        | none =>
          rw [hm] at h
          simp only [Except.ok.injEq] at h
          exact ⟨sub.razorpaySubscriptionID, sub.razorpayOrderID, h.symm⟩
        | some razorpaySubID =>
          rw [hm] at h
          simp only [Except.ok.injEq] at h
          exact ⟨toNullString razorpaySubID, sub.razorpayOrderID, h.symm⟩
    · simp only [ha, Bool.false_eq_true, if_false] at h
      cases hr : (razorpayService.CreatePayment env sub.amount (go "INR") sub.id).1 with
      | error err =>
        rw [hr] at h
        simp at h
      | ok order =>
        rw [hr] at h
        simp only [] at h
        cases hm : mapStringOk order (go "id") with
        | none =>
          rw [hm] at h
          simp only [Except.ok.injEq] at h
          exact ⟨sub.razorpaySubscriptionID, sub.razorpayOrderID, h.symm⟩
        | some razorpayOrderID =>
          rw [hm] at h
          simp only [Except.ok.injEq] at h
          exact ⟨sub.razorpaySubscriptionID, toNullString razorpayOrderID, h.symm⟩

theorem createSubscription_valid (s : DefaultSubscriptionService) (env : SubEnv)
    (db : Database) (request : SubscriptionRequest) (userInfo : Option UserInfo)
    (card : Card) (plan : SubscriptionPlanWithAttributes)
    (hpt : request.paymentType = go "monthly" ∨ request.paymentType = go "yearly")
    (hcard : SQLCardRepository.GetByID db.cards request.cardID = some card)
    (hown : card.userID = request.userID)
    (hplan : SQLSubscriptionRepository.GetPlanWithAttributes db request.planID = some plan) :
    s.CreateSubscription env db request userInfo
      = match (s.gatewayStep env request (s.buildSubscription env request plan) userInfo).1 with
        | Except.error err =>
          { result := Except.error err, subscriptions := db.subscriptions,
            calls := (s.gatewayStep env request (s.buildSubscription env request plan)
              userInfo).2 }
        | Except.ok subscription =>
          DefaultSubscriptionService.saveAndReload env db subscription
            (s.gatewayStep env request (s.buildSubscription env request plan) userInfo).2 := by
  have hc : (request.paymentType != go "monthly" && request.paymentType != go "yearly")
      = false := by
    rcases hpt with h | h <;> simp [h]
  unfold DefaultSubscriptionService.CreateSubscription
  simp only [hc, Bool.false_eq_true, if_false, hcard, hown, bne_self_eq_false, hplan]

theorem createSubscription_cases (s : DefaultSubscriptionService) (env : SubEnv)
    (db : Database) (request : SubscriptionRequest) (userInfo : Option UserInfo) :
    (∃ e, s.CreateSubscription env db request userInfo
        = { result := Except.error e, subscriptions := db.subscriptions, calls := [] })
      ∨ ∃ card plan,
          (request.paymentType = go "monthly" ∨ request.paymentType = go "yearly")
            ∧ SQLCardRepository.GetByID db.cards request.cardID = some card
            ∧ card.userID = request.userID
            ∧ SQLSubscriptionRepository.GetPlanWithAttributes db request.planID
                = some plan := by
  by_cases hc : (request.paymentType != go "monthly" && request.paymentType != go "yearly")
      = true
  · left
    unfold DefaultSubscriptionService.CreateSubscription
    simp only [hc, if_true]
    exact ⟨_, rfl⟩
  · have hpt : request.paymentType = go "monthly" ∨ request.paymentType = go "yearly" := by
      by_cases hm : request.paymentType = go "monthly"
      · exact Or.inl hm
      · right
        by_contra hy
        apply hc
        simp [hm, hy]
    cases hcard : SQLCardRepository.GetByID db.cards request.cardID with
    | none =>
      left
      unfold DefaultSubscriptionService.CreateSubscription
      simp only [hc, Bool.false_eq_true, if_false, hcard]
      exact ⟨_, rfl⟩
    | some card =>
      by_cases hown : card.userID = request.userID
      · cases hplan : SQLSubscriptionRepository.GetPlanWithAttributes db request.planID with
        | none =>
          left
          unfold DefaultSubscriptionService.CreateSubscription
          simp only [hc, Bool.false_eq_true, if_false, hcard, hown, bne_self_eq_false, hplan]
          exact ⟨_, rfl⟩
        | some plan => exact Or.inr ⟨card, plan, hpt, rfl, hown, rfl⟩
      · left
        have hne : (card.userID != request.userID) = true := by simpa using hown
        unfold DefaultSubscriptionService.CreateSubscription
        simp only [hc, Bool.false_eq_true, if_false, hcard, hne, if_true]
        exact ⟨_, rfl⟩

theorem saveAndReload_run (env : SubEnv) (db : Database) (sub : SubscriptionTransaction)
    (calls : List GatewayCall) :
    (DefaultSubscriptionService.saveAndReload env db sub calls).subscriptions
        = (SQLSubscriptionRepository.CreateSubscription env db sub).2.2
      ∧ ((match (DefaultSubscriptionService.saveAndReload env db sub calls).result with
          | Except.error e => some e
          | Except.ok _ => none)
        = (SQLSubscriptionRepository.CreateSubscription env db sub).1) := by
  unfold DefaultSubscriptionService.saveAndReload
  cases h : (SQLSubscriptionRepository.CreateSubscription env db sub).1 with
  | some err => simp [h]
  | none => simp [h]

theorem create_run_cases (db : Database) (s : DefaultSubscriptionService) (env : SubEnv)
    (request : SubscriptionRequest) (userInfo : Option UserInfo) :
    (∃ e, (SubscriptionOp.create s env request userInfo).run db = (some e, db.subscriptions))
      ∨ ∃ sub : SubscriptionTransaction, sub.isActive = true
          ∧ (SubscriptionOp.create s env request userInfo).run db
              = ((SQLSubscriptionRepository.CreateSubscription env db sub).1,
                 (SQLSubscriptionRepository.CreateSubscription env db sub).2.2) := by
  unfold SubscriptionOp.run
  simp only []
  rcases createSubscription_cases s env db request userInfo with ⟨e, he⟩ |
    ⟨card, plan, hpt, hcard, hown, hplan⟩
  · left
    rw [he]
    exact ⟨e, rfl⟩
  · rw [createSubscription_valid s env db request userInfo card plan hpt hcard hown hplan]
    cases hg : (s.gatewayStep env request (s.buildSubscription env request plan) userInfo).1 with
    | error err =>
      left
      exact ⟨err, rfl⟩
    | ok sub' =>
      right
      obtain ⟨a, b, hab⟩ := gatewayStep_ok s env request _ sub' userInfo hg
      refine ⟨sub', by rw [hab]; rfl, ?_⟩
      simp only []
      obtain ⟨h1, h2⟩ := saveAndReload_run env db sub'
        (s.gatewayStep env request (s.buildSubscription env request plan) userInfo).2
      rw [h1, h2]

theorem renew_run_cases (db : Database) (s : DefaultSubscriptionService) (env : SubEnv)
    (subscriptionID userID : GoString) :
    (∃ e, (SubscriptionOp.renew s env subscriptionID userID).run db = (some e, db.subscriptions))
      ∨ ∃ sub : SubscriptionTransaction, sub.isActive = true
          ∧ (SubscriptionOp.renew s env subscriptionID userID).run db
              = ((SQLSubscriptionRepository.CreateSubscription env db sub).1,
                 (SQLSubscriptionRepository.CreateSubscription env db sub).2.2) := by
  unfold SubscriptionOp.run DefaultSubscriptionService.RenewSubscription
  simp only []
  cases hget : SQLSubscriptionRepository.GetSubscriptionByID db subscriptionID with
  | none =>
    left
    exact ⟨_, rfl⟩
  | some subscription =>
    simp only []
    by_cases hu : (subscription.userID != userID) = true
    · left
      simp only [hu, if_true]
      exact ⟨_, rfl⟩
    · right
      simp only [hu, Bool.false_eq_true, if_false]
      refine ⟨DefaultSubscriptionService.newSubscription env userID subscription, rfl, ?_⟩
      obtain ⟨h1, h2⟩ := saveAndReload_run env db
        (DefaultSubscriptionService.newSubscription env userID subscription) []
      rw [h1, h2]

theorem charged_run_cases (db : Database) (s : DefaultRazorpayService) (env : SubEnv)
    (event : JsonObject) :
    (∃ e, (SubscriptionOp.charged s env event).run db = (some e, db.subscriptions))
      ∨ ∃ sub : SubscriptionTransaction, sub.isActive = true
          ∧ (SubscriptionOp.charged s env event).run db
              = ((SQLSubscriptionRepository.CreateSubscription env db sub).1.map
                    (GoError.prefixed (go "failed to create renewal subscription")),
                 (SQLSubscriptionRepository.CreateSubscription env db sub).2.2) := by
  unfold SubscriptionOp.run DefaultRazorpayService.handleSubscriptionCharged
  simp only []
  cases h1 : mapObject event (go "payload") with
  | none => exact Or.inl ⟨_, rfl⟩
  | some payloadObj =>
    simp only []
    cases h2 : mapObject payloadObj (go "subscription") with
    | none => exact Or.inl ⟨_, rfl⟩
    | some subscriptionObj =>
      simp only []
      cases h3 : mapObject subscriptionObj (go "entity") with
      | none => exact Or.inl ⟨_, rfl⟩
      | some entity =>
        simp only []
        by_cases h4 : (mapString entity (go "id") == []) = true
        · simp only [h4, if_true]
          exact Or.inl ⟨_, rfl⟩
        · simp only [h4, Bool.false_eq_true, if_false]
          cases h5 : SQLSubscriptionRepository.GetSubscriptionByRazorpaySubscriptionID db
              (mapString entity (go "id")) with
          | none => exact Or.inl ⟨_, rfl⟩
          | some subscription =>
            right
            simp only []
            refine ⟨DefaultRazorpayService.renewalSubscription env subscription
              (mapString entity (go "id")), rfl, ?_⟩
            cases h6 : (SQLSubscriptionRepository.CreateSubscription env db
                (DefaultRazorpayService.renewalSubscription env subscription
                  (mapString entity (go "id")))).1 with
            | some err => simp [h6]
            | none => simp [h6]

theorem op_run_cases (db : Database) (op : SubscriptionOp) :
    (∃ e, op.run db = (some e, db.subscriptions))
      ∨ ∃ (env : SubEnv) (sub : SubscriptionTransaction) (f : GoError → GoError),
          sub.isActive = true
            ∧ op.run db
              = ((SQLSubscriptionRepository.CreateSubscription env db sub).1.map f,
                 (SQLSubscriptionRepository.CreateSubscription env db sub).2.2) := by
  cases op with
  | create s env request userInfo =>
    rcases create_run_cases db s env request userInfo with h | ⟨sub, ha, h⟩
    · exact Or.inl h
    · exact Or.inr ⟨env, sub, id, ha, by rw [h, Option.map_id]; rfl⟩
  | renew s env subscriptionID userID =>
    rcases renew_run_cases db s env subscriptionID userID with h | ⟨sub, ha, h⟩
    · exact Or.inl h
    · exact Or.inr ⟨env, sub, id, ha, by rw [h, Option.map_id]; rfl⟩
  | charged s env event =>
    rcases charged_run_cases db s env event with h | ⟨sub, ha, h⟩
    · exact Or.inl h
    · exact Or.inr ⟨env, sub, _, ha, h⟩

theorem repoCreateSubscription_none (env : SubEnv) (db : Database)
    (sub : SubscriptionTransaction)
    (h : (SQLSubscriptionRepository.CreateSubscription env db sub).1 = none) :
    env.deactivateErr = none ∧ env.insertErr = none := by
  cases h1 : env.deactivateErr with
  | some err =>
    rw [(repoCreateSubscription_deactivateErr env db sub err h1).1] at h
    simp at h
  | none =>
    cases h2 : env.insertErr with
    | some err =>
      rw [(repoCreateSubscription_insertErr env db sub err h1 h2).1] at h
      simp at h
    | none => exact ⟨rfl, rfl⟩

theorem filter_other_deactivate (l : List SubscriptionTransaction) (u : GoString) :
    (deactivateActive l u).filter (fun t => t.userID != u)
      = l.filter (fun t => t.userID != u) := by
  unfold deactivateActive
  rw [List.filter_map]
  have hf : l.filter ((fun t => t.userID != u) ∘ fun t =>
        if t.userID == u && t.isActive then { t with isActive := false } else t)
      = l.filter (fun t => t.userID != u) := by
    apply List.filter_congr
    intro t _
    simp only [Function.comp]
    split <;> rfl
  rw [hf]
  conv_rhs => rw [← List.map_id (l.filter (fun t => t.userID != u))]
  apply List.map_congr_left
  intro t ht
  have hne : (t.userID == u) = false := by simpa using (List.mem_filter.mp ht).2
  simp [hne]

theorem insert_active_row (l : List SubscriptionTransaction) (row : SubscriptionTransaction)
    (ha : row.isActive = true) :
    (deactivateActive l row.userID ++ [row]).filter
        (fun t => t.userID == row.userID && t.isActive) = [row]
      ∧ (deactivateActive l row.userID ++ [row]).filter (fun t => t.userID != row.userID)
        = l.filter (fun t => t.userID != row.userID) := by
  constructor
  · have h0 := activeCount_deactivate_self l row.userID
    unfold activeCount at h0
    rw [List.filter_append, List.length_eq_zero.mp h0]
    simp [ha]
  · rw [List.filter_append, filter_other_deactivate]
    simp

/-- C13: an owner with at most one active subscription still has at most one after any
sequence of create, renew and `subscription.charged` operations; after a successful
operation the inserted record is the only active subscription of its owner, and the
records of the other owners are as before. -/
theorem subscription_single_active :
    (∀ (db : Database) (ops : List SubscriptionOp) (owner : GoString),
        activeCount db.subscriptions owner ≤ 1 →
        activeCount (runSubscriptionOps db ops).subscriptions owner ≤ 1)
    ∧ (∀ (db : Database) (op : SubscriptionOp), (op.run db).1 = none →
        ∃ row : SubscriptionTransaction,
          (op.run db).2 = deactivateActive db.subscriptions row.userID ++ [row]
            ∧ row.isActive = true
            ∧ (op.run db).2.filter (fun t => t.userID == row.userID && t.isActive) = [row]
            ∧ (op.run db).2.filter (fun t => t.userID != row.userID)
                = db.subscriptions.filter (fun t => t.userID != row.userID)) := by
  constructor
  · intro db ops
    induction ops generalizing db with
    | nil =>
      intro owner h
      exact h
    | cons op rest ih =>
      intro owner h
      unfold runSubscriptionOps
      apply ih
      simp only []
      rcases op_run_cases db op with ⟨e, he⟩ | ⟨env, sub, f, -, he⟩
      · rw [he]
        exact h
      · rw [he]
        exact repoCreateSubscription_activeCount env db sub owner h
  · intro db op hok
    rcases op_run_cases db op with ⟨e, he⟩ | ⟨env, sub, f, ha, he⟩
    · rw [he] at hok
      simp at hok
    · rw [he] at hok ⊢
      have hnone : (SQLSubscriptionRepository.CreateSubscription env db sub).1 = none := by
        cases hx : (SQLSubscriptionRepository.CreateSubscription env db sub).1 with
        | none => rfl
        | some err =>
          rw [hx] at hok
          simp at hok
      obtain ⟨h1, h2⟩ := repoCreateSubscription_none env db sub hnone
      rw [repoCreateSubscription_success env db sub h1 h2]
      refine ⟨SubscriptionTransaction.row
        { sub with
          id := if sub.id == [] then env.repoID else sub.id
          createdAt := env.createdAt
          updatedAt := env.updatedAt }, rfl, ha, ?_⟩
      exact insert_active_row db.subscriptions _ ha

/-- C13, at a renewal of the active subscription of `user-1` in `sampleDatabase`. -/
theorem subscription_single_active_witness :
    ∃ row : SubscriptionTransaction,
      ((SubscriptionOp.renew sampleService sampleSubEnv (go "s-1") (go "user-1")).run
          sampleDatabase).2
        = deactivateActive sampleDatabase.subscriptions row.userID ++ [row]
        ∧ row.isActive = true
        ∧ ((SubscriptionOp.renew sampleService sampleSubEnv (go "s-1") (go "user-1")).run
            sampleDatabase).2.filter (fun t => t.userID == row.userID && t.isActive) = [row]
        ∧ ((SubscriptionOp.renew sampleService sampleSubEnv (go "s-1") (go "user-1")).run
            sampleDatabase).2.filter (fun t => t.userID != row.userID)
          = sampleDatabase.subscriptions.filter (fun t => t.userID != row.userID) :=
  subscription_single_active.2 sampleDatabase
    (SubscriptionOp.renew sampleService sampleSubEnv (go "s-1") (go "user-1")) (by decide)

/-- C14 (failing input): `user-1` has one active subscription; a renewal whose `INSERT`
fails returns the error of the `INSERT`, and afterwards the former active subscription is
inactive and `user-1` has no active subscription. -/
theorem renew_insert_failure_deactivates :
    activeCount sampleDatabase.subscriptions (go "user-1") = 1
      ∧ (SubscriptionOp.renew sampleService insertFailsEnv (go "s-1") (go "user-1")).run
          sampleDatabase
        = (some (GoError.external (go "insert failed")),
           [{ sampleSubscription with isActive := false }])
      ∧ activeCount
          ((SubscriptionOp.renew sampleService insertFailsEnv (go "s-1") (go "user-1")).run
            sampleDatabase).2 (go "user-1") = 0 := by
  decide

theorem getByID_none (store : CardStore) (id : GoString) (h : ∀ c ∈ store, c.id ≠ id) :
    SQLCardRepository.GetByID store id = none := by
  unfold SQLCardRepository.GetByID
  rw [List.find?_eq_none]
  intro c hc
  simpa using h c hc

theorem getPlanWithAttributes_none (db : Database) (planID : GoString)
    (h : ∀ p ∈ db.plans, p.id ≠ planID) :
    SQLSubscriptionRepository.GetPlanWithAttributes db planID = none := by
  have hnone : db.plans.find? (fun p => p.id == planID) = none := by
    rw [List.find?_eq_none]
    intro p hp
    simpa using h p hp
  unfold SQLSubscriptionRepository.GetPlanWithAttributes
  rw [hnone]

/-- C15: `CreateSubscription` returns `ErrInvalidPaymentType` when the payment type is
neither `monthly` nor `yearly`; otherwise `ErrInvalidCard` when no card has the id of the
request or the card found belongs to another owner; otherwise `ErrInvalidPlan` when no plan
has the id of the request.  In each case no gateway request is made and the table of
subscriptions is as before. -/
theorem createSubscription_validation (s : DefaultSubscriptionService) (env : SubEnv)
    (db : Database) (request : SubscriptionRequest) (userInfo : Option UserInfo) :
    (request.paymentType ≠ go "monthly" → request.paymentType ≠ go "yearly" →
        s.CreateSubscription env db request userInfo
          = { result := Except.error GoError.ErrInvalidPaymentType,
              subscriptions := db.subscriptions, calls := [] })
    ∧ ((request.paymentType = go "monthly" ∨ request.paymentType = go "yearly") →
        (∀ c ∈ db.cards, c.id ≠ request.cardID) →
        s.CreateSubscription env db request userInfo
          = { result := Except.error GoError.ErrInvalidCard,
              subscriptions := db.subscriptions, calls := [] })
    ∧ ((request.paymentType = go "monthly" ∨ request.paymentType = go "yearly") →
        ∀ card, SQLCardRepository.GetByID db.cards request.cardID = some card →
        card.userID ≠ request.userID →
        s.CreateSubscription env db request userInfo
          = { result := Except.error GoError.ErrInvalidCard,
              subscriptions := db.subscriptions, calls := [] })
    ∧ ((request.paymentType = go "monthly" ∨ request.paymentType = go "yearly") →
        ∀ card, SQLCardRepository.GetByID db.cards request.cardID = some card →
        card.userID = request.userID →
        (∀ p ∈ db.plans, p.id ≠ request.planID) →
        s.CreateSubscription env db request userInfo
          = { result := Except.error GoError.ErrInvalidPlan,
              subscriptions := db.subscriptions, calls := [] }) := by
  have hvalid : (request.paymentType = go "monthly" ∨ request.paymentType = go "yearly") →
      (request.paymentType != go "monthly" && request.paymentType != go "yearly") = false := by
    intro hpt
    rcases hpt with h | h <;> simp [h]
  refine ⟨?_, ?_, ?_, ?_⟩
  · intro hm hy
    unfold DefaultSubscriptionService.CreateSubscription
    simp [hm, hy]
  · intro hpt hno
    unfold DefaultSubscriptionService.CreateSubscription
    simp only [hvalid hpt, Bool.false_eq_true, if_false, getByID_none db.cards _ hno]
  · intro hpt card hcard hne
    have hb : (card.userID != request.userID) = true := by simpa using hne
    unfold DefaultSubscriptionService.CreateSubscription
    simp only [hvalid hpt, Bool.false_eq_true, if_false, hcard, hb, if_true]
  · intro hpt card hcard hown hno
    unfold DefaultSubscriptionService.CreateSubscription
    simp only [hvalid hpt, Bool.false_eq_true, if_false, hcard, hown, bne_self_eq_false,
      getPlanWithAttributes_none db _ hno]

/-- C15, at a request of `user-2` for the card of `user-1`. -/
theorem createSubscription_validation_witness :
    sampleService.CreateSubscription sampleSubEnv sampleDatabase
        { sampleRequest with userID := go "user-2" } none
      = { result := Except.error GoError.ErrInvalidCard,
          subscriptions := sampleDatabase.subscriptions, calls := [] } :=
  (createSubscription_validation sampleService sampleSubEnv sampleDatabase
    { sampleRequest with userID := go "user-2" } none).2.2.1 (by decide) sampleRow (by decide)
    (by decide)

theorem getPlanWithAttributes_some (db : Database) (planID : GoString)
    (planWithAttrs : SubscriptionPlanWithAttributes)
    (h : SQLSubscriptionRepository.GetPlanWithAttributes db planID = some planWithAttrs) :
    ∃ plan, db.plans.find? (fun p => p.id == planID) = some plan
      ∧ planWithAttrs.plan.priceMonthly = plan.priceMonthly
      ∧ planWithAttrs.plan.priceYearly = plan.priceYearly := by
  unfold SQLSubscriptionRepository.GetPlanWithAttributes at h
  cases hf : db.plans.find? (fun p => p.id == planID) with
  | none =>
    rw [hf] at h
    simp at h
  | some plan =>
    rw [hf] at h
    simp only [Option.some.injEq] at h
    subst h
    exact ⟨plan, rfl, rfl, rfl⟩

theorem createSubscription_ok (s : DefaultSubscriptionService) (env : SubEnv)
    (db : Database) (request : SubscriptionRequest) (userInfo : Option UserInfo)
    (v : Option SubscriptionTransaction)
    (hok : (s.CreateSubscription env db request userInfo).result = Except.ok v) :
    ∃ (planWithAttrs : SubscriptionPlanWithAttributes) (a b : NullString),
      SQLSubscriptionRepository.GetPlanWithAttributes db request.planID = some planWithAttrs
        ∧ env.deactivateErr = none ∧ env.insertErr = none
        ∧ (s.CreateSubscription env db request userInfo).subscriptions
            = deactivateActive db.subscriptions request.userID
              ++ [SubscriptionTransaction.row
                  { s.buildSubscription env request planWithAttrs with
                    id := if env.newID == [] then env.repoID else env.newID
                    razorpaySubscriptionID := a
                    razorpayOrderID := b
                    createdAt := env.createdAt
                    updatedAt := env.updatedAt }] := by
  rcases createSubscription_cases s env db request userInfo with ⟨e, he⟩ |
    ⟨card, plan, hpt, hcard, hown, hplan⟩
  · rw [he] at hok
    simp at hok
  · rw [createSubscription_valid s env db request userInfo card plan hpt hcard hown hplan]
      at hok ⊢
    cases hg : (s.gatewayStep env request (s.buildSubscription env request plan) userInfo).1 with
    | error err =>
      rw [hg] at hok
      simp at hok
    | ok sub' =>
      rw [hg] at hok
      simp only [] at hok ⊢
      obtain ⟨a, b, hab⟩ := gatewayStep_ok s env request _ sub' userInfo hg
      obtain ⟨hsubs, -, herr, -⟩ := saveAndReload_spec env db sub'
        (s.gatewayStep env request (s.buildSubscription env request plan) userInfo).2
      cases hrepo : (SQLSubscriptionRepository.CreateSubscription env db sub').1 with
      | some err =>
        rw [herr err hrepo] at hok
        simp at hok
      | none =>
        obtain ⟨h1, h2⟩ := repoCreateSubscription_none env db sub' hrepo
        refine ⟨plan, a, b, hplan, h1, h2, ?_⟩
        rw [hsubs, repoCreateSubscription_success env db sub' h1 h2, hab]
        rfl

/-- C16: when `CreateSubscription` succeeds with the clock at `env.now`, the table is the
former one with the active records of the owner deactivated, followed by one inserted record;
that record is active, is not a renewal, carries the owner, plan, card and payment type of
the request, starts at `env.now`, has `nextRenewalDate = endDate`, and has the monthly price
of the plan and `endDate = now.AddDate(0, 1, 0)` for a monthly request, the yearly price and
`endDate = now.AddDate(1, 0, 0)` for a yearly one. -/
theorem createSubscription_record (s : DefaultSubscriptionService) (env : SubEnv)
    (db : Database) (request : SubscriptionRequest) (userInfo : Option UserInfo)
    (v : Option SubscriptionTransaction)
    (hok : (s.CreateSubscription env db request userInfo).result = Except.ok v) :
    ∃ (plan : SubscriptionPlan) (row : SubscriptionTransaction),
      db.plans.find? (fun p => p.id == request.planID) = some plan
        ∧ (s.CreateSubscription env db request userInfo).subscriptions
            = deactivateActive db.subscriptions request.userID ++ [row]
        ∧ row.isActive = true ∧ row.isRenewal = false
        ∧ row.userID = request.userID ∧ row.planID = request.planID
        ∧ row.cardID = request.cardID ∧ row.paymentType = request.paymentType
        ∧ row.startDate = env.now ∧ row.nextRenewalDate = row.endDate
        ∧ (request.paymentType = go "monthly" →
            row.amount = plan.priceMonthly ∧ row.endDate = env.addDate env.now 0 1 0)
        ∧ (request.paymentType = go "yearly" →
            row.amount = plan.priceYearly ∧ row.endDate = env.addDate env.now 1 0 0) := by
  obtain ⟨planWithAttrs, a, b, hplan, -, -, hsubs⟩ :=
    createSubscription_ok s env db request userInfo v hok
  obtain ⟨plan, hfind, hm, hy⟩ := getPlanWithAttributes_some db request.planID planWithAttrs hplan
  refine ⟨plan, _, hfind, hsubs, rfl, rfl, rfl, rfl, rfl, rfl, rfl, rfl, ?_, ?_⟩
  · intro hpt
    have hb : (request.paymentType == go "monthly") = true := by simp [hpt]
    simp only [SubscriptionTransaction.row, DefaultSubscriptionService.buildSubscription, hb,
      if_true]
    exact ⟨hm, trivial⟩
  · intro hpt
    have hne : go "yearly" ≠ go "monthly" := by decide
    have hb : (request.paymentType == go "monthly") = false := by
      rw [hpt]
      simpa using hne
    simp only [SubscriptionTransaction.row, DefaultSubscriptionService.buildSubscription, hb,
      Bool.false_eq_true, if_false]
    exact ⟨hy, trivial⟩

/-- C16, at a monthly request of `user-1` in `sampleDatabase`. -/
theorem createSubscription_record_witness :
    ∃ (plan : SubscriptionPlan) (row : SubscriptionTransaction),
      sampleDatabase.plans.find? (fun p => p.id == sampleRequest.planID) = some plan
        ∧ (sampleService.CreateSubscription sampleSubEnv sampleDatabase sampleRequest
              none).subscriptions
            = deactivateActive sampleDatabase.subscriptions sampleRequest.userID ++ [row]
        ∧ row.isActive = true ∧ row.isRenewal = false
        ∧ row.userID = sampleRequest.userID ∧ row.planID = sampleRequest.planID
        ∧ row.cardID = sampleRequest.cardID ∧ row.paymentType = sampleRequest.paymentType
        ∧ row.startDate = sampleSubEnv.now ∧ row.nextRenewalDate = row.endDate
        ∧ (sampleRequest.paymentType = go "monthly" →
            row.amount = plan.priceMonthly
              ∧ row.endDate = sampleSubEnv.addDate sampleSubEnv.now 0 1 0)
        ∧ (sampleRequest.paymentType = go "yearly" →
            row.amount = plan.priceYearly
              ∧ row.endDate = sampleSubEnv.addDate sampleSubEnv.now 1 0 0) :=
  createSubscription_record sampleService sampleSubEnv sampleDatabase sampleRequest none
    (SQLSubscriptionRepository.GetSubscriptionByID
      { sampleDatabase with
        subscriptions := (sampleService.CreateSubscription sampleSubEnv sampleDatabase
          sampleRequest none).subscriptions } (go "s-2"))
    (by rfl)

theorem createSubscription_gateway_error (s : DefaultSubscriptionService) (env : SubEnv)
    (db : Database) (request : SubscriptionRequest) (userInfo : Option UserInfo)
    (card : Card) (plan : SubscriptionPlanWithAttributes)
    (hpt : request.paymentType = go "monthly" ∨ request.paymentType = go "yearly")
    (hcard : SQLCardRepository.GetByID db.cards request.cardID = some card)
    (hown : card.userID = request.userID)
    (hplan : SQLSubscriptionRepository.GetPlanWithAttributes db request.planID = some plan)
    (e : GoError)
    (hg : (s.gatewayStep env request (s.buildSubscription env request plan) userInfo).1
      = Except.error e) :
    (s.CreateSubscription env db request userInfo).result = Except.error e
      ∧ (s.CreateSubscription env db request userInfo).subscriptions = db.subscriptions := by
  rw [createSubscription_valid s env db request userInfo card plan hpt hcard hown hplan, hg]
  exact ⟨rfl, rfl⟩

theorem razorpayCreateSubscription_errors (rs : DefaultRazorpayService)
    (sub : SubscriptionTransaction) (userInfo : Option UserInfo) :
    (∀ e, (rs.razorpayClient.GetOrCreateCustomer
          (DefaultRazorpayService.userInfoOrDefault sub userInfo).razorpayCustomerID
          (DefaultRazorpayService.userInfoOrDefault sub userInfo).name
          (DefaultRazorpayService.userInfoOrDefault sub userInfo).email
          (DefaultRazorpayService.userInfoOrDefault sub userInfo).phone).1 = Except.error e →
        (rs.CreateSubscription sub userInfo).1
          = Except.error (GoError.prefixed (go "failed to create/get customer") e))
    ∧ (∀ customer e, (rs.razorpayClient.GetOrCreateCustomer
          (DefaultRazorpayService.userInfoOrDefault sub userInfo).razorpayCustomerID
          (DefaultRazorpayService.userInfoOrDefault sub userInfo).name
          (DefaultRazorpayService.userInfoOrDefault sub userInfo).email
          (DefaultRazorpayService.userInfoOrDefault sub userInfo).phone).1
            = Except.ok customer →
        rs.GetPlanInfo sub.planID sub.paymentType = Except.error e →
        (rs.CreateSubscription sub userInfo).1
          = Except.error (GoError.prefixed (go "failed to get plan") e))
    ∧ (∀ customer planInfo e, (rs.razorpayClient.GetOrCreateCustomer
          (DefaultRazorpayService.userInfoOrDefault sub userInfo).razorpayCustomerID
          (DefaultRazorpayService.userInfoOrDefault sub userInfo).name
          (DefaultRazorpayService.userInfoOrDefault sub userInfo).email
          (DefaultRazorpayService.userInfoOrDefault sub userInfo).phone).1
            = Except.ok customer →
        rs.GetPlanInfo sub.planID sub.paymentType = Except.ok planInfo →
        (rs.razorpayClient.CreateSubscription (go "plan_QIbDj6gHdpgbDl")
          (mapString customer (go "id"))
          (if sub.paymentType == go "yearly" then 1 else 12) true).1 = Except.error e →
        (rs.CreateSubscription sub userInfo).1
          = Except.error (GoError.wrap GoError.ErrRazorpayOperationFailed e)) := by
  refine ⟨?_, ?_, ?_⟩
  · intro e h1
    unfold DefaultRazorpayService.CreateSubscription
    simp only [h1]
  · intro customer e h1 h2
    unfold DefaultRazorpayService.CreateSubscription
    simp only [h1, h2]
  · intro customer planInfo e h1 h2 h3
    unfold DefaultRazorpayService.CreateSubscription
    simp only [h1, h2, h3]

/-- C17: for a request that passes validation on a service with a gateway, `CreateSubscription`
returns an error and leaves the table of subscriptions as it was whenever, with
`autoRenewal`, the customer cannot be fetched or created, the plan cannot be resolved or the
gateway refuses the recurring subscription, and whenever, without `autoRenewal`, the gateway
refuses the order. -/
theorem createSubscription_gateway_failure (s : DefaultSubscriptionService) (env : SubEnv)
    (db : Database) (request : SubscriptionRequest) (userInfo : Option UserInfo)
    (rs : DefaultRazorpayService) (card : Card) (plan : SubscriptionPlanWithAttributes)
    (hpt : request.paymentType = go "monthly" ∨ request.paymentType = go "yearly")
    (hcard : SQLCardRepository.GetByID db.cards request.cardID = some card)
    (hown : card.userID = request.userID)
    (hplan : SQLSubscriptionRepository.GetPlanWithAttributes db request.planID = some plan)
    (hrs : s.razorpayService = some rs) :
    (request.autoRenewal = true →
      ∀ e, (rs.razorpayClient.GetOrCreateCustomer
          (DefaultRazorpayService.userInfoOrDefault
            (s.buildSubscription env request plan) userInfo).razorpayCustomerID
          (DefaultRazorpayService.userInfoOrDefault
            (s.buildSubscription env request plan) userInfo).name
          (DefaultRazorpayService.userInfoOrDefault
            (s.buildSubscription env request plan) userInfo).email
          (DefaultRazorpayService.userInfoOrDefault
            (s.buildSubscription env request plan) userInfo).phone).1 = Except.error e →
      (s.CreateSubscription env db request userInfo).result
          = Except.error (GoError.prefixed (go "failed to create/get customer") e)
        ∧ (s.CreateSubscription env db request userInfo).subscriptions = db.subscriptions)
    ∧ (request.autoRenewal = true →
      ∀ customer e, (rs.razorpayClient.GetOrCreateCustomer
          (DefaultRazorpayService.userInfoOrDefault
            (s.buildSubscription env request plan) userInfo).razorpayCustomerID
          (DefaultRazorpayService.userInfoOrDefault
            (s.buildSubscription env request plan) userInfo).name
          (DefaultRazorpayService.userInfoOrDefault
            (s.buildSubscription env request plan) userInfo).email
          (DefaultRazorpayService.userInfoOrDefault
            (s.buildSubscription env request plan) userInfo).phone).1 = Except.ok customer →
      rs.GetPlanInfo request.planID request.paymentType = Except.error e →
      (s.CreateSubscription env db request userInfo).result
          = Except.error (GoError.prefixed (go "failed to get plan") e)
        ∧ (s.CreateSubscription env db request userInfo).subscriptions = db.subscriptions)
    ∧ (request.autoRenewal = true →
      ∀ customer planInfo e, (rs.razorpayClient.GetOrCreateCustomer
          (DefaultRazorpayService.userInfoOrDefault
            (s.buildSubscription env request plan) userInfo).razorpayCustomerID
          (DefaultRazorpayService.userInfoOrDefault
            (s.buildSubscription env request plan) userInfo).name
          (DefaultRazorpayService.userInfoOrDefault
            (s.buildSubscription env request plan) userInfo).email
          (DefaultRazorpayService.userInfoOrDefault
            (s.buildSubscription env request plan) userInfo).phone).1 = Except.ok customer →
      rs.GetPlanInfo request.planID request.paymentType = Except.ok planInfo →
      (rs.razorpayClient.CreateSubscription (go "plan_QIbDj6gHdpgbDl")
        (mapString customer (go "id"))
        (if request.paymentType == go "yearly" then 1 else 12) true).1 = Except.error e →
      (s.CreateSubscription env db request userInfo).result
          = Except.error (GoError.wrap GoError.ErrRazorpayOperationFailed e)
        ∧ (s.CreateSubscription env db request userInfo).subscriptions = db.subscriptions)
    ∧ (request.autoRenewal = false →
      ∀ e, (rs.razorpayClient.CreateOrder
          (env.inPaise (s.buildSubscription env request plan).amount) (go "INR")
          (s.buildSubscription env request plan).id).1 = Except.error e →
      (s.CreateSubscription env db request userInfo).result
          = Except.error (GoError.wrap GoError.ErrRazorpayOperationFailed e)
        ∧ (s.CreateSubscription env db request userInfo).subscriptions = db.subscriptions) := by
  obtain ⟨r1, r2, r3⟩ :=
    razorpayCreateSubscription_errors rs (s.buildSubscription env request plan) userInfo
  refine ⟨?_, ?_, ?_, ?_⟩
  · intro ha e h1
    apply createSubscription_gateway_error s env db request userInfo card plan hpt hcard hown
      hplan
    unfold DefaultSubscriptionService.gatewayStep
    simp only [hrs, ha, if_true, r1 e h1]
  · intro ha customer e h1 h2
    apply createSubscription_gateway_error s env db request userInfo card plan hpt hcard hown
      hplan
    unfold DefaultSubscriptionService.gatewayStep
    simp only [hrs, ha, if_true, r2 customer e h1 h2]
  · intro ha customer planInfo e h1 h2 h3
    apply createSubscription_gateway_error s env db request userInfo card plan hpt hcard hown
      hplan
    unfold DefaultSubscriptionService.gatewayStep
    simp only [hrs, ha, if_true, r3 customer planInfo e h1 h2 h3]
  · intro ha e h1
    apply createSubscription_gateway_error s env db request userInfo card plan hpt hcard hown
      hplan
    unfold DefaultSubscriptionService.gatewayStep DefaultRazorpayService.CreatePayment
    simp only [hrs, ha, Bool.false_eq_true, if_false, h1]

/-- C17, at a one-time request of `user-1` on a gateway that refuses every request. -/
theorem createSubscription_gateway_failure_witness :
    (failingService.CreateSubscription sampleSubEnv sampleDatabase sampleRequest none).result
        = Except.error (GoError.wrap GoError.ErrRazorpayOperationFailed
            (GoError.wrap GoError.ErrPaymentCreationFailed
              (GoError.external (go "gateway down"))))
      ∧ (failingService.CreateSubscription sampleSubEnv sampleDatabase sampleRequest
          none).subscriptions = sampleDatabase.subscriptions :=
  (createSubscription_gateway_failure failingService sampleSubEnv sampleDatabase sampleRequest
    none (NewRazorpayService failingClient (go "webhook123")) sampleRow
    { plan := { id := go "plan-002", productID := go "prod-1", name := go "Standard",
                priceMonthly := { bits := 499 }, priceYearly := { bits := 4999 },
                attributes := [], createdAt := 1, updatedAt := 1 },
      attributes := [] }
    (by decide) (by decide) (by decide) (by decide) rfl).2.2.2 (by decide)
    (GoError.wrap GoError.ErrPaymentCreationFailed (GoError.external (go "gateway down")))
    (by rfl)

/-- C18 (failing input): the plan table assigns `plan_LgWAqFqsESLnhb` to `plan-002` paid
monthly and `plan_LgWAtVDXJI4Nzu` to `plan-002` paid yearly, yet an auto-renewal request for
`plan-002` asks the gateway for a recurring subscription on `plan_QIbDj6gHdpgbDl`, both when
paid monthly and when paid yearly. -/
theorem createSubscription_gateway_plan_is_constant :
    (NewRazorpayService sampleClient (go "webhook123")).planMapping.lookup (go "plan-002")
        = some { monthly := go "plan_LgWAqFqsESLnhb", yearly := go "plan_LgWAtVDXJI4Nzu" }
      ∧ (sampleService.CreateSubscription sampleSubEnv sampleDatabase
          { sampleRequest with autoRenewal := true } none).calls
        = [GatewayCall.customerCreate (go "User user-1") (go "user-1@example.com") [],
           GatewayCall.subscriptionCreate (go "plan_QIbDj6gHdpgbDl") (go "gw-1") 12 1]
      ∧ (sampleService.CreateSubscription sampleSubEnv sampleDatabase
          { sampleRequest with autoRenewal := true, paymentType := go "yearly" } none).calls
        = [GatewayCall.customerCreate (go "User user-1") (go "user-1@example.com") [],
           GatewayCall.subscriptionCreate (go "plan_QIbDj6gHdpgbDl") (go "gw-1") 1 1] := by
  decide

/-- C19 (counterexample): for the mapped plan `plan-001` and the payment type `weekly`, which
is neither `monthly` nor `yearly`, `GetPlanInfo` does not fail: it returns the yearly
identifier of the plan. -/
theorem getPlanInfo_other_payment_type :
    (NewRazorpayService sampleClient (go "webhook123")).GetPlanInfo (go "plan-001") (go "weekly")
      = Except.ok [(go "razorpay_plan_id", Json.str (go "plan_QIbFBU9kxYoEhg"))] := by
  rfl

/-- C19 (amended): `GetPlanInfo` fails with the unknown-plan error exactly for the plan ids
other than `plan-001`, `plan-002` and `plan-003`; for each of these three plans it returns
the monthly identifier of the table when the payment type is `monthly` and the yearly
identifier for every other payment type. -/
theorem getPlanInfo_spec (client : Client) (webhookSecret planID paymentType : GoString) :
    (planID ≠ go "plan-001" → planID ≠ go "plan-002" → planID ≠ go "plan-003" →
        (NewRazorpayService client webhookSecret).GetPlanInfo planID paymentType
          = Except.error (GoError.new (go "unknown plan ID: " ++ planID)))
    ∧ (paymentType = go "monthly" →
        (NewRazorpayService client webhookSecret).GetPlanInfo (go "plan-001") paymentType
            = Except.ok [(go "razorpay_plan_id", Json.str (go "plan_QIbEUICtejuBUQ"))]
          ∧ (NewRazorpayService client webhookSecret).GetPlanInfo (go "plan-002") paymentType
            = Except.ok [(go "razorpay_plan_id", Json.str (go "plan_LgWAqFqsESLnhb"))]
          ∧ (NewRazorpayService client webhookSecret).GetPlanInfo (go "plan-003") paymentType
            = Except.ok [(go "razorpay_plan_id", Json.str (go "plan_LgWB3F9fPBzPRV"))])
    ∧ (paymentType ≠ go "monthly" →
        (NewRazorpayService client webhookSecret).GetPlanInfo (go "plan-001") paymentType
            = Except.ok [(go "razorpay_plan_id", Json.str (go "plan_QIbFBU9kxYoEhg"))]
          ∧ (NewRazorpayService client webhookSecret).GetPlanInfo (go "plan-002") paymentType
            = Except.ok [(go "razorpay_plan_id", Json.str (go "plan_LgWAtVDXJI4Nzu"))]
          ∧ (NewRazorpayService client webhookSecret).GetPlanInfo (go "plan-003") paymentType
            = Except.ok [(go "razorpay_plan_id", Json.str (go "plan_LgWB7dBSP7iUf7"))]) := by
  have l1 : (NewRazorpayService client webhookSecret).planMapping.lookup (go "plan-001")
      = some { monthly := go "plan_QIbEUICtejuBUQ", yearly := go "plan_QIbFBU9kxYoEhg" } := by
    rfl
  have l2 : (NewRazorpayService client webhookSecret).planMapping.lookup (go "plan-002")
      = some { monthly := go "plan_LgWAqFqsESLnhb", yearly := go "plan_LgWAtVDXJI4Nzu" } := by
    rfl
  have l3 : (NewRazorpayService client webhookSecret).planMapping.lookup (go "plan-003")
      = some { monthly := go "plan_LgWB3F9fPBzPRV", yearly := go "plan_LgWB7dBSP7iUf7" } := by
    rfl
  refine ⟨?_, ?_, ?_⟩
  · intro h1 h2 h3
    have hl : (NewRazorpayService client webhookSecret).planMapping.lookup planID = none := by
      have b1 : (planID == go "plan-001") = false := by simpa using h1
      have b2 : (planID == go "plan-002") = false := by simpa using h2
      have b3 : (planID == go "plan-003") = false := by simpa using h3
      simp only [NewRazorpayService, List.lookup, b1, b2, b3]
    unfold DefaultRazorpayService.GetPlanInfo
    rw [hl]
  · intro hm
    have hb : (paymentType == go "monthly") = true := by simp [hm]
    unfold DefaultRazorpayService.GetPlanInfo
    rw [l1, l2, l3]
    simp only [hb, if_true]
    exact ⟨trivial, trivial, trivial⟩
  · intro hm
    have hb : (paymentType == go "monthly") = false := by simpa using hm
    unfold DefaultRazorpayService.GetPlanInfo
    rw [l1, l2, l3]
    simp only [hb, Bool.false_eq_true, if_false]
    exact ⟨trivial, trivial, trivial⟩

/-- C19 (amended), at the plan `plan-002` paid monthly. -/
theorem getPlanInfo_spec_witness :
    (NewRazorpayService sampleClient (go "webhook123")).GetPlanInfo (go "plan-002")
        (go "monthly")
      = Except.ok [(go "razorpay_plan_id", Json.str (go "plan_LgWAqFqsESLnhb"))] :=
  ((getPlanInfo_spec sampleClient (go "webhook123") (go "plan-002") (go "monthly")).2.1
    rfl).2.1

theorem getSubscriptionByID_none (db : Database) (subscriptionID : GoString)
    (h : ∀ t ∈ db.subscriptions, t.id ≠ subscriptionID) :
    SQLSubscriptionRepository.GetSubscriptionByID db subscriptionID = none := by
  have hnone : db.subscriptions.find? (fun t => t.id == subscriptionID) = none := by
    rw [List.find?_eq_none]
    intro t ht
    simpa using h t ht
  unfold SQLSubscriptionRepository.GetSubscriptionByID
  rw [hnone]

theorem getSubscriptionByID_some (db : Database) (subscriptionID : GoString)
    (original : SubscriptionTransaction)
    (h : db.subscriptions.find? (fun t => t.id == subscriptionID) = some original) :
    SQLSubscriptionRepository.GetSubscriptionByID db subscriptionID
      = some (SQLSubscriptionRepository.enrichSubscriptionData db original) := by
  unfold SQLSubscriptionRepository.GetSubscriptionByID
  rw [h]

/-- C20: `RenewSubscription` returns `ErrSubscriptionNotFound` when no record has the id and
`ErrUnauthorized` when the record found belongs to another owner, and leaves the table as it
was; otherwise, when both database statements succeed, it deactivates the active records of
the owner and inserts one record that is an active renewal with the owner, product, plan,
card, payment type and amount of the original, with `endDate` and `nextRenewalDate` one
month (`AddDate(0, 1, 0)`) after the clock readings taken for them, and with no gateway
order, payment or subscription identifier.  It never makes a gateway request. -/
theorem renewSubscription_spec (s : DefaultSubscriptionService) (env : SubEnv)
    (db : Database) (subscriptionID userID : GoString) :
    ((∀ t ∈ db.subscriptions, t.id ≠ subscriptionID) →
        s.RenewSubscription env db subscriptionID userID
          = { result := Except.error GoError.ErrSubscriptionNotFound,
              subscriptions := db.subscriptions, calls := [] })
    ∧ (∀ original, db.subscriptions.find? (fun t => t.id == subscriptionID) = some original →
        original.userID ≠ userID →
        s.RenewSubscription env db subscriptionID userID
          = { result := Except.error GoError.ErrUnauthorized,
              subscriptions := db.subscriptions, calls := [] })
    ∧ (∀ original, db.subscriptions.find? (fun t => t.id == subscriptionID) = some original →
        original.userID = userID →
        env.deactivateErr = none → env.insertErr = none →
        ∃ row : SubscriptionTransaction,
          (s.RenewSubscription env db subscriptionID userID).subscriptions
              = deactivateActive db.subscriptions userID ++ [row]
            ∧ (∃ v, (s.RenewSubscription env db subscriptionID userID).result = Except.ok v)
            ∧ row.isRenewal = true ∧ row.isActive = true
            ∧ row.userID = original.userID ∧ row.productID = original.productID
            ∧ row.planID = original.planID ∧ row.cardID = original.cardID
            ∧ row.paymentType = original.paymentType ∧ row.amount = original.amount
            ∧ row.endDate = env.addDate env.now2 0 1 0
            ∧ row.nextRenewalDate = env.addDate env.now3 0 1 0
            ∧ row.razorpayOrderID = { str := [], valid := false }
            ∧ row.razorpayPaymentID = { str := [], valid := false }
            ∧ row.razorpaySubscriptionID = { str := [], valid := false })
    ∧ (s.RenewSubscription env db subscriptionID userID).calls = [] := by
  refine ⟨?_, ?_, ?_, ?_⟩
  · intro h
    unfold DefaultSubscriptionService.RenewSubscription
    rw [getSubscriptionByID_none db subscriptionID h]
  · intro original hfind hne
    have hb : ((SQLSubscriptionRepository.enrichSubscriptionData db original).userID != userID)
        = true := by
      simpa [SQLSubscriptionRepository.enrichSubscriptionData] using hne
    unfold DefaultSubscriptionService.RenewSubscription
    rw [getSubscriptionByID_some db subscriptionID original hfind]
    simp only [hb, if_true]
  · intro original hfind hown h1 h2
    have hb : ((SQLSubscriptionRepository.enrichSubscriptionData db original).userID != userID)
        = false := by
      simpa [SQLSubscriptionRepository.enrichSubscriptionData] using hown
    unfold DefaultSubscriptionService.RenewSubscription
    rw [getSubscriptionByID_some db subscriptionID original hfind]
    simp only [hb, Bool.false_eq_true, if_false]
    obtain ⟨hsubs, -, -, hres⟩ := saveAndReload_spec env db
      (DefaultSubscriptionService.newSubscription env userID
        (SQLSubscriptionRepository.enrichSubscriptionData db original)) []
    have hrepo := repoCreateSubscription_success env db
      (DefaultSubscriptionService.newSubscription env userID
        (SQLSubscriptionRepository.enrichSubscriptionData db original)) h1 h2
    rw [hsubs, hrepo]
    refine ⟨_, rfl, hres (by rw [hrepo]), rfl, rfl, hown.symm, rfl, rfl, rfl, rfl, rfl, rfl, rfl,
      rfl, rfl, rfl⟩
  · unfold DefaultSubscriptionService.RenewSubscription
    cases SQLSubscriptionRepository.GetSubscriptionByID db subscriptionID with
    | none => rfl
    | some subscription =>
      simp only []
      split
      · rfl
      · exact (saveAndReload_spec env db _ []).2.1

/-- C20, at a renewal of the yearly subscription `s-1` of `user-1` in `sampleDatabase`. -/
theorem renewSubscription_spec_witness :
    ∃ row : SubscriptionTransaction,
      (sampleService.RenewSubscription sampleSubEnv sampleDatabase (go "s-1")
            (go "user-1")).subscriptions
          = deactivateActive sampleDatabase.subscriptions (go "user-1") ++ [row]
        ∧ (∃ v, (sampleService.RenewSubscription sampleSubEnv sampleDatabase (go "s-1")
            (go "user-1")).result = Except.ok v)
        ∧ row.isRenewal = true ∧ row.isActive = true
        ∧ row.userID = sampleSubscription.userID ∧ row.productID = sampleSubscription.productID
        ∧ row.planID = sampleSubscription.planID ∧ row.cardID = sampleSubscription.cardID
        ∧ row.paymentType = sampleSubscription.paymentType
        ∧ row.amount = sampleSubscription.amount
        ∧ row.endDate = sampleSubEnv.addDate sampleSubEnv.now2 0 1 0
        ∧ row.nextRenewalDate = sampleSubEnv.addDate sampleSubEnv.now3 0 1 0
        ∧ row.razorpayOrderID = { str := [], valid := false }
        ∧ row.razorpayPaymentID = { str := [], valid := false }
        ∧ row.razorpaySubscriptionID = { str := [], valid := false } :=
  (renewSubscription_spec sampleService sampleSubEnv sampleDatabase (go "s-1")
    (go "user-1")).2.2.1 sampleSubscription (by decide) (by decide) (by decide) (by decide)

/-! ## Single-digit errors and the order of the checks of `CreateCard` -/

theorem luhn_digit_fin :
    ∀ x y : Fin 10, ∀ p : Bool, x ≠ y →
      (luhnStep (48 + x.val) (0, p)).1 % 10 ≠ (luhnStep (48 + y.val) (0, p)).1 % 10 := by
  decide

theorem luhn_digit_injective (x : Nat) (hx : x < 10) (y : Nat) (hy : y < 10) (p : Bool)
    (hne : x ≠ y) :
    (luhnStep (48 + x) (0, p)).1 % 10 ≠ (luhnStep (48 + y) (0, p)).1 % 10 :=
  luhn_digit_fin ⟨x, hx⟩ ⟨y, hy⟩ p (by intro h; exact hne (congrArg Fin.val h))

theorem luhnLoop_replace (pre post : List Nat) :
    ∃ base : Nat, ∃ p : Bool,
      ∀ x : Nat, (luhnLoop (pre ++ x :: post)).1 = base + (luhnStep x (0, p)).1 := by
  refine ⟨(post.foldr luhnStep (0, false)).1
      + (pre.foldr luhnStep (0, !(post.foldr luhnStep (0, false)).2)).1,
    (post.foldr luhnStep (0, false)).2, ?_⟩
  intro x
  unfold luhnLoop
  rw [List.foldr_append, List.foldr_cons, luhnStep_eq x, luhn_foldr_shift]
  simp only []
  omega

/-- C29: in an accepted card number, replacing one digit by a different digit yields a
number that `isValidCardNumber` rejects. -/
theorem substitution_detected (pre post : GoString) (a b : Nat)
    (ha : isDigit a = true) (hb : isDigit b = true) (hne : a ≠ b)
    (hvalid : isValidCardNumber (pre ++ a :: post) = true) :
    isValidCardNumber (pre ++ b :: post) = false := by
  have hs : ∀ x, isDigit x = true →
      stripSeparators (pre ++ x :: post) = stripSeparators pre ++ x :: stripSeparators post := by
    intro x hx
    rw [stripSeparators_append, stripSeparators_cons_digit x _ hx]
  rw [isValidCardNumber_eq_true, hs a ha] at hvalid
  obtain ⟨-, -, -, hl⟩ := hvalid
  rw [Bool.eq_false_iff]
  intro hv
  rw [isValidCardNumber_eq_true, hs b hb] at hv
  obtain ⟨-, -, -, hl2⟩ := hv
  obtain ⟨base, p, hrep⟩ := luhnLoop_replace (stripSeparators pre) (stripSeparators post)
  rw [hrep a] at hl
  rw [hrep b] at hl2
  rw [isDigit_iff] at ha hb
  have hx := luhn_digit_injective (a - 48) (by omega) (b - 48) (by omega) p (by omega)
  have ea : 48 + (a - 48) = a := by omega
  have eb : 48 + (b - 48) = b := by omega
  rw [ea, eb] at hx
  omega

/-- C29, at `4532015112830366` with its third digit 3 replaced by 8. -/
theorem substitution_detected_witness :
    isValidCardNumber (go "4532015112830366") = true
      ∧ isValidCardNumber (go "4582015112830366") = false :=
  ⟨by decide,
    substitution_detected (go "45") (go "2015112830366") 51 56 (by decide) (by decide)
      (by decide) (by decide)⟩

/-- C27 (counterexample): `user-1` already has a card ending in `0366`; registering the
number `4582015112830366`, which `validateCard` rejects with `ErrInvalidCardNumber`, returns
the duplicate-card error. -/
theorem createCard_duplicate_check_first :
    validateCard sampleEnv { sampleCard with cardNumber := go "4582015112830366" }
        = some CardError.ErrInvalidCardNumber
      ∧ CreateCard sampleEnv [sampleRow]
          { sampleCard with cardNumber := go "4582015112830366" }
        = (some CardError.ErrCardAlreadyExists,
           { sampleCard with cardNumber := go "4582015112830366" }, [sampleRow]) := by
  decide

/-- C27 (amended): `CreateCard` runs the duplicate check before the card validator: a card
that fails validation is answered with its validation error when no card of the owner
stores the last four bytes of the submitted number, and with the duplicate-card error when
one does; in both cases the table is left as it was. -/
theorem createCard_check_order (env : Env) (store : CardStore) (card : Card) (err : CardError)
    (hval : validateCard env card = some err) :
    ((∀ c ∈ store, c.userID = card.userID →
          c.lastFourDigits ≠ (if card.cardNumber.length ≥ 4 then lastFourBytes card.cardNumber
            else [])) →
        CreateCard env store card = (some err, card, store))
    ∧ ((∃ c ∈ store, c.userID = card.userID
          ∧ c.lastFourDigits = (if card.cardNumber.length ≥ 4 then
              lastFourBytes card.cardNumber else [])) →
        CreateCard env store card = (some CardError.ErrCardAlreadyExists, card, store)) := by
  constructor
  · intro h
    exact createCard_invalid env store card err ((hasLastFour_false_iff _ _ _).mpr h) hval
  · rintro ⟨c, hc, hu, hl⟩
    apply createCard_duplicate
    unfold hasLastFour SQLCardRepository.GetByUserID
    rw [List.any_eq_true]
    exact ⟨c, List.mem_filter.mpr ⟨hc, by simpa using hu⟩, by simpa using hl⟩

/-- C27 (amended), at the empty table and the number `0366`. -/
theorem createCard_check_order_witness :
    CreateCard sampleEnv [] { sampleCard with cardNumber := go "0366" }
      = (some CardError.ErrInvalidCardNumber, { sampleCard with cardNumber := go "0366" }, []) :=
  (createCard_check_order sampleEnv [] { sampleCard with cardNumber := go "0366" }
    CardError.ErrInvalidCardNumber (by decide)).1 (by decide)

/-! ## Stopping a subscription -/

/-- C21: `StopSubscription` returns `ErrSubscriptionNotFound` when no record has the id and
`ErrUnauthorized` when the record found belongs to another owner, with no gateway request
and the table as it was.  For a record of the caller with a non-empty gateway subscription
identifier the only gateway request is the cancellation of that identifier, and when the
gateway refuses it the error is returned and the table is as it was; for a record without
such an identifier no gateway request is made. -/
theorem stopSubscription_spec (s : DefaultSubscriptionService) (rs : DefaultRazorpayService)
    (now : Time) (db : Database) (subscriptionID userID : GoString)
    (hrs : s.razorpayService = some rs) :
    ((∀ t ∈ db.subscriptions, t.id ≠ subscriptionID) →
        s.StopSubscription now db subscriptionID userID
          = { result := Except.error GoError.ErrSubscriptionNotFound,
              subscriptions := db.subscriptions, calls := [] })
    ∧ (∀ original, db.subscriptions.find? (fun t => t.id == subscriptionID) = some original →
        original.userID ≠ userID →
        s.StopSubscription now db subscriptionID userID
          = { result := Except.error GoError.ErrUnauthorized,
              subscriptions := db.subscriptions, calls := [] })
    ∧ (∀ original, db.subscriptions.find? (fun t => t.id == subscriptionID) = some original →
        original.userID = userID →
        original.razorpaySubscriptionID.valid = true →
        original.razorpaySubscriptionID.str ≠ [] →
        (s.StopSubscription now db subscriptionID userID).calls
            = [GatewayCall.subscriptionCancel original.razorpaySubscriptionID.str false]
          ∧ ∀ e, rs.razorpayClient.sdk
                (GatewayCall.subscriptionCancel original.razorpaySubscriptionID.str false)
              = Except.error e →
            s.StopSubscription now db subscriptionID userID
              = { result := Except.error (GoError.wrap GoError.ErrRazorpayOperationFailed
                    (GoError.prefixed (go "failed to cancel subscription") e)),
                  subscriptions := db.subscriptions,
                  calls := [GatewayCall.subscriptionCancel
                    original.razorpaySubscriptionID.str false] })
    ∧ (∀ original, db.subscriptions.find? (fun t => t.id == subscriptionID) = some original →
        original.userID = userID →
        (original.razorpaySubscriptionID.valid = false
          ∨ original.razorpaySubscriptionID.str = []) →
        (s.StopSubscription now db subscriptionID userID).calls = []) := by
  refine ⟨?_, ?_, ?_, ?_⟩
  · intro h
    unfold DefaultSubscriptionService.StopSubscription
    rw [getSubscriptionByID_none db subscriptionID h]
  · intro original hfind hne
    have hb : ((SQLSubscriptionRepository.enrichSubscriptionData db original).userID != userID)
        = true := by
      simpa [SQLSubscriptionRepository.enrichSubscriptionData] using hne
    unfold DefaultSubscriptionService.StopSubscription
    rw [getSubscriptionByID_some db subscriptionID original hfind]
    simp only [hb, if_true]
  · intro original hfind hown hvalid hstr
    have hb : ((SQLSubscriptionRepository.enrichSubscriptionData db original).userID != userID)
        = false := by
      simpa [SQLSubscriptionRepository.enrichSubscriptionData] using hown
    have hg : (original.razorpaySubscriptionID.valid
        && original.razorpaySubscriptionID.str != []) = true := by
      simp [hvalid, hstr]
    have hid : (SQLSubscriptionRepository.enrichSubscriptionData db
        original).razorpaySubscriptionID = original.razorpaySubscriptionID := rfl
    unfold DefaultSubscriptionService.StopSubscription
    rw [getSubscriptionByID_some db subscriptionID original hfind]
    simp only [hb, Bool.false_eq_true, if_false, hg, if_true, hrs, hid]
    unfold DefaultRazorpayService.CancelSubscription Client.CancelSubscription
    constructor
    · cases hsdk : rs.razorpayClient.sdk
          (GatewayCall.subscriptionCancel original.razorpaySubscriptionID.str false) with
      | error e => rfl
      | ok v =>
        simp only []
        cases (SQLSubscriptionRepository.StopSubscription now db subscriptionID userID).1 <;> rfl
    · intro e hsdk
      rw [hsdk]
  · intro original hfind hown hno
    have hb : ((SQLSubscriptionRepository.enrichSubscriptionData db original).userID != userID)
        = false := by
      simpa [SQLSubscriptionRepository.enrichSubscriptionData] using hown
    have hg : (original.razorpaySubscriptionID.valid
        && original.razorpaySubscriptionID.str != []) = false := by
      rcases hno with h | h <;> simp [h]
    have hid : (SQLSubscriptionRepository.enrichSubscriptionData db
        original).razorpaySubscriptionID = original.razorpaySubscriptionID := rfl
    unfold DefaultSubscriptionService.StopSubscription
    rw [getSubscriptionByID_some db subscriptionID original hfind]
    simp only [hb, Bool.false_eq_true, if_false, hid, hg]
    cases (SQLSubscriptionRepository.StopSubscription now db subscriptionID userID).1 <;> rfl

/-- C21, at the subscription `s-1` linked to the gateway subscription `sub_1`, on a gateway
that refuses every request. -/
theorem stopSubscription_spec_witness :
    failingService.StopSubscription 2001 linkedDatabase (go "s-1") (go "user-1")
      = { result := Except.error (GoError.wrap GoError.ErrRazorpayOperationFailed
            (GoError.prefixed (go "failed to cancel subscription")
              (GoError.external (go "gateway down")))),
          subscriptions := linkedDatabase.subscriptions,
          calls := [GatewayCall.subscriptionCancel linkedSubscription.razorpaySubscriptionID.str
            false] } :=
  ((stopSubscription_spec failingService (NewRazorpayService failingClient (go "webhook123"))
    2001 linkedDatabase (go "s-1") (go "user-1") rfl).2.2.1 linkedSubscription (by decide)
    (by decide) (by decide) (by decide)).2 (GoError.external (go "gateway down")) rfl

/-! ## Webhook signature -/

/-- C23: with a non-empty key secret, `VerifyPaymentSignature` on the attribute `payload` is
true exactly when the signature is the lower-case hexadecimal encoding of the HMAC of the
payload under the key secret; with an empty key secret it is true for every attribute map
and every signature. -/
theorem verifyPaymentSignature_spec (c : Client)
    (hmacSHA256 : GoString → GoString → List Nat) :
    (c.keySecret ≠ [] → ∀ payload signature : GoString,
        (c.VerifyPaymentSignature hmacSHA256 [(go "payload", Json.str payload)] signature = true
          ↔ signature = hexEncodeToString (hmacSHA256 c.keySecret payload)))
    ∧ (c.keySecret = [] → ∀ (attributes : JsonObject) (signature : GoString),
        c.VerifyPaymentSignature hmacSHA256 attributes signature = true)
    ∧ hexEncodeToString [0, 26, 171, 255] = go "001aabff" := by
  refine ⟨?_, ?_, by decide⟩
  · intro hk payload signature
    have hb : (c.keySecret == []) = false := by simpa using hk
    have hm : mapStringOk [(go "payload", Json.str payload)] (go "payload") = some payload := by
      simp [mapStringOk, List.lookup]
    unfold Client.VerifyPaymentSignature
    simp only [hb, Bool.false_eq_true, if_false, hm, beq_iff_eq]
    exact eq_comm
  · intro hk attributes signature
    unfold Client.VerifyPaymentSignature
    simp [hk]

/-- C23, at a client with the key secret `secret` and the toy keyed hash of
`sampleWebhookEnv`. -/
theorem verifyPaymentSignature_spec_witness :
    sampleClient.VerifyPaymentSignature sampleWebhookEnv.hmacSHA256
        [(go "payload", Json.str (go "charged"))] (go "0607ab") = true :=
  ((verifyPaymentSignature_spec sampleClient sampleWebhookEnv.hmacSHA256).1 (by decide)
    (go "charged") (go "0607ab")).mpr (by decide)

theorem handleWebhook_rejected (s : DefaultRazorpayService) (env : WebhookEnv)
    (db : Database) (payload signature : GoString)
    (hbad : s.razorpayClient.VerifyPaymentSignature env.hmacSHA256
      [(go "payload", Json.str payload)] signature = false) :
    s.HandleWebhook env db false payload signature
      = { result := Except.error GoError.ErrInvalidWebhookSignature,
          subscriptions := db.subscriptions, calls := [] } := by
  unfold DefaultRazorpayService.HandleWebhook
  simp only [hbad, Bool.not_false, if_true]

/-- C22: outside test mode, when `VerifyPaymentSignature` rejects the signature,
`HandleWebhook` returns `ErrInvalidWebhookSignature`, leaves the table of subscriptions as
it was and makes no gateway request, whatever the payload decodes to. -/
theorem handleWebhook_rejects_bad_signature (s : DefaultRazorpayService) (env : WebhookEnv)
    (db : Database) (payload signature : GoString)
    (hbad : s.razorpayClient.VerifyPaymentSignature env.hmacSHA256
      [(go "payload", Json.str payload)] signature = false) :
    s.HandleWebhook env db false payload signature
        = { result := Except.error GoError.ErrInvalidWebhookSignature,
            subscriptions := db.subscriptions, calls := [] }
      ∧ ∀ jsonUnmarshal : GoString → Except GoError JsonObject,
          s.HandleWebhook { env with jsonUnmarshal := jsonUnmarshal } db false payload signature
            = s.HandleWebhook env db false payload signature := by
  refine ⟨handleWebhook_rejected s env db payload signature hbad, ?_⟩
  intro jsonUnmarshal
  rw [handleWebhook_rejected s env db payload signature hbad,
    handleWebhook_rejected s { env with jsonUnmarshal := jsonUnmarshal } db payload signature
      hbad]

/-- C22, at the payload `charged` with a wrong signature. -/
theorem handleWebhook_rejects_bad_signature_witness :
    sampleRazorpayService.HandleWebhook sampleWebhookEnv linkedDatabase false (go "charged")
        (go "bad")
      = { result := Except.error GoError.ErrInvalidWebhookSignature,
          subscriptions := linkedDatabase.subscriptions, calls := [] } :=
  (handleWebhook_rejects_bad_signature sampleRazorpayService sampleWebhookEnv linkedDatabase
    (go "charged") (go "bad") (by decide)).1

/-- C30: two payment services built by `NewRazorpayService` on the same gateway client with
different webhook secrets return the same result, leave the same table and make the same
gateway requests for every payload, signature and test-mode flag; outside test mode the
request is refused whenever the signature fails verification with the key secret of the
client. -/
theorem handleWebhook_ignores_webhookSecret (client : Client) (secret1 secret2 : GoString)
    (env : WebhookEnv) (db : Database) (testMode : Bool) (payload signature : GoString) :
    (NewRazorpayService client secret1).HandleWebhook env db testMode payload signature
        = (NewRazorpayService client secret2).HandleWebhook env db testMode payload signature
      ∧ (client.VerifyPaymentSignature env.hmacSHA256 [(go "payload", Json.str payload)]
            signature = false →
          (NewRazorpayService client secret1).HandleWebhook env db false payload signature
            = { result := Except.error GoError.ErrInvalidWebhookSignature,
                subscriptions := db.subscriptions, calls := [] }) := by
  constructor
  · rfl
  · intro h
    exact handleWebhook_rejected (NewRazorpayService client secret1) env db payload signature h

/-- C30, at a signature computed with the webhook secret `webhook123` instead of the key
secret of the client. -/
theorem handleWebhook_ignores_webhookSecret_witness :
    (NewRazorpayService sampleClient (go "webhook123")).HandleWebhook sampleWebhookEnv
        linkedDatabase false (go "charged")
        (hexEncodeToString (sampleWebhookEnv.hmacSHA256 (go "webhook123") (go "charged")))
      = { result := Except.error GoError.ErrInvalidWebhookSignature,
          subscriptions := linkedDatabase.subscriptions, calls := [] } :=
  (handleWebhook_ignores_webhookSecret sampleClient (go "webhook123") (go "other")
    sampleWebhookEnv linkedDatabase false (go "charged")
    (hexEncodeToString (sampleWebhookEnv.hmacSHA256 (go "webhook123") (go "charged")))).2
    (by decide)

/-! ## Webhook handlers -/

theorem charged_unfold (s : DefaultRazorpayService) (env : SubEnv) (db : Database)
    (event : JsonObject) (G : GoString) (hc : CarriesSubscriptionID event G) (hG : G ≠ []) :
    s.handleSubscriptionCharged env db event
      = match SQLSubscriptionRepository.GetSubscriptionByRazorpaySubscriptionID db G with
        | none =>
          { result := Except.error (GoError.new
              (go "no subscription found with Razorpay subscription ID: " ++ G)),
            subscriptions := db.subscriptions, calls := [] }
        | some subscription =>
          match (SQLSubscriptionRepository.CreateSubscription env db
              (DefaultRazorpayService.renewalSubscription env subscription G)).1 with
          | some err =>
            { result := Except.error
                (GoError.prefixed (go "failed to create renewal subscription") err),
              subscriptions := (SQLSubscriptionRepository.CreateSubscription env db
                (DefaultRazorpayService.renewalSubscription env subscription G)).2.2,
              calls := [] }
          | none =>
            { result := Except.ok (),
              subscriptions := (SQLSubscriptionRepository.CreateSubscription env db
                (DefaultRazorpayService.renewalSubscription env subscription G)).2.2,
              calls := [] } := by
  obtain ⟨payloadObj, subscriptionObj, entity, h1, h2, h3, h4⟩ := hc
  have hb : (G == []) = false := by simpa using hG
  unfold DefaultRazorpayService.handleSubscriptionCharged
  simp only [h1, h2, h3, h4, hb, Bool.false_eq_true, if_false]

theorem cancelled_unfold (s : DefaultRazorpayService) (env : WebhookEnv) (db : Database)
    (event : JsonObject) (G : GoString) (hc : CarriesSubscriptionID event G) (hG : G ≠ []) :
    s.handleSubscriptionCancelled env db event
      = match SQLSubscriptionRepository.GetSubscriptionByRazorpaySubscriptionID db G with
        | none =>
          { result := Except.error (GoError.new
              (go "no subscription found with Razorpay subscription ID: " ++ G)),
            subscriptions := db.subscriptions, calls := [] }
        | some subscription =>
          match (SQLSubscriptionRepository.StopSubscription env.sqlNow db subscription.id
              subscription.userID).1 with
          | some err =>
            { result := Except.error
                (GoError.prefixed (go "failed to deactivate subscription") err),
              subscriptions := (SQLSubscriptionRepository.StopSubscription env.sqlNow db
                subscription.id subscription.userID).2,
              calls := [] }
          | none =>
            { result := Except.ok (),
              subscriptions := (SQLSubscriptionRepository.StopSubscription env.sqlNow db
                subscription.id subscription.userID).2,
              calls := [] } := by
  obtain ⟨payloadObj, subscriptionObj, entity, h1, h2, h3, h4⟩ := hc
  have hb : (G == []) = false := by simpa using hG
  unfold DefaultRazorpayService.handleSubscriptionCancelled
  simp only [h1, h2, h3, h4, hb, Bool.false_eq_true, if_false]

theorem authorized_unfold (s : DefaultRazorpayService) (env : WebhookEnv) (db : Database)
    (event : JsonObject) (P O : GoString) (hc : CarriesPayment event P O) :
    s.handlePaymentAuthorized env db event
      = if P == [] || O == [] then
          { result := Except.error (GoError.new (go "missing payment or order ID in webhook")),
            subscriptions := db.subscriptions, calls := [] }
        else
          match SQLSubscriptionRepository.GetSubscriptionByRazorpayOrderID db O with
          | none =>
            { result := Except.error (GoError.new
                (go "no subscription found with Razorpay order ID: " ++ O)),
              subscriptions := db.subscriptions, calls := [] }
          | some subscription =>
            { result := Except.ok (),
              subscriptions := SQLSubscriptionRepository.UpdateSubscription env.updateNow db
                { subscription with razorpayPaymentID := toNullString P },
              calls := [] } := by
  obtain ⟨payloadObj, paymentObj, entity, h1, h2, h3, h4, h5⟩ := hc
  unfold DefaultRazorpayService.handlePaymentAuthorized
  simp only [h1, h2, h3, h4, h5]

theorem getByGatewayID_none (db : Database) (G : GoString)
    (h : ∀ t ∈ db.subscriptions,
      ¬ (t.razorpaySubscriptionID.valid = true ∧ t.razorpaySubscriptionID.str = G)) :
    SQLSubscriptionRepository.GetSubscriptionByRazorpaySubscriptionID db G = none := by
  have hnone : db.subscriptions.find?
      (fun t => t.razorpaySubscriptionID.valid && t.razorpaySubscriptionID.str == G)
      = none := by
    rw [List.find?_eq_none]
    intro t ht
    simpa using h t ht
  unfold SQLSubscriptionRepository.GetSubscriptionByRazorpaySubscriptionID
  rw [hnone]

theorem getByGatewayID_some (db : Database) (G : GoString) (original : SubscriptionTransaction)
    (h : db.subscriptions.find?
      (fun t => t.razorpaySubscriptionID.valid && t.razorpaySubscriptionID.str == G)
      = some original) :
    SQLSubscriptionRepository.GetSubscriptionByRazorpaySubscriptionID db G
      = some (SQLSubscriptionRepository.enrichSubscriptionData db original) := by
  unfold SQLSubscriptionRepository.GetSubscriptionByRazorpaySubscriptionID
  rw [h]

theorem renewalSubscription_enrich (env : SubEnv) (db : Database)
    (original : SubscriptionTransaction) (G : GoString) :
    DefaultRazorpayService.renewalSubscription env
        (SQLSubscriptionRepository.enrichSubscriptionData db original) G
      = DefaultRazorpayService.renewalSubscription env original G := rfl

theorem charged_found (s : DefaultRazorpayService) (env : SubEnv) (db : Database)
    (event : JsonObject) (G : GoString) (original : SubscriptionTransaction)
    (hc : CarriesSubscriptionID event G) (hG : G ≠ [])
    (hfind : db.subscriptions.find?
      (fun t => t.razorpaySubscriptionID.valid && t.razorpaySubscriptionID.str == G)
      = some original)
    (h1 : env.deactivateErr = none) (h2 : env.insertErr = none) :
    s.handleSubscriptionCharged env db event
      = { result := Except.ok (),
          subscriptions := deactivateActive db.subscriptions original.userID
            ++ [SubscriptionTransaction.row
                 { DefaultRazorpayService.renewalSubscription env original G with
                   id := env.repoID
                   createdAt := env.createdAt
                   updatedAt := env.updatedAt }],
          calls := [] } := by
  rw [charged_unfold s env db event G hc hG, getByGatewayID_some db G original hfind]
  simp only [renewalSubscription_enrich, repoCreateSubscription_success env db _ h1 h2]
  rfl

theorem renewalRow_fields (env : SubEnv) (original : SubscriptionTransaction) (G : GoString)
    (hG : G ≠ []) :
    (SubscriptionTransaction.row
        { DefaultRazorpayService.renewalSubscription env original G with
          id := env.repoID
          createdAt := env.createdAt
          updatedAt := env.updatedAt }).razorpaySubscriptionID = { str := G, valid := true }
    ∧ (original.paymentType = go "monthly" →
        (SubscriptionTransaction.row
          { DefaultRazorpayService.renewalSubscription env original G with
            id := env.repoID
            createdAt := env.createdAt
            updatedAt := env.updatedAt }).endDate = env.addDate env.now 0 1 0)
    ∧ (original.paymentType ≠ go "monthly" →
        (SubscriptionTransaction.row
          { DefaultRazorpayService.renewalSubscription env original G with
            id := env.repoID
            createdAt := env.createdAt
            updatedAt := env.updatedAt }).endDate = env.addDate env.now 1 0 0) := by
  refine ⟨?_, ?_, ?_⟩
  · have hb : (G == []) = false := by simpa using hG
    simp [SubscriptionTransaction.row, DefaultRazorpayService.renewalSubscription,
      toNullString, NullString.column, hb]
  · intro hm
    simp [SubscriptionTransaction.row, DefaultRazorpayService.renewalSubscription, hm]
  · intro hm
    have hb : (original.paymentType == go "monthly") = false := by simpa using hm
    simp [SubscriptionTransaction.row, DefaultRazorpayService.renewalSubscription, hb]

/-- C25: for a `subscription.charged` event carrying the gateway subscription identifier
`G`: when no record carries `G` the handler returns an error and the table is as it was;
otherwise, when both database statements succeed, it deactivates the active records of the
owner of the first record carrying `G` and inserts one record, the only active one of that
owner, which is a renewal with the owner, product, plan, card, payment type and amount of the
record found, carries `G`, starts at the clock reading, and ends, with
`nextRenewalDate = endDate`, at `AddDate(0, 1, 0)` of it for a monthly record and at
`AddDate(1, 0, 0)` otherwise. -/
theorem handleSubscriptionCharged_spec (s : DefaultRazorpayService) (env : SubEnv)
    (db : Database) (event : JsonObject) (G : GoString)
    (hc : CarriesSubscriptionID event G) (hG : G ≠ []) :
    ((∀ t ∈ db.subscriptions,
          ¬ (t.razorpaySubscriptionID.valid = true ∧ t.razorpaySubscriptionID.str = G)) →
        s.handleSubscriptionCharged env db event
          = { result := Except.error (GoError.new
                (go "no subscription found with Razorpay subscription ID: " ++ G)),
              subscriptions := db.subscriptions, calls := [] })
    ∧ (∀ original, db.subscriptions.find?
          (fun t => t.razorpaySubscriptionID.valid && t.razorpaySubscriptionID.str == G)
          = some original →
        env.deactivateErr = none → env.insertErr = none →
        ∃ row : SubscriptionTransaction,
          (s.handleSubscriptionCharged env db event).result = Except.ok ()
            ∧ (s.handleSubscriptionCharged env db event).subscriptions
                = deactivateActive db.subscriptions original.userID ++ [row]
            ∧ (s.handleSubscriptionCharged env db event).subscriptions.filter
                (fun t => t.userID == original.userID && t.isActive) = [row]
            ∧ row.isRenewal = true ∧ row.isActive = true
            ∧ row.userID = original.userID ∧ row.productID = original.productID
            ∧ row.planID = original.planID ∧ row.cardID = original.cardID
            ∧ row.paymentType = original.paymentType ∧ row.amount = original.amount
            ∧ row.razorpaySubscriptionID = { str := G, valid := true }
            ∧ row.startDate = env.now ∧ row.nextRenewalDate = row.endDate
            ∧ (original.paymentType = go "monthly" → row.endDate = env.addDate env.now 0 1 0)
            ∧ (original.paymentType ≠ go "monthly" →
                row.endDate = env.addDate env.now 1 0 0)) := by
  constructor
  · intro hno
    rw [charged_unfold s env db event G hc hG, getByGatewayID_none db G hno]
  · intro original hfind h1 h2
    rw [charged_found s env db event G original hc hG hfind h1 h2]
    have hf := renewalRow_fields env original G hG
    exact ⟨_, rfl, rfl,
      (insert_active_row db.subscriptions
        (SubscriptionTransaction.row
          { DefaultRazorpayService.renewalSubscription env original G with
            id := env.repoID
            createdAt := env.createdAt
            updatedAt := env.updatedAt }) rfl).1,
      rfl, rfl, rfl, rfl, rfl, rfl, rfl, rfl, hf.1, rfl, rfl, hf.2.1, hf.2.2⟩

/-- C25, at the `subscription.charged` event for `sub_1` on `linkedDatabase`, whose only
record is a yearly one carrying `sub_1`. -/
theorem handleSubscriptionCharged_spec_witness :
    ∃ row : SubscriptionTransaction,
      (sampleRazorpayService.handleSubscriptionCharged sampleSubEnv linkedDatabase
          (subscriptionEvent (go "subscription.charged") (go "sub_1"))).subscriptions
        = deactivateActive linkedDatabase.subscriptions linkedSubscription.userID ++ [row]
      ∧ row.isRenewal = true ∧ row.isActive = true
      ∧ row.razorpaySubscriptionID = { str := go "sub_1", valid := true }
      ∧ row.endDate = sampleSubEnv.addDate sampleSubEnv.now 1 0 0 := by
  obtain ⟨row, _, h2, _, h4, h5, _, _, _, _, _, _, h12, _, _, _, h16⟩ :=
    (handleSubscriptionCharged_spec sampleRazorpayService sampleSubEnv linkedDatabase
      (subscriptionEvent (go "subscription.charged") (go "sub_1")) (go "sub_1")
      ⟨_, _, _, rfl, rfl, rfl, rfl⟩ (by decide)).2 linkedSubscription rfl rfl rfl
  exact ⟨row, h2, h4, h5, h12, h16 (by decide)⟩

theorem deactivateActive_append (l1 l2 : List SubscriptionTransaction) (u : GoString) :
    deactivateActive (l1 ++ l2) u = deactivateActive l1 u ++ deactivateActive l2 u := by
  simp [deactivateActive]

theorem deactivateActive_idem (l : List SubscriptionTransaction) (u : GoString) :
    deactivateActive (deactivateActive l u) u = deactivateActive l u := by
  unfold deactivateActive
  rw [List.map_map]
  apply List.map_congr_left
  intro t _
  by_cases h : (t.userID == u && t.isActive) = true
  · simp only [Function.comp, h, ↓reduceIte, Bool.and_false, Bool.false_eq_true]
  · have hb : (t.userID == u && t.isActive) = false := Bool.eq_false_iff.mpr h
    simp only [Function.comp, hb, Bool.false_eq_true, ↓reduceIte]

theorem deactivateActive_single (row : SubscriptionTransaction) (u : GoString)
    (hu : row.userID = u) (ha : row.isActive = true) :
    deactivateActive [row] u = [{ row with isActive := false }] := by
  simp [deactivateActive, hu, ha]

theorem find_gatewayID_deactivate (l : List SubscriptionTransaction) (u G : GoString)
    (original : SubscriptionTransaction)
    (hfind : l.find?
      (fun t => t.razorpaySubscriptionID.valid && t.razorpaySubscriptionID.str == G)
      = some original) (rest : List SubscriptionTransaction) :
    ∃ found : SubscriptionTransaction,
      (deactivateActive l u ++ rest).find?
          (fun t => t.razorpaySubscriptionID.valid && t.razorpaySubscriptionID.str == G)
        = some found
      ∧ found.userID = original.userID ∧ found.productID = original.productID
      ∧ found.planID = original.planID ∧ found.cardID = original.cardID
      ∧ found.paymentType = original.paymentType ∧ found.amount = original.amount := by
  induction l with
  | nil => simp at hfind
  | cons t l ih =>
    cases hp : (t.razorpaySubscriptionID.valid && t.razorpaySubscriptionID.str == G) with
    | true =>
      have ht : t = original := by
        simpa only [List.find?_cons, hp, Option.some.injEq] using hfind
      subst ht
      cases hd : (t.userID == u && t.isActive) with
      | true =>
        refine ⟨{ t with isActive := false }, ?_, rfl, rfl, rfl, rfl, rfl, rfl⟩
        simp only [deactivateActive, List.map_cons, hd, ↓reduceIte, List.cons_append,
          List.find?_cons, hp]
      | false =>
        refine ⟨t, ?_, rfl, rfl, rfl, rfl, rfl, rfl⟩
        simp only [deactivateActive, List.map_cons, hd, Bool.false_eq_true, ↓reduceIte,
          List.cons_append, List.find?_cons, hp]
    | false =>
      simp only [List.find?_cons, hp] at hfind
      obtain ⟨found, hf, hrest⟩ := ih hfind
      refine ⟨found, ?_, hrest⟩
      cases hd : (t.userID == u && t.isActive) with
      | true =>
        simp only [deactivateActive, List.map_cons, hd, ↓reduceIte, List.cons_append,
          List.find?_cons, hp]
        exact hf
      | false =>
        simp only [deactivateActive, List.map_cons, hd, Bool.false_eq_true, ↓reduceIte,
          List.cons_append, List.find?_cons, hp]
        exact hf

theorem renewalSubscription_congr (env : SubEnv) (a b : SubscriptionTransaction)
    (G : GoString) (h1 : a.userID = b.userID) (h2 : a.productID = b.productID)
    (h3 : a.planID = b.planID) (h4 : a.cardID = b.cardID)
    (h5 : a.paymentType = b.paymentType) (h6 : a.amount = b.amount) :
    DefaultRazorpayService.renewalSubscription env a G
      = DefaultRazorpayService.renewalSubscription env b G := by
  simp only [DefaultRazorpayService.renewalSubscription, h1, h2, h3, h4, h5, h6]

/-- C28: redelivery of `subscription.charged` is not deduplicated.  When a record carries the
gateway subscription identifier `G` and the database statements succeed, handling the same
event twice in a row succeeds both times and appends two renewal records carrying `G` to the
table; after the second delivery the first of them is inactive and the second is the only
active record of the owner. -/
theorem charged_redelivery (s : DefaultRazorpayService) (env1 env2 : SubEnv) (db : Database)
    (event : JsonObject) (G : GoString) (original : SubscriptionTransaction)
    (hc : CarriesSubscriptionID event G) (hG : G ≠ [])
    (hfind : db.subscriptions.find?
      (fun t => t.razorpaySubscriptionID.valid && t.razorpaySubscriptionID.str == G)
      = some original)
    (h11 : env1.deactivateErr = none) (h12 : env1.insertErr = none)
    (h21 : env2.deactivateErr = none) (h22 : env2.insertErr = none) :
    (s.handleSubscriptionCharged env1 db event).result = Except.ok ()
    ∧ (s.handleSubscriptionCharged env2
        { db with subscriptions := (s.handleSubscriptionCharged env1 db event).subscriptions }
        event).result = Except.ok ()
    ∧ ∃ row1 row2 : SubscriptionTransaction,
        (s.handleSubscriptionCharged env1 db event).subscriptions
          = deactivateActive db.subscriptions original.userID ++ [row1]
        ∧ (s.handleSubscriptionCharged env2
            { db with
              subscriptions := (s.handleSubscriptionCharged env1 db event).subscriptions }
            event).subscriptions
          = deactivateActive db.subscriptions original.userID
              ++ [{ row1 with isActive := false }, row2]
        ∧ row1.isRenewal = true ∧ row1.isActive = true
        ∧ row2.isRenewal = true ∧ row2.isActive = true
        ∧ row1.userID = original.userID ∧ row2.userID = original.userID
        ∧ row1.razorpaySubscriptionID = { str := G, valid := true }
        ∧ row2.razorpaySubscriptionID = { str := G, valid := true }
        ∧ (s.handleSubscriptionCharged env2
            { db with
              subscriptions := (s.handleSubscriptionCharged env1 db event).subscriptions }
            event).subscriptions.filter
              (fun t => t.userID == original.userID && t.isActive) = [row2] := by
  have hfirst := charged_found s env1 db event G original hc hG hfind h11 h12
  rw [hfirst]
  obtain ⟨found, hf, hu, hp, hpl, hcd, hpt, ham⟩ :=
    find_gatewayID_deactivate db.subscriptions original.userID G original hfind
      [SubscriptionTransaction.row
        { DefaultRazorpayService.renewalSubscription env1 original G with
          id := env1.repoID
          createdAt := env1.createdAt
          updatedAt := env1.updatedAt }]
  have hsecond := charged_found s env2
    { db with
      subscriptions := deactivateActive db.subscriptions original.userID
        ++ [SubscriptionTransaction.row
             { DefaultRazorpayService.renewalSubscription env1 original G with
               id := env1.repoID
               createdAt := env1.createdAt
               updatedAt := env1.updatedAt }] }
    event G found hc hG hf h21 h22
  rw [hsecond, renewalSubscription_congr env2 found original G hu hp hpl hcd hpt ham, hu]
  have hstore : deactivateActive (deactivateActive db.subscriptions original.userID
        ++ [SubscriptionTransaction.row
             { DefaultRazorpayService.renewalSubscription env1 original G with
               id := env1.repoID
               createdAt := env1.createdAt
               updatedAt := env1.updatedAt }]) original.userID
      = deactivateActive db.subscriptions original.userID
        ++ [{ SubscriptionTransaction.row
             { DefaultRazorpayService.renewalSubscription env1 original G with
               id := env1.repoID
               createdAt := env1.createdAt
               updatedAt := env1.updatedAt } with isActive := false }] := by
    rw [deactivateActive_append, deactivateActive_idem]
    exact congrArg _ (deactivateActive_single _ _ rfl rfl)
  have hact := (insert_active_row
    (deactivateActive db.subscriptions original.userID
        ++ [SubscriptionTransaction.row
             { DefaultRazorpayService.renewalSubscription env1 original G with
               id := env1.repoID
               createdAt := env1.createdAt
               updatedAt := env1.updatedAt }])
    (SubscriptionTransaction.row
      { DefaultRazorpayService.renewalSubscription env2 original G with
        id := env2.repoID
        createdAt := env2.createdAt
        updatedAt := env2.updatedAt }) rfl).1
  refine ⟨rfl, rfl,
    SubscriptionTransaction.row
      { DefaultRazorpayService.renewalSubscription env1 original G with
        id := env1.repoID
        createdAt := env1.createdAt
        updatedAt := env1.updatedAt },
    SubscriptionTransaction.row
      { DefaultRazorpayService.renewalSubscription env2 original G with
        id := env2.repoID
        createdAt := env2.createdAt
        updatedAt := env2.updatedAt },
    rfl, ?_, rfl, rfl, rfl, rfl, rfl, rfl,
    (renewalRow_fields env1 original G hG).1, (renewalRow_fields env2 original G hG).1, ?_⟩
  · show deactivateActive _ original.userID ++ _ = _
    rw [hstore, List.append_assoc]
    rfl
  · exact hact

/-- C28, at two deliveries of the `subscription.charged` event for `sub_1` on
`linkedDatabase`: three records afterwards, the last one the only active one. -/
theorem charged_redelivery_witness :
    (sampleRazorpayService.handleSubscriptionCharged sampleSubEnv linkedDatabase
        (subscriptionEvent (go "subscription.charged") (go "sub_1"))).result = Except.ok ()
    ∧ (sampleRazorpayService.handleSubscriptionCharged sampleSubEnv
        { linkedDatabase with
          subscriptions := (sampleRazorpayService.handleSubscriptionCharged sampleSubEnv
            linkedDatabase
            (subscriptionEvent (go "subscription.charged") (go "sub_1"))).subscriptions }
        (subscriptionEvent (go "subscription.charged") (go "sub_1"))).result = Except.ok ()
    ∧ ((sampleRazorpayService.handleSubscriptionCharged sampleSubEnv
        { linkedDatabase with
          subscriptions := (sampleRazorpayService.handleSubscriptionCharged sampleSubEnv
            linkedDatabase
            (subscriptionEvent (go "subscription.charged") (go "sub_1"))).subscriptions }
        (subscriptionEvent (go "subscription.charged") (go "sub_1"))).subscriptions.map
          (fun t => (t.isRenewal, t.isActive)))
        = [(false, false), (true, false), (true, true)] :=
  ⟨(charged_redelivery sampleRazorpayService sampleSubEnv sampleSubEnv linkedDatabase
      (subscriptionEvent (go "subscription.charged") (go "sub_1")) (go "sub_1")
      linkedSubscription ⟨_, _, _, rfl, rfl, rfl, rfl⟩ (by decide) rfl rfl rfl rfl rfl).1,
   (charged_redelivery sampleRazorpayService sampleSubEnv sampleSubEnv linkedDatabase
      (subscriptionEvent (go "subscription.charged") (go "sub_1")) (go "sub_1")
      linkedSubscription ⟨_, _, _, rfl, rfl, rfl, rfl⟩ (by decide) rfl rfl rfl rfl rfl).2.1,
   by decide⟩

/-- C26: on `linkedDatabase`, whose active record `s-1` carries the gateway subscription
identifier `sub_1`, handling `subscription.charged` for `sub_1` succeeds and leaves the
renewal record as the one active record carrying `sub_1`; handling `subscription.cancelled`
for `sub_1` on the resulting table then looks up the first record carrying `sub_1`, the
inactive `s-1`, fails with `failed to deactivate subscription: subscription not found or
already inactive`, changes nothing, and the renewal carrying `sub_1` is still active. -/
theorem cancelled_after_charged_fails :
    (sampleRazorpayService.handleSubscriptionCharged sampleSubEnv linkedDatabase
        (subscriptionEvent (go "subscription.charged") (go "sub_1"))).error? = none
    ∧ (activeCarrying
        (sampleRazorpayService.handleSubscriptionCharged sampleSubEnv linkedDatabase
          (subscriptionEvent (go "subscription.charged") (go "sub_1"))).subscriptions
        (go "sub_1")).map (fun t => t.id) = [go "s-3"]
    ∧ (SQLSubscriptionRepository.GetSubscriptionByRazorpaySubscriptionID
        { linkedDatabase with
          subscriptions := (sampleRazorpayService.handleSubscriptionCharged sampleSubEnv
            linkedDatabase
            (subscriptionEvent (go "subscription.charged") (go "sub_1"))).subscriptions }
        (go "sub_1")).map (fun t => (t.id, t.isActive)) = some (go "s-1", false)
    ∧ (sampleRazorpayService.handleSubscriptionCancelled sampleWebhookEnv
        { linkedDatabase with
          subscriptions := (sampleRazorpayService.handleSubscriptionCharged sampleSubEnv
            linkedDatabase
            (subscriptionEvent (go "subscription.charged") (go "sub_1"))).subscriptions }
        (subscriptionEvent (go "subscription.cancelled") (go "sub_1"))).error?
      = some (GoError.prefixed (go "failed to deactivate subscription")
          (GoError.new (go "subscription not found or already inactive")))
    ∧ (sampleRazorpayService.handleSubscriptionCancelled sampleWebhookEnv
        { linkedDatabase with
          subscriptions := (sampleRazorpayService.handleSubscriptionCharged sampleSubEnv
            linkedDatabase
            (subscriptionEvent (go "subscription.charged") (go "sub_1"))).subscriptions }
        (subscriptionEvent (go "subscription.cancelled") (go "sub_1"))).subscriptions
      = (sampleRazorpayService.handleSubscriptionCharged sampleSubEnv linkedDatabase
          (subscriptionEvent (go "subscription.charged") (go "sub_1"))).subscriptions
    ∧ (activeCarrying
        (sampleRazorpayService.handleSubscriptionCancelled sampleWebhookEnv
          { linkedDatabase with
            subscriptions := (sampleRazorpayService.handleSubscriptionCharged sampleSubEnv
              linkedDatabase
              (subscriptionEvent (go "subscription.charged") (go "sub_1"))).subscriptions }
          (subscriptionEvent (go "subscription.cancelled") (go "sub_1"))).subscriptions
        (go "sub_1")).map (fun t => t.id) = [go "s-3"] := by
  decide

/-- On a table whose first record carrying `G` is active, the `subscription.cancelled`
handler succeeds; shown on `linkedDatabase`, where no record carrying `sub_1` is active
afterwards. -/
theorem cancelled_first_active :
    (sampleRazorpayService.handleSubscriptionCancelled sampleWebhookEnv linkedDatabase
        (subscriptionEvent (go "subscription.cancelled") (go "sub_1"))).error? = none
    ∧ activeCarrying
        (sampleRazorpayService.handleSubscriptionCancelled sampleWebhookEnv linkedDatabase
          (subscriptionEvent (go "subscription.cancelled") (go "sub_1"))).subscriptions
        (go "sub_1") = [] := by
  decide

theorem getByOrderID_none (db : Database) (O : GoString)
    (h : ∀ t ∈ db.subscriptions,
      ¬ (t.razorpayOrderID.valid = true ∧ t.razorpayOrderID.str = O)) :
    SQLSubscriptionRepository.GetSubscriptionByRazorpayOrderID db O = none := by
  have hnone : db.subscriptions.find?
      (fun t => t.razorpayOrderID.valid && t.razorpayOrderID.str == O) = none := by
    rw [List.find?_eq_none]
    intro t ht
    simpa using h t ht
  unfold SQLSubscriptionRepository.GetSubscriptionByRazorpayOrderID
  rw [hnone]

theorem getByOrderID_some (db : Database) (O : GoString) (original : SubscriptionTransaction)
    (h : db.subscriptions.find?
      (fun t => t.razorpayOrderID.valid && t.razorpayOrderID.str == O) = some original) :
    SQLSubscriptionRepository.GetSubscriptionByRazorpayOrderID db O
      = some (SQLSubscriptionRepository.enrichSubscriptionData db original) := by
  unfold SQLSubscriptionRepository.GetSubscriptionByRazorpayOrderID
  rw [h]

theorem column_of_valid (ns : NullString) (h : ns.valid = true) : ns.column = ns := by
  cases ns with
  | mk str valid =>
    simp only at h
    subst h
    rfl

theorem updateSubscription_payment (now : Time) (db : Database)
    (original : SubscriptionTransaction) (P : GoString)
    (hmem : original ∈ db.subscriptions)
    (hnodup : (db.subscriptions.map (fun t => t.id)).Nodup)
    (hord : original.razorpayOrderID.valid = true)
    (hcan : original.razorpaySubscriptionID.column = original.razorpaySubscriptionID)
    (hP : P ≠ []) :
    SQLSubscriptionRepository.UpdateSubscription now db
        { SQLSubscriptionRepository.enrichSubscriptionData db original with
          razorpayPaymentID := toNullString P }
      = db.subscriptions.map (fun t =>
          if t.id == original.id then
            { t with razorpayPaymentID := { str := P, valid := true }, updatedAt := now }
          else t) := by
  have hb : (P == []) = false := by simpa using hP
  have hcol : (toNullString P).column = { str := P, valid := true } := by
    simp [toNullString, NullString.column, hb]
  unfold SQLSubscriptionRepository.UpdateSubscription
  apply List.map_congr_left
  intro t ht
  cases hid : (t.id == original.id) with
  | false =>
    have hid2 : (t.id == (SQLSubscriptionRepository.enrichSubscriptionData db original).id)
        = false := hid
    simp only [hid2, Bool.false_eq_true, ↓reduceIte]
  | true =>
    have hid2 : (t.id == (SQLSubscriptionRepository.enrichSubscriptionData db original).id)
        = true := hid
    have hto : t = original :=
      List.inj_on_of_nodup_map hnodup ht hmem (by simpa using hid)
    subst hto
    simp only [hid2, ↓reduceIte, hcol]
    show ({ t with
        isActive := t.isActive
        razorpayPaymentID := { str := P, valid := true }
        razorpayOrderID := t.razorpayOrderID.column
        razorpaySubscriptionID := t.razorpaySubscriptionID.column
        nextRenewalDate := t.nextRenewalDate
        updatedAt := now } : SubscriptionTransaction) = _
    rw [column_of_valid _ hord, hcan]

theorem map_isActive_update (l : List SubscriptionTransaction) (id P : GoString)
    (now : Time) :
    (l.map (fun t =>
        if t.id == id then
          { t with razorpayPaymentID := { str := P, valid := true }, updatedAt := now }
        else t)).map (fun t => t.isActive) = l.map (fun t => t.isActive) := by
  rw [List.map_map]
  apply List.map_congr_left
  intro t _
  cases h : (t.id == id) with
  | false => simp only [Function.comp, h, Bool.false_eq_true, ↓reduceIte]
  | true => simp only [Function.comp, h, ↓reduceIte]

/-- C24 as stated fails: handling `payment.authorized` for the payment `pay_1` and the order
`order_1` on `linkedDatabase` does not only set the payment identifier of the record found,
it also moves its update timestamp from 10 to the clock reading 2000. -/
theorem paymentAuthorized_touches_updatedAt :
    (sampleRazorpayService.handlePaymentAuthorized sampleWebhookEnv linkedDatabase
        (paymentEvent (go "pay_1") (go "order_1"))).error? = none
    ∧ (sampleRazorpayService.handlePaymentAuthorized sampleWebhookEnv linkedDatabase
        (paymentEvent (go "pay_1") (go "order_1"))).subscriptions
      ≠ [{ linkedSubscription with
           razorpayPaymentID := { str := go "pay_1", valid := true } }]
    ∧ linkedDatabase.subscriptions.map (fun t => t.updatedAt) = [10]
    ∧ (sampleRazorpayService.handlePaymentAuthorized sampleWebhookEnv linkedDatabase
        (paymentEvent (go "pay_1") (go "order_1"))).subscriptions.map
          (fun t => t.updatedAt) = [2000] := by
  decide

/-- C24, amended: for a `payment.authorized` event carrying the payment identifier `P` and
the order identifier `O`: when either is missing the handler returns an error and the table
is as it was; when no record has the order identifier `O` it returns an error and the table
is as it was; otherwise, on a table with distinct record identifiers whose found record
holds a stored column value as gateway subscription identifier, it succeeds and sets on the
record found by `O` the payment identifier to `P` and the update timestamp to the clock
reading, and changes nothing else; the `isActive` flag of every record is as before. -/
theorem handlePaymentAuthorized_frame (s : DefaultRazorpayService) (env : WebhookEnv)
    (db : Database) (event : JsonObject) (P O : GoString)
    (hc : CarriesPayment event P O) :
    ((P = [] ∨ O = []) →
        s.handlePaymentAuthorized env db event
          = { result := Except.error
                (GoError.new (go "missing payment or order ID in webhook")),
              subscriptions := db.subscriptions, calls := [] })
    ∧ (P ≠ [] → O ≠ [] →
        (∀ t ∈ db.subscriptions,
          ¬ (t.razorpayOrderID.valid = true ∧ t.razorpayOrderID.str = O)) →
        s.handlePaymentAuthorized env db event
          = { result := Except.error (GoError.new
                (go "no subscription found with Razorpay order ID: " ++ O)),
              subscriptions := db.subscriptions, calls := [] })
    ∧ (∀ original, P ≠ [] → O ≠ [] →
        db.subscriptions.find?
          (fun t => t.razorpayOrderID.valid && t.razorpayOrderID.str == O) = some original →
        (db.subscriptions.map (fun t => t.id)).Nodup →
        original.razorpaySubscriptionID.column = original.razorpaySubscriptionID →
        (s.handlePaymentAuthorized env db event).result = Except.ok ()
          ∧ (s.handlePaymentAuthorized env db event).subscriptions
              = db.subscriptions.map (fun t =>
                  if t.id == original.id then
                    { t with
                      razorpayPaymentID := { str := P, valid := true }
                      updatedAt := env.updateNow }
                  else t)
          ∧ (s.handlePaymentAuthorized env db event).subscriptions.map (fun t => t.isActive)
              = db.subscriptions.map (fun t => t.isActive)) := by
  refine ⟨?_, ?_, ?_⟩
  · intro h
    have hb : (P == [] || O == []) = true := by
      rcases h with h | h
      · simp [h]
      · simp [h]
    rw [authorized_unfold s env db event P O hc]
    simp only [hb, ↓reduceIte]
  · intro hP hO hno
    have hb : (P == [] || O == []) = false := by simp [hP, hO]
    rw [authorized_unfold s env db event P O hc, getByOrderID_none db O hno]
    simp only [hb, Bool.false_eq_true, ↓reduceIte]
  · intro original hP hO hfind hnodup hcan
    have hb : (P == [] || O == []) = false := by simp [hP, hO]
    have hmem : original ∈ db.subscriptions := List.mem_of_find?_eq_some hfind
    have hord : original.razorpayOrderID.valid = true := by
      have := List.find?_some hfind
      simp only [Bool.and_eq_true] at this
      exact this.1
    have hr : s.handlePaymentAuthorized env db event
        = { result := Except.ok (),
            subscriptions := db.subscriptions.map (fun t =>
              if t.id == original.id then
                { t with
                  razorpayPaymentID := { str := P, valid := true }
                  updatedAt := env.updateNow }
              else t),
            calls := [] } := by
      rw [authorized_unfold s env db event P O hc, getByOrderID_some db O original hfind]
      simp only [hb, Bool.false_eq_true, ↓reduceIte]
      rw [updateSubscription_payment env.updateNow db original P hmem hnodup hord hcan hP]
    rw [hr]
    exact ⟨rfl, rfl, map_isActive_update db.subscriptions original.id P env.updateNow⟩

/-- C24, amended, at the event for `pay_1` and `order_1` on `linkedDatabase`. -/
theorem handlePaymentAuthorized_frame_witness :
    (sampleRazorpayService.handlePaymentAuthorized sampleWebhookEnv linkedDatabase
        (paymentEvent (go "pay_1") (go "order_1"))).result = Except.ok ()
    ∧ (sampleRazorpayService.handlePaymentAuthorized sampleWebhookEnv linkedDatabase
        (paymentEvent (go "pay_1") (go "order_1"))).subscriptions
        = linkedDatabase.subscriptions.map (fun t =>
            if t.id == linkedSubscription.id then
              { t with
                razorpayPaymentID := { str := go "pay_1", valid := true }
                updatedAt := sampleWebhookEnv.updateNow }
            else t)
    ∧ (sampleRazorpayService.handlePaymentAuthorized sampleWebhookEnv linkedDatabase
        (paymentEvent (go "pay_1") (go "order_1"))).subscriptions.map (fun t => t.isActive)
        = linkedDatabase.subscriptions.map (fun t => t.isActive) :=
  (handlePaymentAuthorized_frame sampleRazorpayService sampleWebhookEnv linkedDatabase
    (paymentEvent (go "pay_1") (go "order_1")) (go "pay_1") (go "order_1")
    ⟨_, _, _, rfl, rfl, rfl, rfl, rfl⟩).2.2 linkedSubscription (by decide) (by decide)
    rfl (by decide) rfl

end SubscriptionService
